import Mathlib

/-!
# Coffee-shop point of sale: cart handlers and order completion

A shallow embedding of the cart handlers and the order-completion flows of
`CustomerDashboard.jsx`, `StaffDashboard.jsx`, `Dashboard.jsx` (component
`DashboardPage`) and `supabase.js`, of the payment selection of
`PaymentMethod.jsx`, of the menu loaders, of `handleSave` of
`MenuManagement.jsx`, of the validation of `SignUp.jsx` and `SignIn.jsx`, and of
the screen choice of `App.tsx`.

Modelling conventions.

* A JavaScript number that carries money is represented by its exact value, a
  rational (`ℚ`); quantities and counters are integers. Sums and products are
  exact: they are not rounded to the nearest double. `toFixed(2)` picks the
  hundredth closest to the exact value of the number, the larger one in
  magnitude on a tie, and `parseFloat` of the digits it prints is that
  hundredth. The amounts the examples evaluate (5.50, 4.25, 1/256, their sums and
  products) are dyadic, so double arithmetic computes them without rounding.
* A menu item id is a natural number; the id `0` is the falsy one.
* React state is passed explicitly: a handler maps the state of the render in
  which it was created to the next state. `alert` appends to `alerts`.
  `totalPrice` of `CustomerDashboard` (kept up to date by an effect on `cart`)
  is the derived value `totalPrice cart`.
* The persistence collaborator is a `Backend`: three tables, the identifier the
  next inserted transaction receives, and the list of calls issued so far. Every
  call is recorded when it is issued. A call fails when the `Faults` record holds
  an error for it; a failed call leaves the tables as they were.
* The clock and `Math.random()` are read from an `Env`.
-/

namespace CoffeePOS

/-! ## Data model -/

/-- An error object: a collaborator error (`message`, `code`) or a JavaScript
`Error` (no `code`). -/
structure Err where
  message : String
  code : Option String
  deriving DecidableEq

/-- The result object of a collaborator call: the pair `data`, `error`. -/
structure Response (α : Type) where
  data : Option α
  error : Option Err

/-- A row of `menu_items` as the dashboards use it. -/
structure MenuItem where
  id : Nat
  name : String
  emoji : String
  price : ℚ
  description : String
  is_active : Bool
  deriving DecidableEq

/-- The object inserted into `transactions`. -/
structure TransactionInsert where
  user_id : Option String
  transaction_date : String
  transaction_time : String
  total_amount : ℚ
  payment_method : Option String
  status : String
  deriving DecidableEq

/-- A row of `transactions`: the inserted object with the identifier assigned on
insert. -/
structure TransactionRow extends TransactionInsert where
  id : Nat
  deriving DecidableEq

/-- A row of `transaction_items`. -/
structure TransactionItem where
  transaction_id : Nat
  menu_item_id : Nat
  quantity : Int
  price_per_unit : ℚ
  subtotal : ℚ
  deriving DecidableEq

/-- A row of `daily_statistics`. -/
structure DailyStat where
  stat_date : String
  total_revenue : ℚ
  total_orders : Int
  total_customers : Int
  total_smiles : Int
  updated_at : Option String
  deriving DecidableEq

/-- The object passed to `.update(...)` on `daily_statistics`: revenue and order
count are always set, the other columns only by some flows. -/
structure DailyStatUpdate where
  total_revenue : ℚ
  total_orders : Int
  total_customers : Option Int
  total_smiles : Option Int
  updated_at : Option String
  deriving DecidableEq

/-- A call issued to the persistence collaborator. -/
inductive Call where
  | insertTransactions (row : TransactionInsert)
  | insertTransactionItems (rows : List TransactionItem)
  | selectDailyStatistics (stat_date : String) (single : Bool)
  | updateDailyStatistics (stat_date : String) (patch : DailyStatUpdate)
  | insertDailyStatistics (row : DailyStat)
  | deleteTransactions (id : Option Nat)
  deriving DecidableEq

/-- The step of the completion sequence a call belongs to. -/
inductive CallKind where
  | orderInsert
  | orderLinesInsert
  | statRead
  | statWrite
  | orderDelete
  deriving DecidableEq

def Call.kind : Call → CallKind
  | .insertTransactions _ => .orderInsert
  | .insertTransactionItems _ => .orderLinesInsert
  | .selectDailyStatistics _ _ => .statRead
  | .updateDailyStatistics _ _ => .statWrite
  | .insertDailyStatistics _ => .statWrite
  | .deleteTransactions _ => .orderDelete

/-- The persistence collaborator: its tables and the calls issued so far. -/
structure Backend where
  transactions : List TransactionRow
  transaction_items : List TransactionItem
  daily_statistics : List DailyStat
  nextId : Nat
  calls : List Call

/-- Which collaborator calls of a completion fail, and with which error. -/
structure Faults where
  transactionsInsert : Option Err
  transactionItemsInsert : Option Err
  dailyStatisticsSelect : Option Err
  dailyStatisticsWrite : Option Err

def Faults.none : Faults := ⟨Option.none, Option.none, Option.none, Option.none⟩

/-- Readings of the clock and of `Math.random()` during one handler run. -/
structure Env where
  today : String
  now : String
  isoNow : String
  random : ℚ

/-- The four counters a dashboard keeps in its local `stats` state. -/
structure Stats where
  revenue : ℚ
  orders : Int
  customers : Int
  smiles : Int
  deriving DecidableEq

/-! ## Number formatting -/

/-- The integer `n` for which `n / 100` is closest to `|x|`, the larger one on a
tie: the digits `x.toFixed(2)` prints. -/
def hundredths (x : ℚ) : Nat := (⌊|x| * 100 + 1 / 2⌋).toNat

/-- `x.toFixed(2)`. -/
def toFixed (x : ℚ) : String :=
  (if x < 0 then "-" else "") ++ toString (hundredths x / 100) ++ "."
    ++ (if hundredths x % 100 < 10 then "0" else "") ++ toString (hundredths x % 100)

/-- `parseFloat(x.toFixed(2))`, for `x` the exact value of the number: the
hundredth closest to `x`, with the sign of `x`. The result is kept exact (it is
not rounded to the nearest double). -/
def parseFloatToFixed (x : ℚ) : ℚ :=
  if x < 0 then -((hundredths x : ℚ) / 100) else (hundredths x : ℚ) / 100

/-- `s.toLowerCase()`, on the ASCII letters: `A` to `Z` are mapped to `a` to `z`,
every other character is left as it is (`String.prototype.toLowerCase` also
maps the cased characters outside ASCII). -/
def toLowerCase (s : String) : String := ⟨s.data.map Char.toLower⟩

/-- `s.includes(t)`. -/
def includes (s t : String) : Bool := decide (t.data <:+: s.data)

/-! ## Collaborator calls -/

namespace Backend

def record (b : Backend) (c : Call) : Backend := { b with calls := b.calls ++ [c] }

/-- `supabase.from("transactions").insert([row]).select()`. -/
def insertTransactions (b : Backend) (fault : Option Err) (row : TransactionInsert) :
    Backend × Response (List TransactionRow) :=
  match fault with
  | some e => (b.record (.insertTransactions row), ⟨none, some e⟩)
  | none =>
    ({ b.record (.insertTransactions row) with
        transactions := b.transactions ++ [{ toTransactionInsert := row, id := b.nextId }]
        nextId := b.nextId + 1 },
      ⟨some [{ toTransactionInsert := row, id := b.nextId }], none⟩)

/-- `supabase.from("transaction_items").insert(rows)`. -/
def insertTransactionItems (b : Backend) (fault : Option Err) (rows : List TransactionItem) :
    Backend × Response Unit :=
  match fault with
  | some e => (b.record (.insertTransactionItems rows), ⟨none, some e⟩)
  | none =>
    ({ b.record (.insertTransactionItems rows) with
        transaction_items := b.transaction_items ++ rows },
      ⟨none, none⟩)

/-- `supabase.from("daily_statistics").select("*").eq("stat_date", date)`. -/
def selectDailyStatistics (b : Backend) (fault : Option Err) (date : String) :
    Backend × Response (List DailyStat) :=
  match fault with
  | some e => (b.record (.selectDailyStatistics date false), ⟨none, some e⟩)
  | none =>
    (b.record (.selectDailyStatistics date false),
      ⟨some (b.daily_statistics.filter (fun r => r.stat_date == date)), none⟩)

/-- The same query ended by `.single()`: a row when exactly one matches, otherwise
no data and the error `PGRST116`. -/
def selectDailyStatisticsSingle (b : Backend) (fault : Option Err) (date : String) :
    Backend × Response DailyStat :=
  match fault with
  | some e => (b.record (.selectDailyStatistics date true), ⟨none, some e⟩)
  | none =>
    match b.daily_statistics.filter (fun r => r.stat_date == date) with
    | [r] => (b.record (.selectDailyStatistics date true), ⟨some r, none⟩)
    | _ =>
      (b.record (.selectDailyStatistics date true),
        ⟨none, some ⟨"JSON object requested, multiple (or no) rows returned", some "PGRST116"⟩⟩)

def applyUpdate (patch : DailyStatUpdate) (r : DailyStat) : DailyStat :=
  { r with
    total_revenue := patch.total_revenue
    total_orders := patch.total_orders
    total_customers := patch.total_customers.getD r.total_customers
    total_smiles := patch.total_smiles.getD r.total_smiles
    updated_at := match patch.updated_at with
      | some t => some t
      | none => r.updated_at }

/-- `supabase.from("daily_statistics").update(patch).eq("stat_date", date)`. -/
def updateDailyStatistics (b : Backend) (fault : Option Err) (date : String)
    (patch : DailyStatUpdate) : Backend × Response Unit :=
  match fault with
  | some e => (b.record (.updateDailyStatistics date patch), ⟨none, some e⟩)
  | none =>
    ({ b.record (.updateDailyStatistics date patch) with
        daily_statistics := b.daily_statistics.map
          (fun r => if r.stat_date == date then applyUpdate patch r else r) },
      ⟨none, none⟩)

/-- `supabase.from("daily_statistics").insert([row])`. -/
def insertDailyStatistics (b : Backend) (fault : Option Err) (row : DailyStat) :
    Backend × Response Unit :=
  match fault with
  | some e => (b.record (.insertDailyStatistics row), ⟨none, some e⟩)
  | none =>
    ({ b.record (.insertDailyStatistics row) with
        daily_statistics := b.daily_statistics ++ [row] },
      ⟨none, none⟩)

end Backend

/-- The `TypeError` raised by `transactionData[0].id` when no row came back. -/
def typeErrorNoRow : Err :=
  ⟨"Cannot read properties of undefined (reading \x27id\x27)", none⟩

/-! ## Cart handlers -/

/-- A cart line of `StaffDashboard` and `DashboardPage`: the menu item spread into
a new object together with `quantity`. -/
structure CartItem extends MenuItem where
  quantity : Int
  deriving DecidableEq

namespace CustomerDashboard

/-- A cart line of `CustomerDashboard`. -/
structure CartLine where
  id : Nat
  name : String
  emoji : String
  price : ℚ
  quantity : Int
  subtotal : ℚ
  deriving DecidableEq

/-- The `totalPrice` state: the effect on `cart` sets it to this value. -/
def totalPrice (cart : List CartLine) : ℚ :=
  cart.foldl (fun sum item => sum + item.subtotal) 0

def handleAddToCart (cart : List CartLine) (item : MenuItem) : List CartLine :=
  match cart.find? (fun cartItem => cartItem.id == item.id) with
  | some _ =>
    cart.map (fun cartItem =>
      if cartItem.id == item.id then
        { cartItem with
          quantity := cartItem.quantity + 1
          subtotal := ((cartItem.quantity + 1 : Int) : ℚ) * item.price }
      else cartItem)
  | none =>
    cart ++ [{ id := item.id, name := item.name, emoji := item.emoji, price := item.price,
               quantity := 1, subtotal := item.price }]

def handleUpdateQuantity (cart : List CartLine) (itemId : Nat) (newQuantity : Int) :
    List CartLine :=
  if newQuantity ≤ 0 then
    cart.filter (fun item => item.id != itemId)
  else
    cart.map (fun cartItem =>
      if cartItem.id == itemId then
        { cartItem with
          quantity := newQuantity
          subtotal := (newQuantity : ℚ) * cartItem.price }
      else cartItem)

def handleRemoveFromCart (cart : List CartLine) (itemId : Nat) : List CartLine :=
  cart.filter (fun item => item.id != itemId)

end CustomerDashboard

namespace StaffDashboard

def handleAddToCart (cartItems : List CartItem) (item : MenuItem) : List CartItem :=
  match cartItems.find? (fun cartItem => cartItem.id == item.id) with
  | some _ =>
    cartItems.map (fun cartItem =>
      if cartItem.id == item.id then { cartItem with quantity := cartItem.quantity + 1 }
      else cartItem)
  | none => cartItems ++ [{ toMenuItem := item, quantity := 1 }]

def handleRemoveItem (cartItems : List CartItem) (itemId : Nat) : List CartItem :=
  cartItems.filter (fun item => item.id != itemId)

def handleUpdateQuantity (cartItems : List CartItem) (itemId : Nat) (quantity : Int) :
    List CartItem :=
  if quantity ≤ 0 then
    handleRemoveItem cartItems itemId
  else
    cartItems.map (fun item => if item.id == itemId then { item with quantity := quantity } else item)

end StaffDashboard

namespace DashboardPage

def handleAddToCart (cartItems : List CartItem) (item : MenuItem) : List CartItem :=
  match cartItems.find? (fun cartItem => cartItem.id == item.id) with
  | some _ =>
    cartItems.map (fun cartItem =>
      if cartItem.id == item.id then { cartItem with quantity := cartItem.quantity + 1 }
      else cartItem)
  | none => cartItems ++ [{ toMenuItem := item, quantity := 1 }]

def handleRemoveItem (cartItems : List CartItem) (itemId : Nat) : List CartItem :=
  cartItems.filter (fun item => item.id != itemId)

def handleUpdateQuantity (cartItems : List CartItem) (itemId : Nat) (newQuantity : Int) :
    List CartItem :=
  if newQuantity ≤ 0 then
    handleRemoveItem cartItems itemId
  else
    cartItems.map (fun item =>
      if item.id == itemId then { item with quantity := newQuantity } else item)

end DashboardPage

/-- One user action on a cart. -/
inductive CartAction where
  | add (item : MenuItem)
  | update (itemId : Nat) (quantity : Int)
  | remove (itemId : Nat)

def CustomerDashboard.step (cart : List CustomerDashboard.CartLine) :
    CartAction → List CustomerDashboard.CartLine
  | .add item => handleAddToCart cart item
  | .update itemId q => handleUpdateQuantity cart itemId q
  | .remove itemId => handleRemoveFromCart cart itemId

def StaffDashboard.step (cart : List CartItem) : CartAction → List CartItem
  | .add item => handleAddToCart cart item
  | .update itemId q => handleUpdateQuantity cart itemId q
  | .remove itemId => handleRemoveItem cart itemId

def DashboardPage.step (cart : List CartItem) : CartAction → List CartItem
  | .add item => handleAddToCart cart item
  | .update itemId q => handleUpdateQuantity cart itemId q
  | .remove itemId => handleRemoveItem cart itemId

/-- The cart a dashboard holds after a sequence of actions, starting from `cart`. -/
def CustomerDashboard.run (cart : List CustomerDashboard.CartLine) (actions : List CartAction) :
    List CustomerDashboard.CartLine :=
  actions.foldl CustomerDashboard.step cart

def StaffDashboard.run (cart : List CartItem) (actions : List CartAction) : List CartItem :=
  actions.foldl StaffDashboard.step cart

def DashboardPage.run (cart : List CartItem) (actions : List CartAction) : List CartItem :=
  actions.foldl DashboardPage.step cart

/-! ## Order completion: `CustomerDashboard` -/

namespace CustomerDashboard

/-- The state of the component the completion handler reads and writes. -/
structure State where
  user_id : String
  cart : List CartLine
  loading : Bool
  showCart : Bool
  selectedPayment : String
  alerts : List String

def emptyCartAlert : String := "Your cart is empty!"

def failureAlert : String := "Failed to complete order. Please try again."

def successAlert (total : ℚ) : String :=
  "✅ Order placed successfully! Total: ₱" ++ toFixed total

/-- The statistics write of the handler and what follows it. The result of the
awaited write is not inspected. -/
def writeStatistics (env : Env) (f : Faults) (b : Backend) (st : State)
    (statsData : Option (List DailyStat)) : Backend × Except Err State :=
  let b4 :=
    match statsData with
    | some (s0 :: _) =>
      (b.updateDailyStatistics f.dailyStatisticsWrite env.today
        { total_revenue := s0.total_revenue + totalPrice st.cart
          total_orders := s0.total_orders + 1
          total_customers := some (s0.total_customers + 1)
          total_smiles := none
          updated_at := none }).1
    | _ =>
      (b.insertDailyStatistics f.dailyStatisticsWrite
        { stat_date := env.today
          total_revenue := totalPrice st.cart
          total_orders := 1
          total_customers := 1
          total_smiles := 0
          updated_at := none }).1
  (b4, .ok { st with
    cart := []
    showCart := false
    alerts := st.alerts ++ [successAlert (totalPrice st.cart)] })

/-- The body of the `try` block: `.error e` when `e` is thrown. -/
def tryBlock (env : Env) (f : Faults) (b : Backend) (st : State) : Backend × Except Err State :=
  let r1 := b.insertTransactions f.transactionsInsert
    { user_id := some st.user_id
      transaction_date := env.today
      transaction_time := env.now
      total_amount := totalPrice st.cart
      payment_method := some st.selectedPayment
      status := "completed" }
  match r1.2.error with
  | some transactionError => (r1.1, .error transactionError)
  | none =>
    match r1.2.data with
    | some (t :: _) =>
      let transactionId := t.id
      let itemsToInsert : List TransactionItem := st.cart.map (fun item =>
        { transaction_id := transactionId
          menu_item_id := item.id
          quantity := item.quantity
          price_per_unit := item.price
          subtotal := item.subtotal })
      let r2 := r1.1.insertTransactionItems f.transactionItemsInsert itemsToInsert
      match r2.2.error with
      | some itemsError => (r2.1, .error itemsError)
      | none =>
        let r3 := r2.1.selectDailyStatistics f.dailyStatisticsSelect env.today
        match r3.2.error with
        | some statsError =>
          if statsError.code ≠ some "PGRST116" then (r3.1, .error statsError)
          else writeStatistics env f r3.1 st r3.2.data
        | none => writeStatistics env f r3.1 st r3.2.data
    | _ => (r1.1, .error typeErrorNoRow)

def handleCompleteOrder (env : Env) (f : Faults) (b : Backend) (st : State) : Backend × State :=
  if st.cart.length = 0 then
    (b, { st with alerts := st.alerts ++ [emptyCartAlert] })
  else
    match tryBlock env f b { st with loading := true } with
    | (b1, .ok st1) => (b1, { st1 with loading := false })
    | (b1, .error _) =>
      (b1, { st with loading := false, alerts := st.alerts ++ [failureAlert] })

end CustomerDashboard

/-! ## Order completion: `StaffDashboard` -/

namespace StaffDashboard

structure State where
  user_id : String
  stats : Stats
  cartItems : List CartItem
  selectedPayment : String
  alerts : List String

def orderTotal (cartItems : List CartItem) : ℚ :=
  cartItems.foldl (fun sum item => sum + item.price * (item.quantity : ℚ)) 0

def failureAlert (error : Err) : String := "❌ Error: " ++ error.message

def successAlert (total : ℚ) : String :=
  "✅ Order completed! Total: $" ++ toFixed total ++ "\n\nAdmin dashboard updated!"

/-- The body of the `try` block: `.error e` when `e` is thrown. -/
def tryBlock (env : Env) (f : Faults) (b : Backend) (st : State) : Backend × Except Err State :=
  let total := orderTotal st.cartItems
  let r1 := b.insertTransactions f.transactionsInsert
    { user_id := some st.user_id
      transaction_date := env.today
      transaction_time := env.now
      total_amount := total
      payment_method := some (toLowerCase st.selectedPayment)
      status := "completed" }
  match r1.2.error with
  | some txError => (r1.1, .error txError)
  | none =>
    match r1.2.data with
    | some (t :: _) =>
      let transactionId := t.id
      let transactionItems : List TransactionItem := st.cartItems.map (fun item =>
        { transaction_id := transactionId
          menu_item_id := item.id
          quantity := item.quantity
          price_per_unit := item.price
          subtotal := item.price * (item.quantity : ℚ) })
      let r2 := r1.1.insertTransactionItems f.transactionItemsInsert transactionItems
      match r2.2.error with
      | some itemsError => (r2.1, .error itemsError)
      | none =>
        let r3 := r2.1.selectDailyStatisticsSingle f.dailyStatisticsSelect env.today
        let b4 :=
          match r3.2.data with
          | some statsData =>
            (r3.1.updateDailyStatistics f.dailyStatisticsWrite env.today
              { total_revenue := statsData.total_revenue + total
                total_orders := statsData.total_orders + 1
                total_customers := none
                total_smiles := some (statsData.total_smiles + 1)
                updated_at := none }).1
          | none =>
            (r3.1.insertDailyStatistics f.dailyStatisticsWrite
              { stat_date := env.today
                total_revenue := total
                total_orders := 1
                total_customers := 1
                total_smiles := 1
                updated_at := none }).1
        (b4, .ok { st with
          stats :=
            { revenue := st.stats.revenue + total
              orders := st.stats.orders + 1
              customers := st.stats.customers
              smiles := st.stats.smiles + 1 }
          cartItems := []
          alerts := st.alerts ++ [successAlert total] })
    | _ => (r1.1, .error typeErrorNoRow)

def handleCompleteOrder (env : Env) (f : Faults) (b : Backend) (st : State) : Backend × State :=
  if st.cartItems.length = 0 then (b, st)
  else
    match tryBlock env f b st with
    | (b1, .ok st1) => (b1, st1)
    | (b1, .error error) => (b1, { st with alerts := st.alerts ++ [failureAlert error] })

end StaffDashboard

/-! ## `supabase.js` -/

/-- `supabase.from("transactions").delete()` filtered by `.eq("id", id)` for
`some id`, by `.gt("id", 0)` for `none`. -/
def Backend.deleteTransactions (b : Backend) (fault : Option Err) (id : Option Nat) :
    Backend × Response Unit :=
  match fault with
  | some e => (b.record (.deleteTransactions id), ⟨none, some e⟩)
  | none =>
    ({ b.record (.deleteTransactions id) with
        transactions := b.transactions.filter (fun r =>
          match id with
          | some i => r.id != i
          | none => !(decide (0 < r.id))) },
      ⟨none, none⟩)

def deleteTransaction (fault : Option Err) (b : Backend) (transactionId : Nat) : Backend × Bool :=
  let r := b.deleteTransactions fault (some transactionId)
  match r.2.error with
  | some _ => (r.1, false)
  | none => (r.1, true)

def clearAllTransactions (fault : Option Err) (b : Backend) : Backend × Bool :=
  let r := b.deleteTransactions fault none
  match r.2.error with
  | some _ => (r.1, false)
  | none => (r.1, true)

/-- `updateDailyStatistics(amount)`. An error of the write is thrown inside the
`try` block and caught by its `catch`, which only logs it: nothing reaches the
caller. The error of the read is not inspected. -/
def updateDailyStatistics (env : Env) (f : Faults) (b : Backend) (amount : ℚ) : Backend :=
  let r := b.selectDailyStatisticsSingle f.dailyStatisticsSelect env.today
  match r.2.data with
  | some existingStats =>
    (r.1.updateDailyStatistics f.dailyStatisticsWrite env.today
      { total_revenue := existingStats.total_revenue + amount
        total_orders := existingStats.total_orders + 1
        total_customers := none
        total_smiles := none
        updated_at := some env.isoNow }).1
  | none =>
    (r.1.insertDailyStatistics f.dailyStatisticsWrite
      { stat_date := env.today
        total_revenue := amount
        total_orders := 1
        total_customers := 1
        total_smiles := ⌊env.random * 10⌋ + 1
        updated_at := none }).1

/-- The argument of `createTransaction`. -/
structure Transaction where
  items : List CartItem
  total : ℚ
  paymentMethod : String

/-- `quantity || 1`. -/
def quantityOrOne (quantity : Int) : Int := if quantity = 0 then 1 else quantity

def missingIdsError : Err := ⟨"Invalid items: missing menu item IDs", none⟩

def noDataError : Err := ⟨"No transaction data returned", none⟩

def schemaError : Err :=
  ⟨"Database Error: The \x27payment_method\x27 column needs to be added to your Supabase database.\n\n"
    ++ "📖 FIX: Open PAYMENT_METHOD_MIGRATION.md in your project for step-by-step instructions.\n\n"
    ++ "🔧 Quick Fix: In Supabase SQL Editor, run:\n"
    ++ "ALTER TABLE transactions ADD COLUMN IF NOT EXISTS payment_method VARCHAR(50) DEFAULT \x27cash\x27;",
   none⟩

/-- `createTransaction(transaction)`: `.ok transactionId` on return, `.error e`
when `e` is thrown (the `catch` of the function logs and throws again). -/
def createTransaction (env : Env) (f : Faults) (b : Backend) (transaction : Transaction) :
    Backend × Except Err Nat :=
  let itemsWithIds := transaction.items.filter (fun item => item.id != 0)
  if itemsWithIds.length = 0 then (b, .error missingIdsError)
  else
    let transactionData : TransactionInsert :=
      { user_id := none
        transaction_date := env.today
        transaction_time := env.now
        total_amount := parseFloatToFixed transaction.total
        payment_method :=
          if transaction.paymentMethod ≠ "" then
            some (toLowerCase
              (if transaction.paymentMethod ≠ "" then transaction.paymentMethod else "cash"))
          else none
        status := "completed" }
    let r1 := b.insertTransactions f.transactionsInsert transactionData
    match r1.2.error with
    | some transError =>
      if includes transError.message "payment_method" then (r1.1, .error schemaError)
      else (r1.1, .error transError)
    | none =>
      match r1.2.data with
      | some (t :: _) =>
        let transactionId := t.id
        let itemsToInsert : List TransactionItem := itemsWithIds.map (fun item =>
          { transaction_id := transactionId
            menu_item_id := item.id
            quantity := quantityOrOne item.quantity
            price_per_unit := parseFloatToFixed item.price
            subtotal := parseFloatToFixed (item.price * (quantityOrOne item.quantity : ℚ)) })
        let r2 := r1.1.insertTransactionItems f.transactionItemsInsert itemsToInsert
        match r2.2.error with
        | some itemsError => (r2.1, .error itemsError)
        | none => (updateDailyStatistics env f r2.1 transaction.total, .ok transactionId)
      | _ => (r1.1, .error noDataError)

/-! ## Order completion: `DashboardPage` -/

namespace DashboardPage

structure State where
  stats : Stats
  cartItems : List CartItem
  selectedPayment : String
  alerts : List String

def orderTotal (cartItems : List CartItem) : ℚ :=
  cartItems.foldl (fun sum item => sum + item.price * (item.quantity : ℚ)) 0

def emptyCartAlert : String := "Please add items to cart"

def failureAlert : String := "Error completing order. Please try again."

def successAlert : String := "Order completed successfully!"

def handleCompleteOrder (env : Env) (f : Faults) (b : Backend) (st : State) : Backend × State :=
  if st.cartItems.length = 0 then
    (b, { st with alerts := st.alerts ++ [emptyCartAlert] })
  else
    let total := orderTotal st.cartItems
    match createTransaction env f b
        { items := st.cartItems, total := total, paymentMethod := st.selectedPayment } with
    | (b1, .ok _) =>
      (b1, { st with
        stats :=
          { st.stats with
            revenue := st.stats.revenue + total
            orders := st.stats.orders + 1
            smiles := st.stats.smiles + 1 }
        cartItems := []
        alerts := st.alerts ++ [successAlert] })
    | (b1, .error _) => (b1, { st with alerts := st.alerts ++ [failureAlert] })

end DashboardPage

/-! ## Reading the call log -/

/-- The calls a handler run added to the log: the log after it, without the
calls that were already there. -/
def newCalls (before after : Backend) : List Call := after.calls.drop before.calls.length

/-- The objects passed to the `transactions` inserts among `calls`. -/
def orderInserts : List Call → List TransactionInsert
  | [] => []
  | .insertTransactions row :: cs => row :: orderInserts cs
  | _ :: cs => orderInserts cs

/-- The rows passed to the `transaction_items` inserts among `calls`. -/
def orderLineInserts : List Call → List TransactionItem
  | [] => []
  | .insertTransactionItems rows :: cs => rows ++ orderLineInserts cs
  | _ :: cs => orderLineInserts cs

/-! ## Payloads and final states of the completion handlers -/

namespace CustomerDashboard

/-- The object the handler inserts into `transactions`. -/
def orderRow (env : Env) (st : State) : TransactionInsert :=
  { user_id := some st.user_id
    transaction_date := env.today
    transaction_time := env.now
    total_amount := totalPrice st.cart
    payment_method := some st.selectedPayment
    status := "completed" }

/-- The rows the handler inserts into `transaction_items` for the order `transactionId`. -/
def orderLines (transactionId : Nat) (cart : List CartLine) : List TransactionItem :=
  cart.map (fun item => ⟨transactionId, item.id, item.quantity, item.price, item.subtotal⟩)

/-- The state the handler leaves when an error was thrown. -/
def failed (st : State) : State :=
  { st with loading := false, alerts := st.alerts ++ [failureAlert] }

/-- The state the handler leaves after the last step. -/
def succeeded (st : State) : State :=
  { st with
    cart := []
    showCart := false
    loading := false
    alerts := st.alerts ++ [successAlert (totalPrice st.cart)] }

/-- The backend after the two inserts of the handler succeeded. -/
def afterInserts (env : Env) (b : Backend) (st : State) : Backend :=
  { b with
    transactions := b.transactions ++ [{ toTransactionInsert := orderRow env st, id := b.nextId }]
    transaction_items := b.transaction_items ++ orderLines b.nextId st.cart
    nextId := b.nextId + 1
    calls := b.calls ++ [.insertTransactions (orderRow env st),
      .insertTransactionItems (orderLines b.nextId st.cart)] }

end CustomerDashboard

namespace StaffDashboard

/-- The object the handler inserts into `transactions`. -/
def orderRow (env : Env) (st : State) : TransactionInsert :=
  { user_id := some st.user_id
    transaction_date := env.today
    transaction_time := env.now
    total_amount := orderTotal st.cartItems
    payment_method := some (toLowerCase st.selectedPayment)
    status := "completed" }

/-- The rows the handler inserts into `transaction_items` for the order `transactionId`. -/
def orderLines (transactionId : Nat) (cartItems : List CartItem) : List TransactionItem :=
  cartItems.map (fun item =>
    ⟨transactionId, item.id, item.quantity, item.price, item.price * (item.quantity : ℚ)⟩)

/-- The state the handler leaves when `error` was thrown. -/
def failed (st : State) (error : Err) : State :=
  { st with alerts := st.alerts ++ [failureAlert error] }

/-- The state the handler leaves after the last step. -/
def succeeded (st : State) : State :=
  { st with
    stats :=
      { revenue := st.stats.revenue + orderTotal st.cartItems
        orders := st.stats.orders + 1
        customers := st.stats.customers
        smiles := st.stats.smiles + 1 }
    cartItems := []
    alerts := st.alerts ++ [successAlert (orderTotal st.cartItems)] }

end StaffDashboard

/-- The object `createTransaction` inserts into `transactions`. -/
def createTransactionRow (env : Env) (transaction : Transaction) : TransactionInsert :=
  { user_id := none
    transaction_date := env.today
    transaction_time := env.now
    total_amount := parseFloatToFixed transaction.total
    payment_method :=
      if transaction.paymentMethod ≠ "" then some (toLowerCase transaction.paymentMethod) else none
    status := "completed" }

/-- The rows `createTransaction` inserts into `transaction_items` for the order
`transactionId`. -/
def createTransactionLines (transactionId : Nat) (items : List CartItem) : List TransactionItem :=
  (items.filter (fun item => item.id != 0)).map (fun item =>
    ⟨transactionId, item.id, quantityOrOne item.quantity, parseFloatToFixed item.price,
      parseFloatToFixed (item.price * (quantityOrOne item.quantity : ℚ))⟩)

/-- The backend after the two inserts of `createTransaction` succeeded. -/
def createTransactionInserted (env : Env) (b : Backend) (transaction : Transaction) : Backend :=
  { b with
    transactions := b.transactions ++
      [{ toTransactionInsert := createTransactionRow env transaction, id := b.nextId }]
    transaction_items := b.transaction_items ++ createTransactionLines b.nextId transaction.items
    nextId := b.nextId + 1
    calls := b.calls ++ [.insertTransactions (createTransactionRow env transaction),
      .insertTransactionItems (createTransactionLines b.nextId transaction.items)] }

namespace DashboardPage

/-- The argument the handler passes to `createTransaction`. -/
def transactionOf (st : State) : Transaction :=
  { items := st.cartItems, total := orderTotal st.cartItems, paymentMethod := st.selectedPayment }

/-- The state the handler leaves when an error was thrown. -/
def failed (st : State) : State :=
  { st with alerts := st.alerts ++ [failureAlert] }

/-- The state the handler leaves after `createTransaction` returned. -/
def succeeded (st : State) : State :=
  { st with
    stats :=
      { st.stats with
        revenue := st.stats.revenue + orderTotal st.cartItems
        orders := st.stats.orders + 1
        smiles := st.stats.smiles + 1 }
    cartItems := []
    alerts := st.alerts ++ [successAlert] }

end DashboardPage

/-! ## Example data -/

def exampleEnv : Env := ⟨"2025-01-15", "10:30:00", "2025-01-15T02:30:00.000Z", 1 / 2⟩

/-- A backend with empty tables and an empty call log. -/
def emptyBackend : Backend := ⟨[], [], [], 1, []⟩

def latte : MenuItem :=
  ⟨1, "Caramel Latte", "☕", 11 / 2, "Rich espresso with sweet caramel and steamed milk", true⟩

def muffin : MenuItem := ⟨2, "Blueberry Muffin", "🧁", 17 / 4, "Fresh baked with plump blueberries", true⟩

/-- The cart of two lattes and one muffin in `CustomerDashboard`. -/
def CustomerDashboard.exampleState : CustomerDashboard.State :=
  { user_id := "u-1"
    cart := [⟨1, "Caramel Latte", "☕", 11 / 2, 2, 11⟩, ⟨2, "Blueberry Muffin", "🧁", 17 / 4, 1, 17 / 4⟩]
    loading := false
    showCart := true
    selectedPayment := "cash"
    alerts := [] }

/-- The cart of two lattes and one muffin in `StaffDashboard`. -/
def StaffDashboard.exampleState : StaffDashboard.State :=
  { user_id := "u-2"
    stats := ⟨0, 0, 0, 0⟩
    cartItems := [{ toMenuItem := latte, quantity := 2 }, { toMenuItem := muffin, quantity := 1 }]
    selectedPayment := "cash"
    alerts := [] }

/-- The cart of two lattes and one muffin in `DashboardPage`. -/
def DashboardPage.exampleState : DashboardPage.State :=
  { stats := ⟨1847.5, 67, 18, 52⟩
    cartItems := [{ toMenuItem := latte, quantity := 2 }, { toMenuItem := muffin, quantity := 1 }]
    selectedPayment := "cash"
    alerts := [] }

/-- A cart of two lines priced 1/256 each in `DashboardPage`. -/
def DashboardPage.fractionState : DashboardPage.State :=
  { stats := ⟨1847.5, 67, 18, 52⟩
    cartItems :=
      [{ toMenuItem := ⟨1, "Sugar", "🧂", 1 / 256, "", true⟩, quantity := 1 },
       { toMenuItem := ⟨2, "Stirrer", "🥄", 1 / 256, "", true⟩, quantity := 1 }]
    selectedPayment := "cash"
    alerts := [] }

/-- The steps of a completion in the order they are to be issued. -/
def stepOrder : List CallKind := [.orderInsert, .orderLinesInsert, .statRead, .statWrite]

/-- The steps to which the calls added by a handler run belong, in the order of
the log. -/
def newSteps (before after : Backend) : List CallKind := (newCalls before after).map Call.kind

/-- Only the DailyStatistic write fails, with a permission error. -/
def statWriteFails : Faults :=
  { Faults.none with dailyStatisticsWrite := some ⟨"permission denied for table daily_statistics", some "42501"⟩ }

/-- Only the Order insert fails, with the message "boom". -/
def orderInsertFails : Faults :=
  { Faults.none with transactionsInsert := some ⟨"boom", none⟩ }

/-- Only the OrderLines insert fails, with a foreign-key error. -/
def orderLinesInsertFails : Faults :=
  { Faults.none with transactionItemsInsert := some ⟨"insert or update on table violates foreign key constraint", some "23503"⟩ }

/-- A backend that already holds one order (id 1) with one order line and the
statistics row of an earlier day. -/
def seededBackend : Backend :=
  { transactions :=
      [{ user_id := some "u-0", transaction_date := "2025-01-14", transaction_time := "09:00:00",
         total_amount := 11 / 2, payment_method := some "cash", status := "completed", id := 1 }]
    transaction_items := [⟨1, 1, 1, 11 / 2, 11 / 2⟩]
    daily_statistics := [⟨"2025-01-14", 11 / 2, 1, 1, 0, none⟩]
    nextId := 2
    calls := [] }

/-- `cartTotal` of `Cart.jsx`. The component computes it after returning early
for an empty `cartItems`. -/
def Cart.cartTotal (cartItems : List CartItem) : ℚ :=
  cartItems.foldl (fun sum item => sum + item.price * (item.quantity : ℚ)) 0

/-! ## The statistics step: its write half, and `recordOrder` of the specification -/

/-- The part of `updateDailyStatistics` after the read (supabase.js, lines 235 to
260), given the `data` the read returned. -/
def updateDailyStatisticsWrite (env : Env) (f : Faults) (b : Backend) (amount : ℚ)
    (existingStats : Option DailyStat) : Backend :=
  match existingStats with
  | some existingStats =>
    (b.updateDailyStatistics f.dailyStatisticsWrite env.today
      { total_revenue := existingStats.total_revenue + amount
        total_orders := existingStats.total_orders + 1
        total_customers := none
        total_smiles := none
        updated_at := some env.isoNow }).1
  | none =>
    (b.insertDailyStatistics f.dailyStatisticsWrite
      { stat_date := env.today
        total_revenue := amount
        total_orders := 1
        total_customers := 1
        total_smiles := ⌊env.random * 10⌋ + 1
        updated_at := none }).1

/-- The statistics write of `StaffDashboard.handleCompleteOrder` (lines 154 to
175), given the `data` the read returned. -/
def StaffDashboard.writeStatistics (env : Env) (f : Faults) (b : Backend) (total : ℚ)
    (statsData : Option DailyStat) : Backend :=
  match statsData with
  | some statsData =>
    (b.updateDailyStatistics f.dailyStatisticsWrite env.today
      { total_revenue := statsData.total_revenue + total
        total_orders := statsData.total_orders + 1
        total_customers := none
        total_smiles := some (statsData.total_smiles + 1)
        updated_at := none }).1
  | none =>
    (b.insertDailyStatistics f.dailyStatisticsWrite
      { stat_date := env.today
        total_revenue := total
        total_orders := 1
        total_customers := 1
        total_smiles := 1
        updated_at := none }).1

/-- The backend after the two inserts of the StaffDashboard handler succeeded. -/
def StaffDashboard.afterInserts (env : Env) (b : Backend) (st : StaffDashboard.State) : Backend :=
  { b with
    transactions := b.transactions ++ [{ toTransactionInsert := orderRow env st, id := b.nextId }]
    transaction_items := b.transaction_items ++ orderLines b.nextId st.cartItems
    nextId := b.nextId + 1
    calls := b.calls ++ [.insertTransactions (orderRow env st),
      .insertTransactionItems (orderLines b.nextId st.cartItems)] }

/-- The part of a `daily_statistics` row that `recordOrder` speaks about. -/
structure Aggregate where
  date : String
  revenue : ℚ
  orders : Int
  deriving DecidableEq

def DailyStat.aggregate (r : DailyStat) : Aggregate :=
  ⟨r.stat_date, r.total_revenue, r.total_orders⟩

/-- The contract `recordOrder(date, amount)` in the words of the specification
(section 4.3), on the aggregates of a store: read the current aggregate for
`date`; if present, write back revenue plus `amount` and orders plus 1; if
absent, create a new aggregate with revenue `amount` and orders 1. -/
def recordOrderSpec (date : String) (amount : ℚ) (store : List Aggregate) : List Aggregate :=
  match store.find? (fun r => r.date == date) with
  | some current =>
    store.map (fun r =>
      if r.date == date then
        { r with revenue := current.revenue + amount, orders := current.orders + 1 }
      else r)
  | none => store ++ [⟨date, amount, 1⟩]

/-- A sequence of `updateDailyStatistics(amount)` calls, one after the other, every
collaborator call succeeding. Each call comes with its own clock reading. -/
def recordOrders (calls : List (Env × ℚ)) (b : Backend) : Backend :=
  calls.foldl (fun b c => updateDailyStatistics c.1 Faults.none b c.2) b

/-- A sequence of completions, one after the other, every collaborator call
succeeding. Each completion comes with its clock reading and component state. -/
def CustomerDashboard.completeAll (orders : List (Env × CustomerDashboard.State)) (b : Backend) :
    Backend :=
  orders.foldl (fun b o => (CustomerDashboard.handleCompleteOrder o.1 Faults.none b o.2).1) b

def StaffDashboard.completeAll (orders : List (Env × StaffDashboard.State)) (b : Backend) :
    Backend :=
  orders.foldl (fun b o => (StaffDashboard.handleCompleteOrder o.1 Faults.none b o.2).1) b

def DashboardPage.completeAll (orders : List (Env × DashboardPage.State)) (b : Backend) :
    Backend :=
  orders.foldl (fun b o => (DashboardPage.handleCompleteOrder o.1 Faults.none b o.2).1) b

/-- A call fits what the statistics read found for `date`: an insert into
`daily_statistics` is of a row for `date` and follows a read that found no row
(`found = false`); an update of `daily_statistics` is of the rows of `date` and
follows a read that found one (`found = true`). Calls on other tables fit. -/
def Call.fitsRead (date : String) (found : Bool) : Call → Prop
  | .insertDailyStatistics row => row.stat_date = date ∧ found = false
  | .updateDailyStatistics d _ => d = date ∧ found = true
  | _ => True

/-- Two `updateDailyStatistics` calls A and B on one store whose awaits interleave:
A reads, B reads, A writes what it computed from its read, B writes what it
computed from its read. Every call succeeds. -/
def updateDailyStatisticsInterleaved (envA envB : Env) (b : Backend) (amountA amountB : ℚ) :
    Backend :=
  let readA := b.selectDailyStatisticsSingle none envA.today
  let readB := readA.1.selectDailyStatisticsSingle none envB.today
  let wroteA := updateDailyStatisticsWrite envA Faults.none readB.1 amountA readA.2.data
  updateDailyStatisticsWrite envB Faults.none wroteA amountB readB.2.data

/-- Two CustomerDashboard completions A and B on one store whose awaits
interleave: A inserts its order and lines and reads the statistics, B does the
same, then A writes the statistics and B writes the statistics. Every call
succeeds. -/
def CustomerDashboard.completeInterleaved (envA envB : Env) (b : Backend)
    (stA stB : CustomerDashboard.State) : Backend :=
  let readA := (afterInserts envA b stA).selectDailyStatistics none envA.today
  let readB := (afterInserts envB readA.1 stB).selectDailyStatistics none envB.today
  let wroteA := (writeStatistics envA Faults.none readB.1 stA readA.2.data).1
  (writeStatistics envB Faults.none wroteA stB readB.2.data).1

/-! ## Choosing the payment method -/

/-- A row of `payment_methods`. -/
structure PaymentMethodRow where
  id : Nat
  name : String
  description : String
  icon : String
  is_active : Bool
  deriving DecidableEq

/-- `handleSelectPayment(methodName)` of `PaymentMethod.jsx`: the argument it
passes to `onSelectPayment` when the button of the method `methodName` is
clicked. -/
def PaymentMethod.handleSelectPayment (methodName : String) : String := toLowerCase methodName

/-- `handleSelectPayment(method)` of `StaffDashboard`, the `onSelectPayment` it
gives to `PaymentMethod`. -/
def StaffDashboard.handleSelectPayment (st : StaffDashboard.State) (method : String) :
    StaffDashboard.State :=
  { st with selectedPayment := method }

/-- `handleSelectPayment(method)` of `DashboardPage`, the `onSelectPayment` it
gives to `PaymentMethod`. -/
def DashboardPage.handleSelectPayment (st : DashboardPage.State) (method : String) :
    DashboardPage.State :=
  { st with selectedPayment := method }

/-- The `value`s of the two payment radio inputs of `CustomerDashboard`. -/
def CustomerDashboard.paymentRadios : List String := ["cash", "e-wallet"]

/-- The `onChange` of a payment radio input of `CustomerDashboard`:
`setSelectedPayment(e.target.value)`. -/
def CustomerDashboard.onChangePayment (st : CustomerDashboard.State) (value : String) :
    CustomerDashboard.State :=
  { st with selectedPayment := value }

/-- A `payment_methods` table that offers a third method. -/
def examplePaymentMethods : List PaymentMethodRow :=
  [⟨1, "Cash", "Pay with cash", "💵", true⟩,
   ⟨2, "E-Wallet", "Digital payment (GCash, PayMaya, etc.)", "📱", true⟩,
   ⟨3, "Credit Card", "Visa or Mastercard", "💳", true⟩]

/-! ## `App.tsx` -/

/-- The `User` object `App` keeps in its `user` state. -/
structure User where
  id : String
  email : String
  fullName : Option String
  deriving DecidableEq

/-- The `authMode` state of `App`. -/
inductive AuthMode where
  | signin
  | signup
  deriving DecidableEq

/-- What `App` returns: the loading placeholder or one of its child components
(the dashboards with the `user` they are given). -/
inductive Screen where
  | loading
  | signIn
  | signUp
  | roleSelection
  | adminDashboard (user : User)
  | staffDashboard (user : User)
  | customerDashboard (user : User)
  | dashboardPage (user : User)
  deriving DecidableEq

/-- The chain of `if`s that ends the body of `App` (App.tsx, lines 84 to 162).
`user` is `none` for `null`; `userRole` is `none` for `null`, and the empty
string is falsy like `null`. -/
def App.render (loading : Bool) (user : Option User) (authMode : AuthMode)
    (userRole : Option String) : Screen :=
  if loading then .loading
  else
    match user with
    | none =>
      match authMode with
      | .signin => .signIn
      | .signup => .signUp
    | some user =>
      if userRole = none ∨ userRole = some "" then .roleSelection
      else if userRole = some "admin" then .adminDashboard user
      else if userRole = some "staff" then .staffDashboard user
      else if userRole = some "customer" then .customerDashboard user
      else .dashboardPage user

/-- A signed-in user. -/
def exampleUser : User := ⟨"u-1", "ana@example.com", some "Ana"⟩

/-! ## Loading the menu -/

/-- `supabase.from("menu_items").select("*").eq("is_active", true)` on the rows
`menu_items` of the table. -/
def selectActiveMenuItems (fault : Option Err) (menu_items : List MenuItem) :
    Response (List MenuItem) :=
  match fault with
  | some e => ⟨none, some e⟩
  | none => ⟨some (menu_items.filter (fun item => item.is_active == true)), none⟩

/-- `supabase.from("menu_items").select("*").order("id", { ascending: true })` on
the rows `menu_items` of the table. -/
def selectMenuItemsOrderedById (fault : Option Err) (menu_items : List MenuItem) :
    Response (List MenuItem) :=
  match fault with
  | some e => ⟨none, some e⟩
  | none => ⟨some (menu_items.insertionSort (fun a b => a.id ≤ b.id)), none⟩

/-- `fetchMenuItems` of `CustomerDashboard`: the `menuItems` state it leaves, from
the one it found. A read error is thrown and caught, and `menuItems` stays as it
was. (`loading` is true during the call and false after it.) -/
def CustomerDashboard.fetchMenuItems (fault : Option Err) (menu_items : List MenuItem)
    (menuItems : List MenuItem) : List MenuItem :=
  let r := selectActiveMenuItems fault menu_items
  match r.error with
  | some _ => menuItems
  | none => r.data.getD []

/-- `getMenuItems()` of `supabase.js`. -/
def getMenuItems (fault : Option Err) (menu_items : List MenuItem) : List MenuItem :=
  let r := selectMenuItemsOrderedById fault menu_items
  match r.error with
  | some _ => []
  | none => r.data.getD []

/-- `getDefaultMenuItems()` of `DashboardPage`. The `emoji` strings are the text
the file holds (mis-encoded emoji), character by character. The objects have no
`is_active` property: reading it gives `undefined`, which is not `true`. -/
def DashboardPage.getDefaultMenuItems : List MenuItem :=
  [⟨1, "Caramel Latte", "\u201a\u00f2\u00ef", 11 / 2,
      "Rich espresso with sweet caramel and steamed milk", false⟩,
   ⟨2, "Blueberry Muffin", "\uf8ff\u00fc\u00df\u00c5", 17 / 4,
      "Fresh baked with plump blueberries", false⟩,
   ⟨3, "Iced Coffee", "\uf8ff\u00fc\u00df\u00e4", 19 / 4, "Cool and refreshing iced brew", false⟩,
   ⟨4, "Croissant & Tea", "\uf8ff\u00fc\u2022\u00ea", 6, "Buttery croissant with hot tea", false⟩,
   ⟨5, "Hot Chocolate", "\u201a\u00f2\u00ef", 9 / 2, "Warm and comforting hot chocolate", false⟩]

/-- The mount effect of `DashboardPage`: the `menuItems` state it sets.
`getMenuItems` does not throw. -/
def DashboardPage.fetchMenuItems (fault : Option Err) (menu_items : List MenuItem) :
    List MenuItem :=
  let items := getMenuItems fault menu_items
  if items.length > 0 then items else DashboardPage.getDefaultMenuItems

/-- A `menu_items` table with an active latte and a deactivated muffin. -/
def exampleMenu : List MenuItem := [latte, { muffin with is_active := false }]

/-- The revenue `daily_statistics` holds for `date`: `total_revenue` summed over
the rows of that date, 0 when there is none. -/
def revenueOn (date : String) (rows : List DailyStat) : ℚ :=
  ((rows.filter (fun r => r.stat_date == date)).map (fun r => r.total_revenue)).sum

/-! ## The local statistics of `StaffDashboard` -/

/-- The `stats` object the mount effect of `StaffDashboard` builds from the row it
read (lines 48 to 53). -/
def StaffDashboard.statsOfRow (statsData : DailyStat) : Stats :=
  { revenue := statsData.total_revenue
    orders := statsData.total_orders
    customers := statsData.total_customers
    smiles := statsData.total_smiles }

/-- The statistics part of the mount effect of `StaffDashboard` (lines 39 to 54),
reached when the menu read did not fail: today's row is read with `.single()`,
and `stats` is set from it when a row came back. -/
def StaffDashboard.fetchStatistics (env : Env) (fault : Option Err) (b : Backend)
    (st : StaffDashboard.State) : Backend × StaffDashboard.State :=
  let r := b.selectDailyStatisticsSingle fault env.today
  match r.2.data with
  | some statsData => (r.1, { st with stats := StaffDashboard.statsOfRow statsData })
  | none => (r.1, st)

/-- A backend whose `daily_statistics` holds a row for the day of `exampleEnv`. -/
def todayBackend : Backend :=
  { emptyBackend with daily_statistics := [⟨"2025-01-15", 10, 2, 2, 2, none⟩] }

/-! ## Sign-up and sign-in forms -/

/-- `s.length` of a JavaScript string: the number of UTF-16 code units, two for a
character outside the basic plane. -/
def jsLength (s : String) : Nat :=
  (s.data.map (fun c => if c.toNat < 65536 then 1 else 2)).sum

/-- The class `\s` of a JavaScript regular expression: white space and line
terminators, by code point. -/
def isRegexSpace (c : Char) : Bool :=
  decide (c.toNat ∈ [9, 10, 11, 12, 13, 32, 160, 5760, 8232, 8233, 8239, 8287, 12288, 65279])
    || (decide (8192 ≤ c.toNat) && decide (c.toNat ≤ 8202))

/-- What `emailRegex` tells apart in a character. -/
inductive EmailChar where
  | space
  | atSign
  | dot
  | other
  deriving DecidableEq

def EmailChar.ofChar (c : Char) : EmailChar :=
  if isRegexSpace c then .space
  else if c = '@' then .atSign
  else if c = '.' then .dot
  else .other

/-- The class `[^\s@]`: a character that is neither white space nor `@`. -/
def notSpaceAt : RegularExpression EmailChar := .char .dot + .char .other

/-- The literal `/^[^\s@]+@[^\s@]+\.[^\s@]+$/`, where `x+` is `x` followed by
`x*`. -/
def emailRegex : RegularExpression EmailChar :=
  (notSpaceAt * .star notSpaceAt) * .char .atSign * (notSpaceAt * .star notSpaceAt)
    * .char .dot * (notSpaceAt * .star notSpaceAt)

/-- `emailRegex.test(email)`: the expression is anchored at both ends, so it has
to match the whole string. (A character outside the basic plane is two code
units, both in `[^\s@]`.) -/
def emailRegexTest (email : String) : Bool :=
  emailRegex.rmatch (email.data.map EmailChar.ofChar)

/-- The shape local@domain.tld in the words of the claim: a non-empty local part,
`@`, a non-empty domain, `.`, a non-empty last part, where no part holds white
space or another `@`. -/
def EmailShape (email : String) : Prop :=
  ∃ loc domain tld : List Char,
    email.data = loc ++ '@' :: domain ++ '.' :: tld
    ∧ loc ≠ [] ∧ domain ≠ [] ∧ tld ≠ []
    ∧ ∀ c ∈ loc ++ domain ++ tld, isRegexSpace c = false ∧ c ≠ '@'

/-- A call of an auth function of `supabaseAuth.js`. -/
inductive AuthCall where
  | signUpWithEmail (email password fullName role : String)
  | signInWithEmail (email password : String)
  deriving DecidableEq

/-- `data.user` of an auth result, as the forms read it (`full_name` is
`user_metadata?.full_name`). -/
structure AuthUser where
  id : String
  email : String
  full_name : Option String

/-- What an auth function resolves to: `data.user` (`none` for `null`) and
`error`. -/
structure AuthReply where
  user : Option AuthUser
  error : Option Err

/-- `message || fallback` on strings. -/
def orDefault (message fallback : String) : String :=
  if message = "" then fallback else message

/-- The `TypeError` raised by `data.user.id` when `data.user` is `null`. -/
def typeErrorNoUser : Err := ⟨"Cannot read properties of null (reading \x27id\x27)", none⟩

namespace SignUp

/-- The state of the `SignUp` form. -/
structure State where
  email : String
  password : String
  confirmPassword : String
  fullName : String
  role : String
  loading : Bool
  error : String
  success : Bool

/-- What one run of the handler did: the auth calls it issued, the state it
left, and the argument of `onSignUpSuccess` (the user and the role) when it
called it. -/
structure Outcome where
  calls : List AuthCall
  state : State
  onSignUpSuccess : Option (User × String)

/-- `handleSignUp`, with `reply` what `signUpWithEmail` resolves to if it is
called. -/
def handleSignUp (reply : AuthReply) (st : State) : Outcome :=
  let st1 := { st with error := "", success := false, loading := true }
  if st.email = "" ∨ st.password = "" ∨ st.confirmPassword = "" ∨ st.fullName = "" then
    ⟨[], { st1 with error := "All fields are required", loading := false }, none⟩
  else if st.password ≠ st.confirmPassword then
    ⟨[], { st1 with error := "Passwords do not match", loading := false }, none⟩
  else if jsLength st.password < 6 then
    ⟨[], { st1 with error := "Password must be at least 6 characters", loading := false }, none⟩
  else if emailRegexTest st.email = false then
    ⟨[], { st1 with error := "Please enter a valid email address", loading := false }, none⟩
  else
    match reply.error with
    | some signUpError =>
      ⟨[.signUpWithEmail st.email st.password st.fullName st.role],
        { st1 with
          error := orDefault signUpError.message "Sign up failed. Please try again."
          loading := false }, none⟩
    | none =>
      match reply.user with
      | some user =>
        ⟨[.signUpWithEmail st.email st.password st.fullName st.role],
          { st1 with success := true, loading := false },
          some (⟨user.id, user.email, some st.fullName⟩, st.role)⟩
      | none =>
        ⟨[.signUpWithEmail st.email st.password st.fullName st.role],
          { st1 with
            success := true
            error := orDefault typeErrorNoUser.message "Sign up failed. Please try again."
            loading := false }, none⟩

/-- The messages the validation of `handleSignUp` sets. -/
def validationErrors : List String :=
  ["All fields are required", "Passwords do not match",
    "Password must be at least 6 characters", "Please enter a valid email address"]

end SignUp

namespace SignIn

/-- The state of the `SignIn` form. -/
structure State where
  email : String
  password : String
  loading : Bool
  error : String
  rememberMe : Bool

/-- What one run of the handler did: the auth calls it issued, the state it
left, the `rememberEmail` entry of `localStorage` afterwards, and the argument
of `onSignInSuccess` when it called it. -/
structure Outcome where
  calls : List AuthCall
  state : State
  rememberEmail : Option String
  onSignInSuccess : Option User

/-- `handleSignIn`, with `reply` what `signInWithEmail` resolves to if it is
called and `rememberEmail` the `localStorage` entry before. -/
def handleSignIn (reply : AuthReply) (rememberEmail : Option String) (st : State) : Outcome :=
  let st1 := { st with error := "", loading := true }
  if st.email = "" ∨ st.password = "" then
    ⟨[], { st1 with error := "Email and password are required", loading := false },
      rememberEmail, none⟩
  else if emailRegexTest st.email = false then
    ⟨[], { st1 with error := "Please enter a valid email address", loading := false },
      rememberEmail, none⟩
  else
    match reply.error with
    | some signInError =>
      ⟨[.signInWithEmail st.email st.password],
        { st1 with
          error := orDefault signInError.message "Sign in failed. Please try again."
          loading := false }, rememberEmail, none⟩
    | none =>
      let stored := if st.rememberMe then some st.email else none
      match reply.user with
      | some user =>
        ⟨[.signInWithEmail st.email st.password], { st1 with loading := false }, stored,
          some ⟨user.id, user.email, some (orDefault (user.full_name.getD "") "")⟩⟩
      | none =>
        ⟨[.signInWithEmail st.email st.password],
          { st1 with
            error := orDefault typeErrorNoUser.message "Sign in failed. Please try again."
            loading := false }, stored, none⟩

/-- The messages the validation of `handleSignIn` sets. -/
def validationErrors : List String :=
  ["Email and password are required", "Please enter a valid email address"]

end SignIn

/-- A filled sign-up form. -/
def SignUp.exampleState : SignUp.State :=
  ⟨"ana@example.com", "secret1", "secret1", "Ana", "staff", false, "", false⟩

/-- A filled sign-in form. -/
def SignIn.exampleState : SignIn.State := ⟨"ana@example.com", "secret1", false, "", false⟩

/-- A successful auth reply. -/
def exampleReply : AuthReply := ⟨some ⟨"u-1", "ana@example.com", some "Ana"⟩, none⟩

/-! ## `MenuManagement.jsx` -/

/-- A JavaScript number as `parseFloat` returns it: `NaN`, an infinity, or a
finite value (kept exact, as money is). -/
inductive JsNumber where
  | nan
  | infinity (negative : Bool)
  | finite (value : ℚ)
  deriving DecidableEq

/-- The number a run of decimal digits denotes. -/
def natOfDigits (digits : List Char) : Nat :=
  digits.foldl (fun n c => 10 * n + (c.toNat - 48)) 0

/-- The exponent part read at the start of `cs`: `e` or `E`, an optional sign and
at least one digit; 0 when there is no such part. -/
def parseExponent (cs : List Char) : Int :=
  match cs with
  | [] => 0
  | c :: rest =>
    if c = 'e' ∨ c = 'E' then
      match rest with
      | '-' :: ds =>
        if ds.takeWhile Char.isDigit = [] then 0
        else -(natOfDigits (ds.takeWhile Char.isDigit) : Int)
      | '+' :: ds =>
        if ds.takeWhile Char.isDigit = [] then 0
        else (natOfDigits (ds.takeWhile Char.isDigit) : Int)
      | ds =>
        if ds.takeWhile Char.isDigit = [] then 0
        else (natOfDigits (ds.takeWhile Char.isDigit) : Int)
    else 0

/-- The value of the longest prefix of `cs` that is an unsigned decimal literal
(digits, an optional fraction, an optional exponent), `none` when no prefix is
one. -/
def parseUnsignedDecimal (cs : List Char) : Option ℚ :=
  let intDigits := cs.takeWhile Char.isDigit
  let afterInt := cs.dropWhile Char.isDigit
  let fracDigits :=
    match afterInt with
    | '.' :: r => r.takeWhile Char.isDigit
    | _ => []
  let afterFrac :=
    match afterInt with
    | '.' :: r => r.dropWhile Char.isDigit
    | _ => afterInt
  if intDigits = [] ∧ fracDigits = [] then none
  else
    some (((natOfDigits intDigits : ℚ) + (natOfDigits fracDigits : ℚ) / 10 ^ fracDigits.length)
      * (10 : ℚ) ^ parseExponent afterFrac)

/-- Where the magnitude `m` of a decimal literal lands among the doubles: `none`
when it rounds to 2^1024, beyond the largest double; 0 when it rounds to zero (it
is at most half the smallest double, 2^-1074); otherwise `m` itself, kept exact
(it is not rounded to 53 significant bits). -/
def doubleOfMagnitude (m : ℚ) : Option ℚ :=
  if (2 : ℚ) ^ 1024 - 2 ^ 970 ≤ m then none
  else if m ≤ 1 / 2 ^ 1075 then some 0
  else some m

/-- `parseFloat(s)`: leading white space is skipped, then the longest prefix that
is a decimal literal (optional sign; `Infinity` or digits with an optional
fraction and exponent) gives the number; `NaN` when there is none, an infinity
when the literal is beyond the largest double. -/
def parseFloat (s : String) : JsNumber :=
  let trimmed := s.data.dropWhile isRegexSpace
  let negative :=
    match trimmed with
    | '-' :: _ => true
    | _ => false
  let body :=
    match trimmed with
    | '-' :: r => r
    | '+' :: r => r
    | r => r
  if "Infinity".data <+: body then .infinity negative
  else
    match parseUnsignedDecimal body with
    | none => .nan
    | some m =>
      match doubleOfMagnitude m with
      | none => .infinity negative
      | some d => .finite (if negative then -d else d)

/-- A "valid floating-point number" of the HTML standard, the only non-empty text
the `value` of an `input type="number"` holds: an optional `-`, then digits, or
digits with a fraction, or a fraction alone, then an optional exponent (`e` or
`E`, an optional sign, digits), and nothing after it. -/
def isValidFloatingPointNumber (cs : List Char) : Bool :=
  let body :=
    match cs with
    | '-' :: r => r
    | r => r
  let intDigits := body.takeWhile Char.isDigit
  let afterInt := body.dropWhile Char.isDigit
  let afterFrac : Option (List Char) :=
    match afterInt with
    | '.' :: r => if r.takeWhile Char.isDigit = [] then none else some (r.dropWhile Char.isDigit)
    | r => if intDigits = [] then none else some r
  match afterFrac with
  | none => false
  | some [] => true
  | some (c :: r) =>
    (c == 'e' || c == 'E') &&
      (match r with
        | '-' :: digits => !digits.isEmpty && digits.all Char.isDigit
        | '+' :: digits => !digits.isEmpty && digits.all Char.isDigit
        | digits => !digits.isEmpty && digits.all Char.isDigit)

/-- The number an `input type="number"` reads from its `value` (the HTML "rules
for parsing floating-point number values", on a valid floating-point number):
`none` when the value is not a valid floating-point number or lies beyond the
doubles. -/
def numberInputValue (value : String) : Option ℚ :=
  if isValidFloatingPointNumber value.data then
    let negative :=
      match value.data with
      | '-' :: _ => true
      | _ => false
    let body :=
      match value.data with
      | '-' :: r => r
      | r => r
    match parseUnsignedDecimal body with
    | none => none
    | some m =>
      match doubleOfMagnitude m with
      | none => none
      | some d => some (if negative then -d else d)
  else none

/-- The object `handleSave` passes to `.insert([...])` or `.update(...)` on
`menu_items`: `is_active` is set by the insert only, `updated_at` by the update
only. -/
structure MenuItemWrite where
  name : String
  emoji : String
  price : JsNumber
  description : String
  image_url : String
  is_active : Option Bool
  updated_at : Option String
  deriving DecidableEq

/-- A call `MenuManagement` issues on `menu_items`. -/
inductive MenuCall where
  | insert (row : MenuItemWrite)
  | update (id : Nat) (patch : MenuItemWrite)
  | select
  deriving DecidableEq

namespace MenuManagement

/-- The `formData` state. -/
structure FormData where
  name : String
  emoji : String
  price : String
  description : String
  image_url : String
  deriving DecidableEq

/-- The state of the component. `editingId` is `none` for `null`. -/
structure State where
  menuItems : List MenuItem
  loading : Bool
  showModal : Bool
  editingId : Option Nat
  formData : FormData
  alerts : List String

/-- What the collaborator answers during one run of `handleSave`: the error of
the write, if it fails, and the result of the read `fetchMenuItems` issues. -/
structure Replies where
  write : Option Err
  select : Response (List MenuItem)

/-- The form as `handleCloseModal` and the initial state have it. -/
def emptyForm : FormData := ⟨"", "☕", "", "", ""⟩

/-- `fetchMenuItems()`: one read; its error is caught inside the function. -/
def fetchMenuItems (select : Response (List MenuItem)) (calls : List MenuCall) (st : State) :
    List MenuCall × State :=
  match select.error with
  | some _ =>
    (calls ++ [.select],
      { st with loading := false, alerts := st.alerts ++ ["Failed to load menu items"] })
  | none => (calls ++ [.select], { st with menuItems := select.data.getD [], loading := false })

def handleCloseModal (st : State) : State :=
  { st with showModal := false, editingId := none, formData := emptyForm }

/-- `handleSave(e)`: the calls issued so far and the state, before and after. -/
def handleSave (env : Env) (replies : Replies) (calls : List MenuCall) (st : State) :
    List MenuCall × State :=
  if st.formData.name = "" ∨ st.formData.price = "" then
    (calls, { st with alerts := st.alerts ++ ["Please fill in all required fields"] })
  else
    match st.editingId with
    | some (id + 1) =>
      let patch : MenuItemWrite :=
        { name := st.formData.name
          emoji := st.formData.emoji
          price := parseFloat st.formData.price
          description := st.formData.description
          image_url := st.formData.image_url
          is_active := none
          updated_at := some env.isoNow }
      match replies.write with
      | some error =>
        (calls ++ [.update (id + 1) patch],
          { st with
            loading := false
            alerts := st.alerts ++ ["Failed to save menu item: " ++ error.message] })
      | none =>
        let r := fetchMenuItems replies.select (calls ++ [.update (id + 1) patch])
          { st with loading := true, alerts := st.alerts ++ ["✅ Item updated successfully!"] }
        (r.1, { handleCloseModal r.2 with loading := false })
    | _ =>
      let row : MenuItemWrite :=
        { name := st.formData.name
          emoji := st.formData.emoji
          price := parseFloat st.formData.price
          description := st.formData.description
          image_url := st.formData.image_url
          is_active := some true
          updated_at := none }
      match replies.write with
      | some error =>
        (calls ++ [.insert row],
          { st with
            loading := false
            alerts := st.alerts ++ ["Failed to save menu item: " ++ error.message] })
      | none =>
        let r := fetchMenuItems replies.select (calls ++ [.insert row])
          { st with loading := true, alerts := st.alerts ++ ["✅ Item added successfully!"] }
        (r.1, { handleCloseModal r.2 with loading := false })

/-- The object `handleSave` passes to `.update(...)`. -/
def updatePatch (env : Env) (st : State) : MenuItemWrite :=
  { name := st.formData.name
    emoji := st.formData.emoji
    price := parseFloat st.formData.price
    description := st.formData.description
    image_url := st.formData.image_url
    is_active := none
    updated_at := some env.isoNow }

/-- The object `handleSave` passes to `.insert([...])`. -/
def insertRow (st : State) : MenuItemWrite :=
  { name := st.formData.name
    emoji := st.formData.emoji
    price := parseFloat st.formData.price
    description := st.formData.description
    image_url := st.formData.image_url
    is_active := some true
    updated_at := none }

/-- The constraint of the price field, `<input type="number" name="price"
step="0.01" min="0">` inside `<form onSubmit={handleSave}>` (MenuManagement.jsx
265, 302 to 311): the browser raises the submit event only when the field is
empty or holds a number that is not below `min`, which is 0. (The `step` and the
constraints of the other fields only narrow what is let through.) -/
def priceInputValid (value : String) : Bool :=
  value == "" ||
    (match numberInputValue value with
      | some q => decide (0 ≤ q)
      | none => false)

/-- The writes among `calls`, with the price each carries. -/
def writtenPrices : List MenuCall → List JsNumber
  | [] => []
  | .insert row :: cs => row.price :: writtenPrices cs
  | .update _ patch :: cs => patch.price :: writtenPrices cs
  | .select :: cs => writtenPrices cs

/-- The "Add Item" form filled with a name and the price text `price`. -/
def formWithPrice (price : String) : State :=
  { menuItems := [], loading := false, showModal := true, editingId := none,
    formData := ⟨"Caramel Latte", "☕", price, "", ""⟩, alerts := [] }

end MenuManagement

/-! # Theorems -/

/-! ## The completion handlers, case by case -/

theorem foldl_add_eq_sum {α : Type} (g : α → ℚ) (l : List α) (a : ℚ) :
    l.foldl (fun sum item => sum + g item) a = a + (l.map g).sum := by
  induction l generalizing a with
  | nil => simp
  | cons x xs ih => simp [List.foldl_cons, ih, add_assoc]

theorem newCalls_append (b b1 : Backend) (cs : List Call) (h : b1.calls = b.calls ++ cs) :
    newCalls b b1 = cs := by
  simp [newCalls, h]

namespace Backend

theorem selectDailyStatistics_fst (b : Backend) (fault : Option Err) (date : String) :
    (b.selectDailyStatistics fault date).1 = b.record (.selectDailyStatistics date false) := by
  cases fault <;> rfl

theorem selectDailyStatisticsSingle_fst (b : Backend) (fault : Option Err) (date : String) :
    (b.selectDailyStatisticsSingle fault date).1 = b.record (.selectDailyStatistics date true) := by
  cases fault with
  | some e => rfl
  | none => simp only [selectDailyStatisticsSingle]; split <;> rfl

theorem updateDailyStatistics_calls (b : Backend) (fault : Option Err) (date : String)
    (patch : DailyStatUpdate) :
    (b.updateDailyStatistics fault date patch).1.calls
      = b.calls ++ [.updateDailyStatistics date patch] := by
  cases fault <;> simp [updateDailyStatistics, record]

theorem updateDailyStatistics_transactions (b : Backend) (fault : Option Err) (date : String)
    (patch : DailyStatUpdate) :
    (b.updateDailyStatistics fault date patch).1.transactions = b.transactions := by
  cases fault <;> simp [updateDailyStatistics, record]

theorem updateDailyStatistics_transaction_items (b : Backend) (fault : Option Err) (date : String)
    (patch : DailyStatUpdate) :
    (b.updateDailyStatistics fault date patch).1.transaction_items = b.transaction_items := by
  cases fault <;> simp [updateDailyStatistics, record]

theorem insertDailyStatistics_calls (b : Backend) (fault : Option Err) (row : DailyStat) :
    (b.insertDailyStatistics fault row).1.calls = b.calls ++ [.insertDailyStatistics row] := by
  cases fault <;> simp [insertDailyStatistics, record]

theorem insertDailyStatistics_transactions (b : Backend) (fault : Option Err) (row : DailyStat) :
    (b.insertDailyStatistics fault row).1.transactions = b.transactions := by
  cases fault <;> simp [insertDailyStatistics, record]

theorem insertDailyStatistics_transaction_items (b : Backend) (fault : Option Err)
    (row : DailyStat) :
    (b.insertDailyStatistics fault row).1.transaction_items = b.transaction_items := by
  cases fault <;> simp [insertDailyStatistics, record]

end Backend

namespace CustomerDashboard

theorem customer_totalPrice_eq_sum (cart : List CartLine) :
    totalPrice cart = (cart.map (fun l => l.subtotal)).sum := by
  simp [totalPrice, foldl_add_eq_sum]

theorem customer_complete_empty (env : Env) (f : Faults) (b : Backend) (st : State) (h : st.cart = []) :
    handleCompleteOrder env f b st = (b, { st with alerts := st.alerts ++ [emptyCartAlert] }) := by
  simp [handleCompleteOrder, h]

theorem customer_complete_orderInsert_fails (env : Env) (f : Faults) (b : Backend) (st : State)
    (hne : st.cart ≠ []) (e : Err) (h1 : f.transactionsInsert = some e) :
    handleCompleteOrder env f b st = (b.record (.insertTransactions (orderRow env st)), failed st) := by
  have hlen : st.cart.length ≠ 0 := by simpa using hne
  simp [handleCompleteOrder, tryBlock, hlen, h1, Backend.insertTransactions, orderRow, failed]

theorem customer_complete_orderLinesInsert_fails (env : Env) (f : Faults) (b : Backend) (st : State)
    (hne : st.cart ≠ []) (e : Err) (h1 : f.transactionsInsert = none)
    (h2 : f.transactionItemsInsert = some e) :
    handleCompleteOrder env f b st =
      ({ b with
          transactions := b.transactions ++ [{ toTransactionInsert := orderRow env st, id := b.nextId }]
          nextId := b.nextId + 1
          calls := b.calls ++ [.insertTransactions (orderRow env st),
            .insertTransactionItems (orderLines b.nextId st.cart)] },
        failed st) := by
  have hlen : st.cart.length ≠ 0 := by simpa using hne
  simp [handleCompleteOrder, tryBlock, hlen, h1, h2, Backend.insertTransactions,
    Backend.insertTransactionItems, Backend.record, orderRow, orderLines, failed]

theorem customer_complete_statRead_fails (env : Env) (f : Faults) (b : Backend) (st : State)
    (hne : st.cart ≠ []) (e : Err) (h1 : f.transactionsInsert = none)
    (h2 : f.transactionItemsInsert = none) (h3 : f.dailyStatisticsSelect = some e)
    (hcode : e.code ≠ some "PGRST116") :
    handleCompleteOrder env f b st =
      ({ b with
          transactions := b.transactions ++ [{ toTransactionInsert := orderRow env st, id := b.nextId }]
          transaction_items := b.transaction_items ++ orderLines b.nextId st.cart
          nextId := b.nextId + 1
          calls := b.calls ++ [.insertTransactions (orderRow env st),
            .insertTransactionItems (orderLines b.nextId st.cart),
            .selectDailyStatistics env.today false] },
        failed st) := by
  have hlen : st.cart.length ≠ 0 := by simpa using hne
  simp [handleCompleteOrder, tryBlock, hlen, h1, h2, h3, hcode, Backend.insertTransactions,
    Backend.insertTransactionItems, Backend.selectDailyStatistics, Backend.record, orderRow,
    orderLines, failed]

theorem writeStatistics_spec (env : Env) (f : Faults) (b : Backend) (st : State)
    (statsData : Option (List DailyStat)) :
    (∃ c, c.kind = .statWrite ∧ (writeStatistics env f b st statsData).1.calls = b.calls ++ [c])
    ∧ (writeStatistics env f b st statsData).1.transactions = b.transactions
    ∧ (writeStatistics env f b st statsData).1.transaction_items = b.transaction_items
    ∧ (writeStatistics env f b st statsData).1.nextId = b.nextId
    ∧ (writeStatistics env f b st statsData).2 = .ok { st with
        cart := []
        showCart := false
        alerts := st.alerts ++ [successAlert (totalPrice st.cart)] } := by
  unfold writeStatistics
  cases hw : f.dailyStatisticsWrite <;> split <;>
    simp [Backend.updateDailyStatistics, Backend.insertDailyStatistics, Backend.record, Call.kind]

theorem tryBlock_reaches_write (env : Env) (f : Faults) (b : Backend) (st : State)
    (h1 : f.transactionsInsert = none) (h2 : f.transactionItemsInsert = none)
    (h3 : ∀ e, f.dailyStatisticsSelect = some e → e.code = some "PGRST116") :
    tryBlock env f b st =
      writeStatistics env f
        ((afterInserts env b st).selectDailyStatistics f.dailyStatisticsSelect env.today).1 st
        ((afterInserts env b st).selectDailyStatistics f.dailyStatisticsSelect env.today).2.data := by
  cases hs : f.dailyStatisticsSelect with
  | none =>
    simp [tryBlock, h1, h2, hs, Backend.insertTransactions, Backend.insertTransactionItems,
      Backend.selectDailyStatistics, Backend.record, afterInserts, orderRow, orderLines]
  | some e =>
    have hc := h3 e hs
    simp [tryBlock, h1, h2, hs, hc, Backend.insertTransactions, Backend.insertTransactionItems,
      Backend.selectDailyStatistics, Backend.record, afterInserts, orderRow, orderLines]

theorem customer_complete_to_the_end (env : Env) (f : Faults) (b : Backend) (st : State)
    (hne : st.cart ≠ []) (h1 : f.transactionsInsert = none)
    (h2 : f.transactionItemsInsert = none)
    (h3 : ∀ e, f.dailyStatisticsSelect = some e → e.code = some "PGRST116") :
    (∃ c, c.kind = .statWrite ∧
      (handleCompleteOrder env f b st).1.calls = b.calls ++ [.insertTransactions (orderRow env st),
        .insertTransactionItems (orderLines b.nextId st.cart),
        .selectDailyStatistics env.today false, c])
    ∧ (handleCompleteOrder env f b st).1.transactions =
        b.transactions ++ [{ toTransactionInsert := orderRow env st, id := b.nextId }]
    ∧ (handleCompleteOrder env f b st).1.transaction_items =
        b.transaction_items ++ orderLines b.nextId st.cart
    ∧ (handleCompleteOrder env f b st).2 = succeeded st := by
  have hlen : st.cart.length ≠ 0 := by simpa using hne
  have hrw := tryBlock_reaches_write env f b { st with loading := true } h1 h2 h3
  obtain ⟨⟨c, hc, hcalls⟩, ht, hi, -, hs⟩ := writeStatistics_spec env f
    ((afterInserts env b { st with loading := true }).selectDailyStatistics
      f.dailyStatisticsSelect env.today).1 { st with loading := true }
    ((afterInserts env b { st with loading := true }).selectDailyStatistics
      f.dailyStatisticsSelect env.today).2.data
  rw [← hrw] at hcalls ht hi hs
  rw [Backend.selectDailyStatistics_fst] at hcalls ht hi
  rcases hw : tryBlock env f b { st with loading := true } with ⟨b4, r⟩
  rw [hw] at hcalls ht hi hs
  simp only at hcalls ht hi hs
  subst hs
  simp only [handleCompleteOrder, hlen, if_false, hw]
  refine ⟨⟨c, hc, ?_⟩, ?_, ?_, ?_⟩
  · simp [hcalls, Backend.record, afterInserts, orderRow, orderLines]
  · simp [ht, Backend.record, afterInserts, orderRow]
  · simp [hi, Backend.record, afterInserts, orderLines]
  · simp [succeeded]

end CustomerDashboard

namespace StaffDashboard

theorem staff_orderTotal_eq_sum (cartItems : List CartItem) :
    orderTotal cartItems = (cartItems.map (fun item => item.price * (item.quantity : ℚ))).sum := by
  simp [orderTotal, foldl_add_eq_sum]

theorem staff_complete_empty (env : Env) (f : Faults) (b : Backend) (st : State)
    (h : st.cartItems = []) : handleCompleteOrder env f b st = (b, st) := by
  simp [handleCompleteOrder, h]

theorem staff_complete_orderInsert_fails (env : Env) (f : Faults) (b : Backend) (st : State)
    (hne : st.cartItems ≠ []) (e : Err) (h1 : f.transactionsInsert = some e) :
    handleCompleteOrder env f b st =
      (b.record (.insertTransactions (orderRow env st)), failed st e) := by
  have hlen : st.cartItems.length ≠ 0 := by simpa using hne
  simp [handleCompleteOrder, tryBlock, hlen, h1, Backend.insertTransactions, orderRow, failed]

theorem staff_complete_orderLinesInsert_fails (env : Env) (f : Faults) (b : Backend) (st : State)
    (hne : st.cartItems ≠ []) (e : Err) (h1 : f.transactionsInsert = none)
    (h2 : f.transactionItemsInsert = some e) :
    handleCompleteOrder env f b st =
      ({ b with
          transactions := b.transactions ++ [{ toTransactionInsert := orderRow env st, id := b.nextId }]
          nextId := b.nextId + 1
          calls := b.calls ++ [.insertTransactions (orderRow env st),
            .insertTransactionItems (orderLines b.nextId st.cartItems)] },
        failed st e) := by
  have hlen : st.cartItems.length ≠ 0 := by simpa using hne
  simp [handleCompleteOrder, tryBlock, hlen, h1, h2, Backend.insertTransactions,
    Backend.insertTransactionItems, Backend.record, orderRow, orderLines, failed]

theorem staff_complete_to_the_end (env : Env) (f : Faults) (b : Backend) (st : State)
    (hne : st.cartItems ≠ []) (h1 : f.transactionsInsert = none)
    (h2 : f.transactionItemsInsert = none) :
    (∃ c, c.kind = .statWrite ∧
      (handleCompleteOrder env f b st).1.calls = b.calls ++ [.insertTransactions (orderRow env st),
        .insertTransactionItems (orderLines b.nextId st.cartItems),
        .selectDailyStatistics env.today true, c])
    ∧ (handleCompleteOrder env f b st).1.transactions =
        b.transactions ++ [{ toTransactionInsert := orderRow env st, id := b.nextId }]
    ∧ (handleCompleteOrder env f b st).1.transaction_items =
        b.transaction_items ++ orderLines b.nextId st.cartItems
    ∧ (handleCompleteOrder env f b st).2 = succeeded st := by
  have hlen : st.cartItems.length ≠ 0 := by simpa using hne
  simp only [handleCompleteOrder, tryBlock, hlen, h1, h2, Backend.insertTransactions,
    Backend.insertTransactionItems, if_false, Backend.selectDailyStatisticsSingle_fst]
  generalize (Backend.selectDailyStatisticsSingle _ f.dailyStatisticsSelect env.today).2.data = d
  cases d with
  | none =>
    simp [Backend.insertDailyStatistics_calls, Backend.insertDailyStatistics_transactions,
      Backend.insertDailyStatistics_transaction_items, Backend.updateDailyStatistics_calls,
      Backend.updateDailyStatistics_transactions, Backend.updateDailyStatistics_transaction_items,
      Backend.record, Call.kind, orderRow, orderLines, succeeded]
  | some statsData =>
    simp [Backend.insertDailyStatistics_calls, Backend.insertDailyStatistics_transactions,
      Backend.insertDailyStatistics_transaction_items, Backend.updateDailyStatistics_calls,
      Backend.updateDailyStatistics_transactions, Backend.updateDailyStatistics_transaction_items,
      Backend.record, Call.kind, orderRow, orderLines, succeeded]

end StaffDashboard

theorem updateDailyStatistics_spec (env : Env) (f : Faults) (b : Backend) (amount : ℚ) :
    (∃ c, c.kind = .statWrite ∧
      (updateDailyStatistics env f b amount).calls =
        b.calls ++ [.selectDailyStatistics env.today true, c])
    ∧ (updateDailyStatistics env f b amount).transactions = b.transactions
    ∧ (updateDailyStatistics env f b amount).transaction_items = b.transaction_items := by
  unfold updateDailyStatistics
  simp only [Backend.selectDailyStatisticsSingle_fst]
  generalize (Backend.selectDailyStatisticsSingle _ f.dailyStatisticsSelect env.today).2.data = d
  cases d with
  | none =>
    simp [Backend.insertDailyStatistics_calls, Backend.insertDailyStatistics_transactions,
      Backend.insertDailyStatistics_transaction_items, Backend.updateDailyStatistics_calls,
      Backend.updateDailyStatistics_transactions, Backend.updateDailyStatistics_transaction_items,
      Backend.record, Call.kind]
  | some existingStats =>
    simp [Backend.insertDailyStatistics_calls, Backend.insertDailyStatistics_transactions,
      Backend.insertDailyStatistics_transaction_items, Backend.updateDailyStatistics_calls,
      Backend.updateDailyStatistics_transactions, Backend.updateDailyStatistics_transaction_items,
      Backend.record, Call.kind]

theorem createTransaction_no_ids (env : Env) (f : Faults) (b : Backend) (t : Transaction)
    (h : t.items.filter (fun item => item.id != 0) = []) :
    createTransaction env f b t = (b, .error missingIdsError) := by
  simp [createTransaction, h]

theorem createTransaction_orderInsert_fails (env : Env) (f : Faults) (b : Backend)
    (t : Transaction) (h : t.items.filter (fun item => item.id != 0) ≠ []) (e : Err)
    (h1 : f.transactionsInsert = some e) :
    createTransaction env f b t =
      (b.record (.insertTransactions (createTransactionRow env t)),
        .error (if includes e.message "payment_method" then schemaError else e)) := by
  have hlen : (t.items.filter (fun item => item.id != 0)).length ≠ 0 := by simpa using h
  simp only [createTransaction, hlen, if_false, h1, Backend.insertTransactions]
  by_cases hp : t.paymentMethod = "" <;> split <;> simp [createTransactionRow, hp]

theorem createTransaction_orderLinesInsert_fails (env : Env) (f : Faults) (b : Backend)
    (t : Transaction) (h : t.items.filter (fun item => item.id != 0) ≠ []) (e : Err)
    (h1 : f.transactionsInsert = none) (h2 : f.transactionItemsInsert = some e) :
    createTransaction env f b t =
      ({ b with
          transactions := b.transactions ++
            [{ toTransactionInsert := createTransactionRow env t, id := b.nextId }]
          nextId := b.nextId + 1
          calls := b.calls ++ [.insertTransactions (createTransactionRow env t),
            .insertTransactionItems (createTransactionLines b.nextId t.items)] },
        .error e) := by
  have hlen : (t.items.filter (fun item => item.id != 0)).length ≠ 0 := by simpa using h
  simp only [createTransaction, hlen, if_false, h1, h2, Backend.insertTransactions,
    Backend.insertTransactionItems]
  by_cases hp : t.paymentMethod = "" <;>
    simp [Backend.record, createTransactionRow, createTransactionLines, hp]

theorem createTransaction_to_the_end (env : Env) (f : Faults) (b : Backend)
    (t : Transaction) (h : t.items.filter (fun item => item.id != 0) ≠ [])
    (h1 : f.transactionsInsert = none) (h2 : f.transactionItemsInsert = none) :
    createTransaction env f b t =
      (updateDailyStatistics env f (createTransactionInserted env b t) t.total, .ok b.nextId) := by
  have hlen : (t.items.filter (fun item => item.id != 0)).length ≠ 0 := by simpa using h
  simp only [createTransaction, hlen, if_false, h1, h2, Backend.insertTransactions,
    Backend.insertTransactionItems]
  by_cases hp : t.paymentMethod = "" <;>
    simp [Backend.record, createTransactionRow, createTransactionLines, createTransactionInserted, hp]

namespace DashboardPage

theorem page_orderTotal_eq_sum (cartItems : List CartItem) :
    orderTotal cartItems = (cartItems.map (fun item => item.price * (item.quantity : ℚ))).sum := by
  simp [orderTotal, foldl_add_eq_sum]

theorem page_complete_empty (env : Env) (f : Faults) (b : Backend) (st : State)
    (h : st.cartItems = []) :
    handleCompleteOrder env f b st = (b, { st with alerts := st.alerts ++ [emptyCartAlert] }) := by
  simp [handleCompleteOrder, h]

theorem page_complete_no_ids (env : Env) (f : Faults) (b : Backend) (st : State)
    (hne : st.cartItems ≠ []) (h : st.cartItems.filter (fun item => item.id != 0) = []) :
    handleCompleteOrder env f b st = (b, failed st) := by
  have hlen : st.cartItems.length ≠ 0 := by simpa using hne
  have hc := createTransaction_no_ids env f b (transactionOf st) h
  simp only [transactionOf] at hc
  simp only [handleCompleteOrder, hlen, if_false, hc, failed]

theorem page_complete_orderInsert_fails (env : Env) (f : Faults) (b : Backend) (st : State)
    (h : st.cartItems.filter (fun item => item.id != 0) ≠ []) (e : Err)
    (h1 : f.transactionsInsert = some e) :
    handleCompleteOrder env f b st =
      (b.record (.insertTransactions (createTransactionRow env (transactionOf st))), failed st) := by
  have hne : st.cartItems ≠ [] := by rintro h0; simp [h0] at h
  have hlen : st.cartItems.length ≠ 0 := by simpa using hne
  have hc := createTransaction_orderInsert_fails env f b (transactionOf st) h e h1
  simp only [transactionOf] at hc
  simp only [handleCompleteOrder, hlen, if_false, hc, failed, transactionOf]

theorem page_complete_orderLinesInsert_fails (env : Env) (f : Faults) (b : Backend) (st : State)
    (h : st.cartItems.filter (fun item => item.id != 0) ≠ []) (e : Err)
    (h1 : f.transactionsInsert = none) (h2 : f.transactionItemsInsert = some e) :
    handleCompleteOrder env f b st =
      ({ b with
          transactions := b.transactions ++
            [{ toTransactionInsert := createTransactionRow env (transactionOf st), id := b.nextId }]
          nextId := b.nextId + 1
          calls := b.calls ++ [.insertTransactions (createTransactionRow env (transactionOf st)),
            .insertTransactionItems (createTransactionLines b.nextId st.cartItems)] },
        failed st) := by
  have hne : st.cartItems ≠ [] := by rintro h0; simp [h0] at h
  have hlen : st.cartItems.length ≠ 0 := by simpa using hne
  have hc := createTransaction_orderLinesInsert_fails env f b (transactionOf st) h e h1 h2
  simp only [transactionOf] at hc
  simp only [handleCompleteOrder, hlen, if_false, hc, failed, transactionOf]

theorem page_complete_to_the_end (env : Env) (f : Faults) (b : Backend) (st : State)
    (h : st.cartItems.filter (fun item => item.id != 0) ≠ [])
    (h1 : f.transactionsInsert = none) (h2 : f.transactionItemsInsert = none) :
    (∃ c, c.kind = .statWrite ∧
      (handleCompleteOrder env f b st).1.calls =
        b.calls ++ [.insertTransactions (createTransactionRow env (transactionOf st)),
          .insertTransactionItems (createTransactionLines b.nextId st.cartItems),
          .selectDailyStatistics env.today true, c])
    ∧ (handleCompleteOrder env f b st).1.transactions = b.transactions ++
        [{ toTransactionInsert := createTransactionRow env (transactionOf st), id := b.nextId }]
    ∧ (handleCompleteOrder env f b st).1.transaction_items =
        b.transaction_items ++ createTransactionLines b.nextId st.cartItems
    ∧ (handleCompleteOrder env f b st).2 = succeeded st := by
  have hne : st.cartItems ≠ [] := by rintro h0; simp [h0] at h
  have hlen : st.cartItems.length ≠ 0 := by simpa using hne
  have hc := createTransaction_to_the_end env f b (transactionOf st) h h1 h2
  obtain ⟨⟨c, hk, hcalls⟩, ht, hi⟩ := updateDailyStatistics_spec env f
    (createTransactionInserted env b (transactionOf st)) (transactionOf st).total
  simp only [transactionOf] at hc hcalls ht hi
  simp only [handleCompleteOrder, hlen, if_false, hc]
  refine ⟨⟨c, hk, ?_⟩, ?_, ?_, ?_⟩
  · rw [hcalls]; simp [createTransactionInserted, transactionOf]
  · rw [ht]; simp [createTransactionInserted, transactionOf]
  · rw [hi]; simp [createTransactionInserted]
  · simp [succeeded]

end DashboardPage

/-! ## The calls of one completion -/

theorem orderInserts_statWrite (c : Call) (cs : List Call) (h : c.kind = .statWrite) :
    orderInserts (c :: cs) = orderInserts cs := by
  cases c <;> simp [Call.kind] at h <;> simp [orderInserts]

theorem orderLineInserts_statWrite (c : Call) (cs : List Call) (h : c.kind = .statWrite) :
    orderLineInserts (c :: cs) = orderLineInserts cs := by
  cases c <;> simp [Call.kind] at h <;> simp [orderLineInserts]

theorem CustomerDashboard.customer_calls_shape (env : Env) (f : Faults) (b : Backend)
    (st : CustomerDashboard.State) (hne : st.cart ≠ []) :
    (f.transactionsInsert ≠ none ∧
      newCalls b (handleCompleteOrder env f b st).1 = [.insertTransactions (orderRow env st)])
    ∨ (f.transactionsInsert = none ∧ f.transactionItemsInsert ≠ none ∧
      newCalls b (handleCompleteOrder env f b st).1 =
        [.insertTransactions (orderRow env st),
          .insertTransactionItems (orderLines b.nextId st.cart)])
    ∨ (f.transactionsInsert = none ∧ f.transactionItemsInsert = none ∧
      f.dailyStatisticsSelect ≠ none ∧
      newCalls b (handleCompleteOrder env f b st).1 =
        [.insertTransactions (orderRow env st),
          .insertTransactionItems (orderLines b.nextId st.cart),
          .selectDailyStatistics env.today false])
    ∨ (f.transactionsInsert = none ∧ f.transactionItemsInsert = none ∧
      ∃ c, c.kind = .statWrite ∧
        newCalls b (handleCompleteOrder env f b st).1 =
          [.insertTransactions (orderRow env st),
            .insertTransactionItems (orderLines b.nextId st.cart),
            .selectDailyStatistics env.today false, c]) := by
  cases h1 : f.transactionsInsert with
  | some e =>
    left
    rw [customer_complete_orderInsert_fails env f b st hne e h1]
    exact ⟨by simp, newCalls_append _ _ _ (by simp [Backend.record])⟩
  | none =>
    right
    cases h2 : f.transactionItemsInsert with
    | some e =>
      left
      rw [customer_complete_orderLinesInsert_fails env f b st hne e h1 h2]
      exact ⟨rfl, by simp, newCalls_append _ _ _ rfl⟩
    | none =>
      right
      by_cases h3 : ∀ e, f.dailyStatisticsSelect = some e → e.code = some "PGRST116"
      · right
        obtain ⟨⟨c, hk, hc⟩, -⟩ := customer_complete_to_the_end env f b st hne h1 h2 h3
        exact ⟨rfl, rfl, c, hk, newCalls_append _ _ _ hc⟩
      · left
        push_neg at h3
        obtain ⟨e, he, hcode⟩ := h3
        rw [customer_complete_statRead_fails env f b st hne e h1 h2 he hcode]
        exact ⟨rfl, rfl, by simp [he], newCalls_append _ _ _ rfl⟩

theorem StaffDashboard.staff_calls_shape (env : Env) (f : Faults) (b : Backend)
    (st : StaffDashboard.State) (hne : st.cartItems ≠ []) :
    (f.transactionsInsert ≠ none ∧
      newCalls b (handleCompleteOrder env f b st).1 = [.insertTransactions (orderRow env st)])
    ∨ (f.transactionsInsert = none ∧ f.transactionItemsInsert ≠ none ∧
      newCalls b (handleCompleteOrder env f b st).1 =
        [.insertTransactions (orderRow env st),
          .insertTransactionItems (orderLines b.nextId st.cartItems)])
    ∨ (f.transactionsInsert = none ∧ f.transactionItemsInsert = none ∧
      ∃ c, c.kind = .statWrite ∧
        newCalls b (handleCompleteOrder env f b st).1 =
          [.insertTransactions (orderRow env st),
            .insertTransactionItems (orderLines b.nextId st.cartItems),
            .selectDailyStatistics env.today true, c]) := by
  cases h1 : f.transactionsInsert with
  | some e =>
    left
    rw [staff_complete_orderInsert_fails env f b st hne e h1]
    exact ⟨by simp, newCalls_append _ _ _ (by simp [Backend.record])⟩
  | none =>
    right
    cases h2 : f.transactionItemsInsert with
    | some e =>
      left
      rw [staff_complete_orderLinesInsert_fails env f b st hne e h1 h2]
      exact ⟨rfl, by simp, newCalls_append _ _ _ rfl⟩
    | none =>
      right
      obtain ⟨⟨c, hk, hc⟩, -⟩ := staff_complete_to_the_end env f b st hne h1 h2
      exact ⟨rfl, rfl, c, hk, newCalls_append _ _ _ hc⟩

theorem DashboardPage.page_calls_shape (env : Env) (f : Faults) (b : Backend)
    (st : DashboardPage.State) (h : st.cartItems.filter (fun item => item.id != 0) ≠ []) :
    (f.transactionsInsert ≠ none ∧
      newCalls b (handleCompleteOrder env f b st).1 =
        [.insertTransactions (createTransactionRow env (transactionOf st))])
    ∨ (f.transactionsInsert = none ∧ f.transactionItemsInsert ≠ none ∧
      newCalls b (handleCompleteOrder env f b st).1 =
        [.insertTransactions (createTransactionRow env (transactionOf st)),
          .insertTransactionItems (createTransactionLines b.nextId st.cartItems)])
    ∨ (f.transactionsInsert = none ∧ f.transactionItemsInsert = none ∧
      ∃ c, c.kind = .statWrite ∧
        newCalls b (handleCompleteOrder env f b st).1 =
          [.insertTransactions (createTransactionRow env (transactionOf st)),
            .insertTransactionItems (createTransactionLines b.nextId st.cartItems),
            .selectDailyStatistics env.today true, c]) := by
  cases h1 : f.transactionsInsert with
  | some e =>
    left
    rw [page_complete_orderInsert_fails env f b st h e h1]
    exact ⟨by simp, newCalls_append _ _ _ (by simp [Backend.record])⟩
  | none =>
    right
    cases h2 : f.transactionItemsInsert with
    | some e =>
      left
      rw [page_complete_orderLinesInsert_fails env f b st h e h1 h2]
      exact ⟨rfl, by simp, newCalls_append _ _ _ rfl⟩
    | none =>
      right
      obtain ⟨⟨c, hk, hc⟩, -⟩ := page_complete_to_the_end env f b st h h1 h2
      exact ⟨rfl, rfl, c, hk, newCalls_append _ _ _ hc⟩

/-! ## Rounding to cents -/

theorem hundredths_cents (k : Int) : hundredths ((k : ℚ) / 100) = k.natAbs := by
  have h : ⌊|(k : ℚ) / 100| * 100 + 1 / 2⌋ = |k| := by
    rw [Int.floor_eq_iff]
    have : |(k : ℚ) / 100| * 100 = ((|k| : Int) : ℚ) := by
      rw [abs_div, Int.cast_abs]
      norm_num
    rw [this]
    constructor <;> linarith
  unfold hundredths
  rw [h, Int.abs_eq_natAbs, Int.toNat_ofNat]

theorem hundredths_of_bounds (x : ℚ) (n : Nat) (h1 : (n : ℚ) ≤ |x| * 100 + 1 / 2)
    (h2 : |x| * 100 + 1 / 2 < (n : ℚ) + 1) : hundredths x = n := by
  have h : ⌊|x| * 100 + 1 / 2⌋ = (n : Int) := by
    rw [Int.floor_eq_iff]
    exact ⟨by exact_mod_cast h1, by exact_mod_cast h2⟩
  unfold hundredths
  rw [h]
  simp


theorem parseFloatToFixed_of_hundredths (x : ℚ) (n : Nat) (hx : 0 ≤ x)
    (h1 : (n : ℚ) ≤ |x| * 100 + 1 / 2) (h2 : |x| * 100 + 1 / 2 < (n : ℚ) + 1) :
    parseFloatToFixed x = (n : ℚ) / 100 := by
  unfold parseFloatToFixed
  rw [hundredths_of_bounds x n h1 h2, if_neg (not_lt.2 hx)]

/-! ## Order total and order lines -/

theorem CustomerDashboard.customer_order_and_lines (env : Env) (f : Faults) (b : Backend)
    (st : CustomerDashboard.State) (hne : st.cart ≠ []) :
    orderInserts (newCalls b (handleCompleteOrder env f b st).1) = [orderRow env st]
    ∧ (f.transactionsInsert = none →
        orderLineInserts (newCalls b (handleCompleteOrder env f b st).1)
          = orderLines b.nextId st.cart) := by
  rcases customer_calls_shape env f b st hne with ⟨h1, hc⟩ | ⟨h1, -, hc⟩ | ⟨h1, -, -, hc⟩ |
    ⟨h1, -, c, hk, hc⟩
  · rw [hc]; exact ⟨by simp [orderInserts], fun h => absurd h h1⟩
  · rw [hc]; exact ⟨by simp [orderInserts], fun _ => by simp [orderLineInserts]⟩
  · rw [hc]; exact ⟨by simp [orderInserts], fun _ => by simp [orderLineInserts]⟩
  · rw [hc]
    exact ⟨by simp [orderInserts, orderInserts_statWrite c [] hk],
      fun _ => by simp [orderLineInserts, orderLineInserts_statWrite c [] hk]⟩

theorem StaffDashboard.staff_order_and_lines (env : Env) (f : Faults) (b : Backend)
    (st : StaffDashboard.State) (hne : st.cartItems ≠ []) :
    orderInserts (newCalls b (handleCompleteOrder env f b st).1) = [orderRow env st]
    ∧ (f.transactionsInsert = none →
        orderLineInserts (newCalls b (handleCompleteOrder env f b st).1)
          = orderLines b.nextId st.cartItems) := by
  rcases staff_calls_shape env f b st hne with ⟨h1, hc⟩ | ⟨h1, -, hc⟩ | ⟨h1, -, c, hk, hc⟩
  · rw [hc]; exact ⟨by simp [orderInserts], fun h => absurd h h1⟩
  · rw [hc]; exact ⟨by simp [orderInserts], fun _ => by simp [orderLineInserts]⟩
  · rw [hc]
    exact ⟨by simp [orderInserts, orderInserts_statWrite c [] hk],
      fun _ => by simp [orderLineInserts, orderLineInserts_statWrite c [] hk]⟩

theorem DashboardPage.page_order_and_lines (env : Env) (f : Faults) (b : Backend)
    (st : DashboardPage.State) (h : st.cartItems.filter (fun item => item.id != 0) ≠ []) :
    orderInserts (newCalls b (handleCompleteOrder env f b st).1)
      = [createTransactionRow env (transactionOf st)]
    ∧ (f.transactionsInsert = none →
        orderLineInserts (newCalls b (handleCompleteOrder env f b st).1)
          = createTransactionLines b.nextId st.cartItems) := by
  rcases page_calls_shape env f b st h with ⟨h1, hc⟩ | ⟨h1, -, hc⟩ | ⟨h1, -, c, hk, hc⟩
  · rw [hc]; exact ⟨by simp [orderInserts], fun h => absurd h h1⟩
  · rw [hc]; exact ⟨by simp [orderInserts], fun _ => by simp [orderLineInserts]⟩
  · rw [hc]
    exact ⟨by simp [orderInserts, orderInserts_statWrite c [] hk],
      fun _ => by simp [orderLineInserts, orderLineInserts_statWrite c [] hk]⟩

theorem CustomerDashboard.customer_transactions_after (env : Env) (f : Faults) (b : Backend)
    (st : CustomerDashboard.State) (hne : st.cart ≠ []) (h1 : f.transactionsInsert = none) :
    (handleCompleteOrder env f b st).1.transactions =
      b.transactions ++ [{ toTransactionInsert := orderRow env st, id := b.nextId }] := by
  cases h2 : f.transactionItemsInsert with
  | some e => rw [customer_complete_orderLinesInsert_fails env f b st hne e h1 h2]
  | none =>
    by_cases h3 : ∀ e, f.dailyStatisticsSelect = some e → e.code = some "PGRST116"
    · exact (customer_complete_to_the_end env f b st hne h1 h2 h3).2.1
    · push_neg at h3
      obtain ⟨e, he, hcode⟩ := h3
      rw [customer_complete_statRead_fails env f b st hne e h1 h2 he hcode]

theorem StaffDashboard.staff_transactions_after (env : Env) (f : Faults) (b : Backend)
    (st : StaffDashboard.State) (hne : st.cartItems ≠ []) (h1 : f.transactionsInsert = none) :
    (handleCompleteOrder env f b st).1.transactions =
      b.transactions ++ [{ toTransactionInsert := orderRow env st, id := b.nextId }] := by
  cases h2 : f.transactionItemsInsert with
  | some e => rw [staff_complete_orderLinesInsert_fails env f b st hne e h1 h2]
  | none => exact (staff_complete_to_the_end env f b st hne h1 h2).2.1

theorem DashboardPage.page_transactions_after (env : Env) (f : Faults) (b : Backend)
    (st : DashboardPage.State) (h : st.cartItems.filter (fun item => item.id != 0) ≠ [])
    (h1 : f.transactionsInsert = none) :
    (handleCompleteOrder env f b st).1.transactions = b.transactions ++
      [{ toTransactionInsert := createTransactionRow env (transactionOf st), id := b.nextId }] := by
  cases h2 : f.transactionItemsInsert with
  | some e => rw [page_complete_orderLinesInsert_fails env f b st h e h1 h2]
  | none => exact (page_complete_to_the_end env f b st h h1 h2).2.1

/-! ## C1 -/

theorem sum_subtotals_customer (transactionId : Nat) (cart : List CustomerDashboard.CartLine) :
    ((CustomerDashboard.orderLines transactionId cart).map (fun r => r.subtotal)).sum
      = (cart.map (fun l => l.subtotal)).sum := by
  simp [CustomerDashboard.orderLines, List.map_map, Function.comp_def]

theorem sum_subtotals_staff (transactionId : Nat) (cart : List CartItem) :
    ((StaffDashboard.orderLines transactionId cart).map (fun r => r.subtotal)).sum
      = (cart.map (fun item => item.price * (item.quantity : ℚ))).sum := by
  simp [StaffDashboard.orderLines, List.map_map, Function.comp_def]

theorem CustomerDashboard.customer_order_total (env : Env) (f : Faults) (b : Backend)
    (st : CustomerDashboard.State) (hne : st.cart ≠ []) :
    ∃ row, orderInserts (newCalls b (handleCompleteOrder env f b st).1) = [row]
      ∧ row.total_amount = (st.cart.map (fun l => l.subtotal)).sum
      ∧ (f.transactionsInsert = none →
          (handleCompleteOrder env f b st).1.transactions =
            b.transactions ++ [{ toTransactionInsert := row, id := b.nextId }]
          ∧ ((orderLineInserts (newCalls b (handleCompleteOrder env f b st).1)).map
              (fun r => r.subtotal)).sum = row.total_amount) := by
  obtain ⟨ho, hl⟩ := customer_order_and_lines env f b st hne
  refine ⟨orderRow env st, ho, customer_totalPrice_eq_sum _, fun h1 => ⟨customer_transactions_after env f b st hne h1, ?_⟩⟩
  rw [hl h1, sum_subtotals_customer]
  exact (customer_totalPrice_eq_sum _).symm

theorem StaffDashboard.staff_order_total (env : Env) (f : Faults) (b : Backend)
    (st : StaffDashboard.State) (hne : st.cartItems ≠ []) :
    ∃ row, orderInserts (newCalls b (handleCompleteOrder env f b st).1) = [row]
      ∧ row.total_amount = (st.cartItems.map (fun item => item.price * (item.quantity : ℚ))).sum
      ∧ (f.transactionsInsert = none →
          (handleCompleteOrder env f b st).1.transactions =
            b.transactions ++ [{ toTransactionInsert := row, id := b.nextId }]
          ∧ ((orderLineInserts (newCalls b (handleCompleteOrder env f b st).1)).map
              (fun r => r.subtotal)).sum = row.total_amount) := by
  obtain ⟨ho, hl⟩ := staff_order_and_lines env f b st hne
  refine ⟨orderRow env st, ho, staff_orderTotal_eq_sum _, fun h1 => ⟨staff_transactions_after env f b st hne h1, ?_⟩⟩
  rw [hl h1, sum_subtotals_staff]
  exact (staff_orderTotal_eq_sum _).symm

theorem DashboardPage.page_order_total (env : Env) (f : Faults) (b : Backend)
    (st : DashboardPage.State) (hids : st.cartItems.filter (fun item => item.id != 0) ≠ []) :
    ∃ row, orderInserts (newCalls b (handleCompleteOrder env f b st).1) = [row]
      ∧ row.total_amount = parseFloatToFixed (orderTotal st.cartItems)
      ∧ (f.transactionsInsert = none →
          (handleCompleteOrder env f b st).1.transactions =
            b.transactions ++ [{ toTransactionInsert := row, id := b.nextId }]
          ∧ (orderLineInserts (newCalls b (handleCompleteOrder env f b st).1)).map
              (fun r => r.subtotal)
            = (st.cartItems.filter (fun item => item.id != 0)).map (fun item =>
                parseFloatToFixed (item.price * (quantityOrOne item.quantity : ℚ)))) := by
  obtain ⟨ho, hl⟩ := page_order_and_lines env f b st hids
  refine ⟨_, ho, rfl, fun h1 => ⟨page_transactions_after env f b st hids h1, ?_⟩⟩
  rw [hl h1]
  simp [createTransactionLines, List.map_map, Function.comp_def]

/-- C1 (amended). For every non-empty cart the completion handlers of
`CustomerDashboard` and `StaffDashboard` issue exactly one insert into
`transactions`, whose `total_amount` is the sum of the cart line subtotals (the
stored subtotal in CustomerDashboard, price times quantity in StaffDashboard);
when that insert succeeds exactly one row is added to `transactions` and the
subtotals of the rows inserted into `transaction_items` sum to the same total.
`DashboardPage`, through `createTransaction`, issues exactly one insert for
every cart with a line of non-zero id; its `total_amount` is the cart total
rounded to two decimals, and when it succeeds one row is added and the lines
inserted are those of non-zero id, each with its own price times quantity
(quantity 0 read as 1) rounded to two decimals: total and lines are rounded
separately. For two lattes at 5.50 and one muffin at 4.25 paid in cash, each of
the three flows writes the total 15.25 and two order lines whose subtotals are
11 and 4.25. -/
theorem C1_order_total_matches_lines :
    (∀ (env : Env) (f : Faults) (b : Backend) (st : CustomerDashboard.State), st.cart ≠ [] →
      ∃ row, orderInserts (newCalls b (CustomerDashboard.handleCompleteOrder env f b st).1) = [row]
        ∧ row.total_amount = (st.cart.map (fun l => l.subtotal)).sum
        ∧ (f.transactionsInsert = none →
            (CustomerDashboard.handleCompleteOrder env f b st).1.transactions =
              b.transactions ++ [{ toTransactionInsert := row, id := b.nextId }]
            ∧ ((orderLineInserts (newCalls b
                (CustomerDashboard.handleCompleteOrder env f b st).1)).map
                  (fun r => r.subtotal)).sum = row.total_amount))
    ∧ (∀ (env : Env) (f : Faults) (b : Backend) (st : StaffDashboard.State), st.cartItems ≠ [] →
      ∃ row, orderInserts (newCalls b (StaffDashboard.handleCompleteOrder env f b st).1) = [row]
        ∧ row.total_amount = (st.cartItems.map (fun item => item.price * (item.quantity : ℚ))).sum
        ∧ (f.transactionsInsert = none →
            (StaffDashboard.handleCompleteOrder env f b st).1.transactions =
              b.transactions ++ [{ toTransactionInsert := row, id := b.nextId }]
            ∧ ((orderLineInserts (newCalls b
                (StaffDashboard.handleCompleteOrder env f b st).1)).map
                  (fun r => r.subtotal)).sum = row.total_amount))
    ∧ (∀ (env : Env) (f : Faults) (b : Backend) (st : DashboardPage.State),
      st.cartItems.filter (fun item => item.id != 0) ≠ [] →
      ∃ row, orderInserts (newCalls b (DashboardPage.handleCompleteOrder env f b st).1) = [row]
        ∧ row.total_amount = parseFloatToFixed (DashboardPage.orderTotal st.cartItems)
        ∧ (f.transactionsInsert = none →
            (DashboardPage.handleCompleteOrder env f b st).1.transactions =
              b.transactions ++ [{ toTransactionInsert := row, id := b.nextId }]
            ∧ (orderLineInserts (newCalls b
                (DashboardPage.handleCompleteOrder env f b st).1)).map (fun r => r.subtotal)
              = (st.cartItems.filter (fun item => item.id != 0)).map (fun item =>
                  parseFloatToFixed (item.price * (quantityOrOne item.quantity : ℚ)))))
    ∧ (∀ (env : Env) (f : Faults) (b : Backend), f.transactionsInsert = none →
      ((orderInserts (newCalls b (CustomerDashboard.handleCompleteOrder env f b
          CustomerDashboard.exampleState).1)).map (fun r => (r.total_amount, r.payment_method))
          = [(61 / 4, some "cash")]
        ∧ (orderLineInserts (newCalls b (CustomerDashboard.handleCompleteOrder env f b
          CustomerDashboard.exampleState).1)).map (fun r => r.subtotal) = [11, 17 / 4])
      ∧ ((orderInserts (newCalls b (StaffDashboard.handleCompleteOrder env f b
          StaffDashboard.exampleState).1)).map (fun r => (r.total_amount, r.payment_method))
          = [(61 / 4, some "cash")]
        ∧ (orderLineInserts (newCalls b (StaffDashboard.handleCompleteOrder env f b
          StaffDashboard.exampleState).1)).map (fun r => r.subtotal) = [11, 17 / 4])
      ∧ ((orderInserts (newCalls b (DashboardPage.handleCompleteOrder env f b
          DashboardPage.exampleState).1)).map (fun r => (r.total_amount, r.payment_method))
          = [(61 / 4, some "cash")]
        ∧ (orderLineInserts (newCalls b (DashboardPage.handleCompleteOrder env f b
          DashboardPage.exampleState).1)).map (fun r => r.subtotal) = [11, 17 / 4])) := by
  refine ⟨CustomerDashboard.customer_order_total, StaffDashboard.staff_order_total, DashboardPage.page_order_total,
    fun env f b h1 => ⟨?_, ?_, ?_⟩⟩
  · obtain ⟨ho, hl⟩ := CustomerDashboard.customer_order_and_lines env f b CustomerDashboard.exampleState
      (by simp [CustomerDashboard.exampleState])
    rw [ho, hl h1]
    constructor
    · simp [CustomerDashboard.orderRow, CustomerDashboard.totalPrice,
        CustomerDashboard.exampleState]
      norm_num
    · simp [CustomerDashboard.orderLines, CustomerDashboard.exampleState]
  · obtain ⟨ho, hl⟩ := StaffDashboard.staff_order_and_lines env f b StaffDashboard.exampleState
      (by simp [StaffDashboard.exampleState])
    rw [ho, hl h1]
    constructor
    · have hp : toLowerCase "cash" = "cash" := by decide
      simp [StaffDashboard.orderRow, StaffDashboard.orderTotal, StaffDashboard.exampleState,
        latte, muffin, hp]
      norm_num
    · simp [StaffDashboard.orderLines, StaffDashboard.exampleState, latte, muffin]
  · obtain ⟨ho, hl⟩ := DashboardPage.page_order_and_lines env f b DashboardPage.exampleState
      (by simp [DashboardPage.exampleState, latte, muffin])
    have r11 : parseFloatToFixed (11 / 2 * 2) = 11 := by
      rw [parseFloatToFixed_of_hundredths _ 1100 (by norm_num)
        (by norm_num [abs_of_nonneg]) (by norm_num [abs_of_nonneg])]
      norm_num
    have r17 : parseFloatToFixed (17 / 4) = 17 / 4 := by
      rw [parseFloatToFixed_of_hundredths _ 425 (by norm_num)
        (by norm_num [abs_of_nonneg]) (by norm_num [abs_of_nonneg])]
      norm_num
    have r61 : parseFloatToFixed (61 / 4) = 61 / 4 := by
      rw [parseFloatToFixed_of_hundredths _ 1525 (by norm_num)
        (by norm_num [abs_of_nonneg]) (by norm_num [abs_of_nonneg])]
      norm_num
    rw [ho, hl h1]
    constructor
    · have hp : toLowerCase "cash" = "cash" := by decide
      have ht : DashboardPage.orderTotal DashboardPage.exampleState.cartItems = 61 / 4 := by
        simp [DashboardPage.orderTotal, DashboardPage.exampleState, latte, muffin]
        norm_num
      simp [createTransactionRow, DashboardPage.transactionOf, ht, r61]
      simp [DashboardPage.exampleState, hp]
    · simp only [createTransactionLines, DashboardPage.exampleState, latte, muffin,
        quantityOrOne]
      simp only [bne_iff_ne, ne_eq, OfNat.ofNat_ne_zero, one_ne_zero, not_false_eq_true,
        decide_True, List.filter_cons_of_pos, List.filter_nil, List.map_cons, List.map_nil,
        if_false, Int.cast_ofNat, Int.cast_one, mul_one, r11, r17]

/-- At the cart of two lattes and one muffin in CustomerDashboard, with no failing
call, one order is inserted whose total is the sum of the cart subtotals, one row
is added to `transactions`, and the line subtotals sum to the total. -/
theorem C1_order_total_matches_lines_witness :
    ∃ row, orderInserts (newCalls emptyBackend (CustomerDashboard.handleCompleteOrder exampleEnv
        Faults.none emptyBackend CustomerDashboard.exampleState).1) = [row]
      ∧ row.total_amount = (CustomerDashboard.exampleState.cart.map (fun l => l.subtotal)).sum
      ∧ (CustomerDashboard.handleCompleteOrder exampleEnv Faults.none emptyBackend
            CustomerDashboard.exampleState).1.transactions =
              emptyBackend.transactions ++ [{ toTransactionInsert := row, id := emptyBackend.nextId }]
      ∧ ((orderLineInserts (newCalls emptyBackend
              (CustomerDashboard.handleCompleteOrder exampleEnv Faults.none emptyBackend
                CustomerDashboard.exampleState).1)).map
                (fun r => r.subtotal)).sum = row.total_amount :=
  let ⟨row, h1, h2, h3⟩ := C1_order_total_matches_lines.1 exampleEnv Faults.none emptyBackend
    CustomerDashboard.exampleState (by simp [CustomerDashboard.exampleState])
  ⟨row, h1, h2, (h3 rfl).1, (h3 rfl).2⟩

/-- C1 as stated fails for DashboardPage: for a cart of two lines priced 1/256
each, with no failing call, `createTransaction` writes the total 0.01 on the
order and the subtotal 0 on both order lines, while the cart line subtotals sum
to 1/128. -/
theorem C1_counterexample :
    (orderInserts (newCalls emptyBackend (DashboardPage.handleCompleteOrder exampleEnv
        Faults.none emptyBackend DashboardPage.fractionState).1)).map (fun r => r.total_amount)
      = [1 / 100]
    ∧ (orderLineInserts (newCalls emptyBackend (DashboardPage.handleCompleteOrder exampleEnv
        Faults.none emptyBackend DashboardPage.fractionState).1)).map (fun r => r.subtotal)
      = [0, 0]
    ∧ (DashboardPage.fractionState.cartItems.map
        (fun item => item.price * (item.quantity : ℚ))).sum = 1 / 128 := by
  obtain ⟨ho, hl⟩ := DashboardPage.page_order_and_lines exampleEnv Faults.none emptyBackend
    DashboardPage.fractionState (by simp [DashboardPage.fractionState])
  have h0 : hundredths (1 / 256) = 0 := by
    apply hundredths_of_bounds <;> norm_num [abs_of_nonneg]
  have h1 : hundredths (1 / 128) = 1 := by
    apply hundredths_of_bounds <;> norm_num [abs_of_nonneg]
  have r0 : parseFloatToFixed (1 / 256) = 0 := by
    unfold parseFloatToFixed; rw [h0]; norm_num
  have r1 : parseFloatToFixed (1 / 128) = 1 / 100 := by
    unfold parseFloatToFixed; rw [h1]; norm_num
  have ht : DashboardPage.orderTotal DashboardPage.fractionState.cartItems = 1 / 128 := by
    simp [DashboardPage.orderTotal, DashboardPage.fractionState]
    norm_num
  rw [ho, hl rfl]
  refine ⟨?_, ?_, ?_⟩
  · simp only [createTransactionRow, DashboardPage.transactionOf, ht, r1, List.map_cons,
      List.map_nil]
  · simp only [createTransactionLines, DashboardPage.fractionState, quantityOrOne]
    simp only [bne_iff_ne, ne_eq, OfNat.ofNat_ne_zero, not_false_eq_true, decide_True,
      List.filter_cons_of_pos, List.filter_nil, List.map_cons, List.map_nil, one_ne_zero,
      if_false, Int.cast_one, mul_one, r0]
  · simp [DashboardPage.fractionState]
    norm_num

/-! ## C2 -/

/-- C2 (amended). When the Order insert succeeds, the rows the completion handlers
of `CustomerDashboard` and `StaffDashboard` pass to the `transaction_items` insert
are, for every non-empty cart, one row per cart line in cart order, each with the
identifier of the Order row just inserted and the id, quantity, unit price and
subtotal of its cart line (the stored subtotal in CustomerDashboard, price times
quantity in StaffDashboard). `DashboardPage`, through `createTransaction`, passes
one row per cart line with a non-zero id, in cart order, with quantity 0 replaced
by 1 and with the unit price and the subtotal (price times that quantity) each
rounded to two decimals. -/
theorem C2_order_lines_copy_cart :
    (∀ (env : Env) (f : Faults) (b : Backend) (st : CustomerDashboard.State), st.cart ≠ [] →
      f.transactionsInsert = none →
      ∃ t, (CustomerDashboard.handleCompleteOrder env f b st).1.transactions = b.transactions ++ [t]
        ∧ orderLineInserts (newCalls b (CustomerDashboard.handleCompleteOrder env f b st).1)
          = st.cart.map (fun item =>
              ⟨t.id, item.id, item.quantity, item.price, item.subtotal⟩))
    ∧ (∀ (env : Env) (f : Faults) (b : Backend) (st : StaffDashboard.State), st.cartItems ≠ [] →
      f.transactionsInsert = none →
      ∃ t, (StaffDashboard.handleCompleteOrder env f b st).1.transactions = b.transactions ++ [t]
        ∧ orderLineInserts (newCalls b (StaffDashboard.handleCompleteOrder env f b st).1)
          = st.cartItems.map (fun item =>
              ⟨t.id, item.id, item.quantity, item.price, item.price * (item.quantity : ℚ)⟩))
    ∧ (∀ (env : Env) (f : Faults) (b : Backend) (st : DashboardPage.State),
      st.cartItems.filter (fun item => item.id != 0) ≠ [] → f.transactionsInsert = none →
      ∃ t, (DashboardPage.handleCompleteOrder env f b st).1.transactions = b.transactions ++ [t]
        ∧ orderLineInserts (newCalls b (DashboardPage.handleCompleteOrder env f b st).1)
          = (st.cartItems.filter (fun item => item.id != 0)).map (fun item =>
              ⟨t.id, item.id, quantityOrOne item.quantity, parseFloatToFixed item.price,
                parseFloatToFixed (item.price * (quantityOrOne item.quantity : ℚ))⟩)) := by
  refine ⟨fun env f b st hne h1 => ?_, fun env f b st hne h1 => ?_, fun env f b st hids h1 => ?_⟩
  · exact ⟨_, CustomerDashboard.customer_transactions_after env f b st hne h1,
      (CustomerDashboard.customer_order_and_lines env f b st hne).2 h1⟩
  · exact ⟨_, StaffDashboard.staff_transactions_after env f b st hne h1,
      (StaffDashboard.staff_order_and_lines env f b st hne).2 h1⟩
  · exact ⟨_, DashboardPage.page_transactions_after env f b st hids h1,
      (DashboardPage.page_order_and_lines env f b st hids).2 h1⟩

/-- At the cart of two lattes and one muffin in StaffDashboard, with no failing
call, the two order lines carry the new order id 1 and the cart values. -/
theorem C2_order_lines_copy_cart_witness :
    StaffDashboard.exampleState.cartItems ≠ [] ∧ Faults.none.transactionsInsert = none ∧
    ∃ t, (StaffDashboard.handleCompleteOrder exampleEnv Faults.none emptyBackend
        StaffDashboard.exampleState).1.transactions = emptyBackend.transactions ++ [t]
      ∧ orderLineInserts (newCalls emptyBackend (StaffDashboard.handleCompleteOrder exampleEnv
          Faults.none emptyBackend StaffDashboard.exampleState).1)
        = StaffDashboard.exampleState.cartItems.map (fun item =>
            ⟨t.id, item.id, item.quantity, item.price, item.price * (item.quantity : ℚ)⟩) :=
  ⟨by simp [StaffDashboard.exampleState], rfl,
    C2_order_lines_copy_cart.2.1 exampleEnv Faults.none emptyBackend StaffDashboard.exampleState
      (by simp [StaffDashboard.exampleState]) rfl⟩

/-- C2 as stated fails for DashboardPage: for a cart of two lines priced 1/256
each, with no failing call, both order lines are inserted with unit price 0 and
subtotal 0. -/
theorem C2_counterexample :
    (orderLineInserts (newCalls emptyBackend (DashboardPage.handleCompleteOrder exampleEnv
        Faults.none emptyBackend DashboardPage.fractionState).1)).map
        (fun r => (r.price_per_unit, r.subtotal)) = [(0, 0), (0, 0)]
    ∧ DashboardPage.fractionState.cartItems.map
        (fun item => (item.price, item.price * (item.quantity : ℚ)))
        = [(1 / 256, 1 / 256), (1 / 256, 1 / 256)] := by
  obtain ⟨-, hl⟩ := DashboardPage.page_order_and_lines exampleEnv Faults.none emptyBackend
    DashboardPage.fractionState (by simp [DashboardPage.fractionState])
  have h0 : hundredths (1 / 256) = 0 := by
    apply hundredths_of_bounds <;> norm_num [abs_of_nonneg]
  have r0 : parseFloatToFixed (1 / 256) = 0 := by
    unfold parseFloatToFixed; rw [h0]; norm_num
  rw [hl rfl]
  constructor
  · simp only [createTransactionLines, DashboardPage.fractionState, quantityOrOne]
    simp only [bne_iff_ne, ne_eq, OfNat.ofNat_ne_zero, not_false_eq_true, decide_True,
      List.filter_cons_of_pos, List.filter_nil, List.map_cons, List.map_nil, one_ne_zero,
      if_false, Int.cast_one, mul_one, r0]
  · simp [DashboardPage.fractionState]

/-! ## C3 -/

theorem find_none_of_absent {α : Type} (key : α → Nat) (l : List α) (i : Nat)
    (h : ∀ x ∈ l, key x ≠ i) : l.find? (fun x => key x == i) = none := by
  rw [List.find?_eq_none]
  intro x hx
  simpa using h x hx

theorem find_some_of_present {α : Type} (key : α → Nat) (l : List α) (i : Nat)
    (h : ∃ x ∈ l, key x = i) : ∃ y, l.find? (fun x => key x == i) = some y := by
  cases hf : l.find? (fun x => key x == i) with
  | some y => exact ⟨y, rfl⟩
  | none =>
    rw [List.find?_eq_none] at hf
    obtain ⟨x, hx, hi⟩ := h
    exact absurd (by simpa using hi) (hf x hx)

theorem map_absent {α : Type} (key : α → Nat) (g : α → α) (l : List α) (i : Nat)
    (h : ∀ x ∈ l, key x ≠ i) : l.map (fun x => if key x == i then g x else x) = l := by
  conv_rhs => rw [← List.map_id l]
  apply List.map_congr_left
  intro x hx
  simp [h x hx]

theorem StaffDashboard.staff_add_absent (cart : List CartItem) (item : MenuItem)
    (h : ∀ l ∈ cart, l.id ≠ item.id) :
    handleAddToCart cart item = cart ++ [{ toMenuItem := item, quantity := 1 }] := by
  unfold handleAddToCart
  rw [find_none_of_absent (fun l : CartItem => l.id) cart item.id h]

theorem StaffDashboard.staff_add_present (pre : List CartItem) (line : CartItem) (item : MenuItem)
    (h : ∀ l ∈ pre, l.id ≠ item.id) (hl : line.id = item.id) :
    handleAddToCart (pre ++ [line]) item
      = pre ++ [{ line with quantity := line.quantity + 1 }] := by
  unfold handleAddToCart
  obtain ⟨y, hy⟩ := find_some_of_present (fun l : CartItem => l.id) (pre ++ [line]) item.id
    ⟨line, by simp, hl⟩
  rw [hy]
  simp only [List.map_append, List.map_cons, List.map_nil]
  rw [map_absent (fun l : CartItem => l.id) _ pre item.id h]
  simp [hl]

theorem StaffDashboard.staff_repeated_add (pre : List CartItem) (rest : List MenuItem) :
    ∀ line : CartItem, (∀ l ∈ pre, l.id ≠ line.id) → (∀ item ∈ rest, item.id = line.id) →
      run (pre ++ [line]) (rest.map CartAction.add)
        = pre ++ [{ line with quantity := line.quantity + rest.length }] := by
  induction rest with
  | nil => intro line _ _; simp [run]
  | cons item rest ih =>
    intro line hpre hrest
    have hid : item.id = line.id := hrest item (by simp)
    have hstep : run (pre ++ [line]) ((item :: rest).map CartAction.add)
        = run (pre ++ [{ line with quantity := line.quantity + 1 }]) (rest.map CartAction.add) := by
      simp only [run, List.map_cons, List.foldl_cons, step]
      rw [staff_add_present pre line item (fun l hl => by rw [hid]; exact hpre l hl) hid.symm]
    rw [hstep, ih { line with quantity := line.quantity + 1 } hpre
      (fun it hi => hrest it (by simp [hi]))]
    simp only [List.length_cons, Nat.cast_add, Nat.cast_one]
    congr 2
    simp only [CartItem.mk.injEq, true_and]
    ring

theorem DashboardPage.page_run_eq (cart : List CartItem) (actions : List CartAction) :
    run cart actions = StaffDashboard.run cart actions := by
  unfold run StaffDashboard.run
  congr 1

theorem CustomerDashboard.customer_add_absent (cart : List CartLine) (item : MenuItem)
    (h : ∀ l ∈ cart, l.id ≠ item.id) :
    handleAddToCart cart item
      = cart ++ [⟨item.id, item.name, item.emoji, item.price, 1, item.price⟩] := by
  unfold handleAddToCart
  rw [find_none_of_absent (fun l : CartLine => l.id) cart item.id h]

theorem CustomerDashboard.customer_add_present (pre : List CartLine) (line : CartLine)
    (item : MenuItem) (h : ∀ l ∈ pre, l.id ≠ item.id) (hl : line.id = item.id) :
    handleAddToCart (pre ++ [line]) item
      = pre ++ [{ line with
          quantity := line.quantity + 1
          subtotal := ((line.quantity + 1 : Int) : ℚ) * item.price }] := by
  unfold handleAddToCart
  obtain ⟨y, hy⟩ := find_some_of_present (fun l : CartLine => l.id) (pre ++ [line]) item.id
    ⟨line, by simp, hl⟩
  rw [hy]
  simp only [List.map_append, List.map_cons, List.map_nil]
  rw [map_absent (fun l : CartLine => l.id) _ pre item.id h]
  simp [hl]

theorem CustomerDashboard.customer_repeated_add (pre : List CartLine) (rest : List MenuItem) :
    ∀ (line : CartLine) (last : MenuItem), (∀ l ∈ pre, l.id ≠ line.id) →
      (∀ item ∈ rest, item.id = line.id) → last.id = line.id →
      run (pre ++ [line]) ((rest ++ [last]).map CartAction.add)
        = pre ++ [{ line with
            quantity := line.quantity + (rest.length + 1 : Nat)
            subtotal := ((line.quantity + (rest.length + 1 : Nat) : Int) : ℚ) * last.price }] := by
  induction rest with
  | nil =>
    intro line last hpre _ hlast
    simp only [run, List.nil_append, List.map_cons, List.map_nil, List.foldl_cons,
      List.foldl_nil, step]
    rw [customer_add_present pre line last (fun l hl => by rw [hlast]; exact hpre l hl)
      hlast.symm]
    simp
  | cons item rest ih =>
    intro line last hpre hrest hlast
    have hid : item.id = line.id := hrest item (by simp)
    have hstep : run (pre ++ [line]) (((item :: rest) ++ [last]).map CartAction.add)
        = run (pre ++ [{ line with
            quantity := line.quantity + 1
            subtotal := ((line.quantity + 1 : Int) : ℚ) * item.price }])
          ((rest ++ [last]).map CartAction.add) := by
      simp only [run, List.cons_append, List.map_cons, List.foldl_cons, step]
      rw [customer_add_present pre line item (fun l hl => by rw [hid]; exact hpre l hl)
        hid.symm]
    rw [hstep, ih { line with
        quantity := line.quantity + 1
        subtotal := ((line.quantity + 1 : Int) : ℚ) * item.price } last hpre
      (fun it hi => hrest it (by simp [hi])) hlast]
    simp only [List.length_cons]
    congr 2
    simp only [CartLine.mk.injEq, true_and]
    constructor
    · push_cast; ring
    · push_cast; ring

/-- The handler of CustomerDashboard on its own, for any items that carry the id
of `first`: the line keeps the name, emoji and price passed in the first call,
its quantity is the number of calls, and its subtotal is that number times the
price passed in the last call (`item.price` in the update branch of
`handleAddToCart`). -/
theorem CustomerDashboard.customer_adds_general (cart : List CustomerDashboard.CartLine)
    (first : MenuItem) (rest : List MenuItem) (last : MenuItem)
    (hcart : ∀ l ∈ cart, l.id ≠ first.id) (hrest : ∀ item ∈ rest, item.id = first.id)
    (hlast : last.id = first.id) :
    run cart ((first :: (rest ++ [last])).map CartAction.add)
      = cart ++ [⟨first.id, first.name, first.emoji, first.price,
          ((rest.length + 2 : Nat) : Int), ((rest.length + 2 : Nat) : ℚ) * last.price⟩] := by
  have h0 : run cart ((first :: (rest ++ [last])).map CartAction.add)
      = run (cart ++ [⟨first.id, first.name, first.emoji, first.price, 1, first.price⟩])
          ((rest ++ [last]).map CartAction.add) := by
    simp only [run, List.map_cons, List.foldl_cons, step]
    rw [customer_add_absent cart first hcart]
  rw [h0, customer_repeated_add cart rest
    ⟨first.id, first.name, first.emoji, first.price, 1, first.price⟩ last hcart hrest hlast]
  congr 2
  simp only [CartLine.mk.injEq, true_and]
  constructor
  · push_cast; ring
  · push_cast; ring

/-- The handler of StaffDashboard on its own, for any items that carry the id of
`first`: the line is the item passed in the first call, with the number of calls
as quantity. -/
theorem StaffDashboard.staff_adds_general (cart : List CartItem) (first : MenuItem)
    (rest : List MenuItem) (hcart : ∀ l ∈ cart, l.id ≠ first.id)
    (hrest : ∀ item ∈ rest, item.id = first.id) :
    run cart ((first :: rest).map CartAction.add)
      = cart ++ [{ toMenuItem := first, quantity := ((rest.length + 1 : Nat) : Int) }] := by
  have h0 : run cart ((first :: rest).map CartAction.add)
      = run (cart ++ [{ toMenuItem := first, quantity := 1 }]) (rest.map CartAction.add) := by
    simp only [run, List.map_cons, List.foldl_cons, step]
    rw [staff_add_absent cart first hcart]
  rw [h0, staff_repeated_add cart rest { toMenuItem := first, quantity := 1 } hcart hrest]
  congr 2
  simp only [CartItem.mk.injEq, true_and]
  push_cast; ring

/-- Two rows of a menu with pairwise distinct ids that have the same id are the
same row. -/
theorem menu_row_of_id (menuItems : List MenuItem)
    (hmenu : (menuItems.map (fun item => item.id)).Nodup) (a b : MenuItem)
    (ha : a ∈ menuItems) (hb : b ∈ menuItems) (h : a.id = b.id) : a = b :=
  List.inj_on_of_nodup_map hmenu ha hb h

/-- C3: the "Add" buttons pass rows of the menu the dashboard loaded on mount, and
the ids of a menu are pairwise distinct. For every row `first` of such a menu
and every n = `rest.length + 1` calls of `handleAddToCart` for its id, each
passing a row of the menu with that id, starting from a cart that holds no line
for the id: the cart afterwards is the cart before followed by one line for the
id, with quantity n, the price passed in the first call and, in
CustomerDashboard, subtotal n times that price (in StaffDashboard and
DashboardPage the line holds no subtotal; price times quantity is n times that
price). -/
theorem C3_repeated_add (menuItems : List MenuItem)
    (hmenu : (menuItems.map (fun item => item.id)).Nodup)
    (first : MenuItem) (rest : List MenuItem) (hfirst : first ∈ menuItems)
    (hrest : ∀ item ∈ rest, item ∈ menuItems ∧ item.id = first.id)
    (cart : List CustomerDashboard.CartLine) (cartItems : List CartItem)
    (hcart : ∀ l ∈ cart, l.id ≠ first.id) (hcartItems : ∀ l ∈ cartItems, l.id ≠ first.id) :
    CustomerDashboard.run cart ((first :: rest).map CartAction.add)
        = cart ++ [⟨first.id, first.name, first.emoji, first.price,
            ((rest.length + 1 : Nat) : Int), ((rest.length + 1 : Nat) : ℚ) * first.price⟩]
    ∧ StaffDashboard.run cartItems ((first :: rest).map CartAction.add)
        = cartItems ++ [{ toMenuItem := first, quantity := ((rest.length + 1 : Nat) : Int) }]
    ∧ DashboardPage.run cartItems ((first :: rest).map CartAction.add)
        = cartItems ++ [{ toMenuItem := first, quantity := ((rest.length + 1 : Nat) : Int) }]
    ∧ (∀ l ∈ cart ++ [(⟨first.id, first.name, first.emoji, first.price,
            ((rest.length + 1 : Nat) : Int), ((rest.length + 1 : Nat) : ℚ) * first.price⟩ :
            CustomerDashboard.CartLine)],
        l.id = first.id → l.quantity = ((rest.length + 1 : Nat) : Int)
          ∧ l.subtotal = ((rest.length + 1 : Nat) : ℚ) * first.price) := by
  have hids : ∀ item ∈ rest, item.id = first.id := fun item hi => (hrest item hi).2
  have hstaff := StaffDashboard.staff_adds_general cartItems first rest hcartItems hids
  refine ⟨?_, hstaff, ?_, ?_⟩
  · rcases List.eq_nil_or_concat rest with hnil | ⟨rest0, last, hconcat⟩
    · subst hnil
      simp only [List.map_cons, List.map_nil, CustomerDashboard.run, List.foldl_cons,
        List.foldl_nil, CustomerDashboard.step]
      rw [CustomerDashboard.customer_add_absent cart first hcart]
      simp
    · subst hconcat
      have hlast : last = first :=
        menu_row_of_id menuItems hmenu last first (hrest last (by simp)).1 hfirst
          (hrest last (by simp)).2
      have h := CustomerDashboard.customer_adds_general cart first rest0 last hcart
        (fun item hi => hids item (by simp [hi])) (hids last (by simp))
      rw [List.concat_eq_append, h, hlast]
      simp only [List.length_append, List.length_cons, List.length_nil, List.append_cancel_left_eq,
        List.cons.injEq, and_true, CustomerDashboard.CartLine.mk.injEq, true_and]
  · rw [DashboardPage.page_run_eq]
    exact hstaff
  · intro l hl hid
    rcases List.mem_append.1 hl with hl | hl
    · exact absurd hid (hcart l hl)
    · rw [List.mem_singleton.1 hl]
      exact ⟨rfl, rfl⟩

/-- On the menu of latte and muffin, two clicks on "Add" for the latte from the
empty cart leave one latte line with quantity 2: subtotal 11 in
CustomerDashboard, price 5.50 in StaffDashboard. -/
theorem C3_repeated_add_witness :
    ([latte, muffin].map (fun item => item.id)).Nodup
    ∧ CustomerDashboard.run [] [.add latte, .add latte]
        = [⟨1, "Caramel Latte", "☕", 11 / 2, 2, 11⟩]
    ∧ StaffDashboard.run [] [.add latte, .add latte]
        = [{ toMenuItem := latte, quantity := 2 }] := by
  have h := C3_repeated_add [latte, muffin] (by decide) latte [latte] (by simp)
    (by simp) [] [] (by simp) (by simp)
  refine ⟨by decide, ?_, ?_⟩
  · have h1 := h.1
    simp only [List.map_cons, List.map_nil, List.nil_append, List.length_cons,
      List.length_nil] at h1
    rw [h1]
    simp [latte]
    norm_num
  · have h2 := h.2.1
    simp only [List.map_cons, List.map_nil, List.nil_append, List.length_cons,
      List.length_nil] at h2
    rw [h2]
    simp

/-! ## C4 -/

theorem map_key_of_preserve {α : Type} (key : α → Nat) (g : α → α) (l : List α)
    (h : ∀ x, key (g x) = key x) : (l.map g).map key = l.map key := by
  rw [List.map_map]
  apply List.map_congr_left
  intro x _
  exact h x

theorem nodup_filter_key {α : Type} (key : α → Nat) (p : α → Bool) (l : List α)
    (h : (l.map key).Nodup) : ((l.filter p).map key).Nodup :=
  h.sublist ((List.filter_sublist l).map key)

theorem nodup_append_absent {α : Type} (key : α → Nat) (l : List α) (x : α)
    (h : (l.map key).Nodup) (hx : ∀ y ∈ l, key y ≠ key x) : ((l ++ [x]).map key).Nodup := by
  rw [List.map_append, List.map_cons, List.map_nil]
  apply List.Nodup.append h (List.nodup_singleton _)
  intro k hk hk1
  obtain ⟨y, hy, rfl⟩ := List.mem_map.1 hk
  exact hx y hy (by simpa using hk1)

theorem absent_of_find_none {α : Type} (key : α → Nat) (l : List α) (i : Nat)
    (h : l.find? (fun x => key x == i) = none) : ∀ y ∈ l, key y ≠ i := by
  rw [List.find?_eq_none] at h
  intro y hy
  simpa using h y hy

namespace CustomerDashboard

theorem customer_add_nodup (cart : List CartLine) (item : MenuItem)
    (h : (cart.map (fun l => l.id)).Nodup) :
    ((handleAddToCart cart item).map (fun l => l.id)).Nodup := by
  unfold handleAddToCart
  cases hf : cart.find? (fun cartItem => cartItem.id == item.id) with
  | some y =>
    simp only []
    rw [map_key_of_preserve (fun l : CartLine => l.id)]
    · exact h
    · intro x; split <;> rfl
  | none =>
    simp only []
    exact nodup_append_absent (fun l : CartLine => l.id) cart _ h
      (absent_of_find_none (fun l : CartLine => l.id) cart item.id hf)

theorem customer_update_nodup (cart : List CartLine) (itemId : Nat) (q : Int)
    (h : (cart.map (fun l => l.id)).Nodup) :
    ((handleUpdateQuantity cart itemId q).map (fun l => l.id)).Nodup := by
  unfold handleUpdateQuantity
  split
  · exact nodup_filter_key _ _ _ h
  · rw [map_key_of_preserve (fun l : CartLine => l.id)]
    · exact h
    · intro x; split <;> rfl

theorem customer_remove_nodup (cart : List CartLine) (itemId : Nat)
    (h : (cart.map (fun l => l.id)).Nodup) :
    ((handleRemoveFromCart cart itemId).map (fun l => l.id)).Nodup :=
  nodup_filter_key _ _ _ h

theorem customer_run_nodup (actions : List CartAction) :
    ∀ cart : List CartLine, (cart.map (fun l => l.id)).Nodup →
      ((run cart actions).map (fun l => l.id)).Nodup := by
  induction actions with
  | nil => intro cart h; exact h
  | cons a as ih =>
    intro cart h
    simp only [run, List.foldl_cons]
    apply ih
    cases a with
    | add item => exact customer_add_nodup cart item h
    | update i q => exact customer_update_nodup cart i q h
    | remove i => exact customer_remove_nodup cart i h

theorem customer_add_present_length (cart : List CartLine) (item : MenuItem)
    (h : ∃ l ∈ cart, l.id = item.id) : (handleAddToCart cart item).length = cart.length := by
  obtain ⟨y, hy⟩ := find_some_of_present (fun l : CartLine => l.id) cart item.id h
  unfold handleAddToCart
  rw [hy]
  simp

end CustomerDashboard

namespace StaffDashboard

theorem staff_add_nodup (cart : List CartItem) (item : MenuItem)
    (h : (cart.map (fun l => l.id)).Nodup) :
    ((handleAddToCart cart item).map (fun l => l.id)).Nodup := by
  unfold handleAddToCart
  cases hf : cart.find? (fun cartItem => cartItem.id == item.id) with
  | some y =>
    simp only []
    rw [map_key_of_preserve (fun l : CartItem => l.id)]
    · exact h
    · intro x; split <;> rfl
  | none =>
    simp only []
    exact nodup_append_absent (fun l : CartItem => l.id) cart _ h
      (absent_of_find_none (fun l : CartItem => l.id) cart item.id hf)

theorem staff_update_nodup (cart : List CartItem) (itemId : Nat) (q : Int)
    (h : (cart.map (fun l => l.id)).Nodup) :
    ((handleUpdateQuantity cart itemId q).map (fun l => l.id)).Nodup := by
  unfold handleUpdateQuantity
  split
  · exact nodup_filter_key _ _ _ h
  · rw [map_key_of_preserve (fun l : CartItem => l.id)]
    · exact h
    · intro x; split <;> rfl

theorem staff_remove_nodup (cart : List CartItem) (itemId : Nat)
    (h : (cart.map (fun l => l.id)).Nodup) :
    ((handleRemoveItem cart itemId).map (fun l => l.id)).Nodup :=
  nodup_filter_key _ _ _ h

theorem staff_run_nodup (actions : List CartAction) :
    ∀ cart : List CartItem, (cart.map (fun l => l.id)).Nodup →
      ((run cart actions).map (fun l => l.id)).Nodup := by
  induction actions with
  | nil => intro cart h; exact h
  | cons a as ih =>
    intro cart h
    simp only [run, List.foldl_cons]
    apply ih
    cases a with
    | add item => exact staff_add_nodup cart item h
    | update i q => exact staff_update_nodup cart i q h
    | remove i => exact staff_remove_nodup cart i h

theorem staff_add_present_length (cart : List CartItem) (item : MenuItem)
    (h : ∃ l ∈ cart, l.id = item.id) : (handleAddToCart cart item).length = cart.length := by
  obtain ⟨y, hy⟩ := find_some_of_present (fun l : CartItem => l.id) cart item.id h
  unfold handleAddToCart
  rw [hy]
  simp

end StaffDashboard

/-- C4. In each dashboard, `handleAddToCart`, `handleUpdateQuantity` and the remove
handler map a cart whose line ids are pairwise distinct to a cart whose line ids
are pairwise distinct; every cart reached from the empty cart by these handlers
has pairwise distinct line ids; and adding an item whose id is already in the
cart leaves the number of lines unchanged. -/
theorem C4_one_line_per_item :
    ((∀ (cart : List CustomerDashboard.CartLine) (item : MenuItem) (itemId : Nat) (q : Int),
        (cart.map (fun l => l.id)).Nodup →
        ((CustomerDashboard.handleAddToCart cart item).map (fun l => l.id)).Nodup
        ∧ ((CustomerDashboard.handleUpdateQuantity cart itemId q).map (fun l => l.id)).Nodup
        ∧ ((CustomerDashboard.handleRemoveFromCart cart itemId).map (fun l => l.id)).Nodup)
      ∧ (∀ actions, ((CustomerDashboard.run [] actions).map (fun l => l.id)).Nodup)
      ∧ (∀ (cart : List CustomerDashboard.CartLine) (item : MenuItem),
        (∃ l ∈ cart, l.id = item.id) →
        (CustomerDashboard.handleAddToCart cart item).length = cart.length))
    ∧ ((∀ (cart : List CartItem) (item : MenuItem) (itemId : Nat) (q : Int),
        (cart.map (fun l => l.id)).Nodup →
        ((StaffDashboard.handleAddToCart cart item).map (fun l => l.id)).Nodup
        ∧ ((StaffDashboard.handleUpdateQuantity cart itemId q).map (fun l => l.id)).Nodup
        ∧ ((StaffDashboard.handleRemoveItem cart itemId).map (fun l => l.id)).Nodup)
      ∧ (∀ actions, ((StaffDashboard.run [] actions).map (fun l => l.id)).Nodup)
      ∧ (∀ (cart : List CartItem) (item : MenuItem), (∃ l ∈ cart, l.id = item.id) →
        (StaffDashboard.handleAddToCart cart item).length = cart.length))
    ∧ ((∀ (cart : List CartItem) (item : MenuItem) (itemId : Nat) (q : Int),
        (cart.map (fun l => l.id)).Nodup →
        ((DashboardPage.handleAddToCart cart item).map (fun l => l.id)).Nodup
        ∧ ((DashboardPage.handleUpdateQuantity cart itemId q).map (fun l => l.id)).Nodup
        ∧ ((DashboardPage.handleRemoveItem cart itemId).map (fun l => l.id)).Nodup)
      ∧ (∀ actions, ((DashboardPage.run [] actions).map (fun l => l.id)).Nodup)
      ∧ (∀ (cart : List CartItem) (item : MenuItem), (∃ l ∈ cart, l.id = item.id) →
        (DashboardPage.handleAddToCart cart item).length = cart.length)) := by
  refine ⟨⟨fun cart item i q h => ⟨CustomerDashboard.customer_add_nodup cart item h,
        CustomerDashboard.customer_update_nodup cart i q h,
        CustomerDashboard.customer_remove_nodup cart i h⟩,
      fun actions => CustomerDashboard.customer_run_nodup actions [] (by simp),
      CustomerDashboard.customer_add_present_length⟩,
    ⟨fun cart item i q h => ⟨StaffDashboard.staff_add_nodup cart item h,
        StaffDashboard.staff_update_nodup cart i q h,
        StaffDashboard.staff_remove_nodup cart i h⟩,
      fun actions => StaffDashboard.staff_run_nodup actions [] (by simp),
      StaffDashboard.staff_add_present_length⟩,
    ⟨fun cart item i q h => ⟨StaffDashboard.staff_add_nodup cart item h,
        StaffDashboard.staff_update_nodup cart i q h,
        StaffDashboard.staff_remove_nodup cart i h⟩,
      fun actions => by
        rw [DashboardPage.page_run_eq]
        exact StaffDashboard.staff_run_nodup actions [] (by simp),
      StaffDashboard.staff_add_present_length⟩⟩

/-- The CustomerDashboard cart of two lattes and one muffin has distinct ids, and
so has the cart after adding the latte again, which still has two lines. -/
theorem C4_one_line_per_item_witness :
    (CustomerDashboard.exampleState.cart.map (fun l => l.id)).Nodup
    ∧ ((CustomerDashboard.handleAddToCart CustomerDashboard.exampleState.cart latte).map
        (fun l => l.id)).Nodup
    ∧ (CustomerDashboard.handleAddToCart CustomerDashboard.exampleState.cart latte).length
        = CustomerDashboard.exampleState.cart.length :=
  ⟨by simp [CustomerDashboard.exampleState],
    (C4_one_line_per_item.1.1 CustomerDashboard.exampleState.cart latte 1 0
      (by simp [CustomerDashboard.exampleState])).1,
    C4_one_line_per_item.1.2.2 CustomerDashboard.exampleState.cart latte
      ⟨⟨1, "Caramel Latte", "☕", 11 / 2, 2, 11⟩, by simp [CustomerDashboard.exampleState], rfl⟩⟩

/-! ## C5 -/

/-- C5. On an empty cart each completion handler returns the backend it was
given, with no call added to the log and no table changed, and leaves the cart
empty: CustomerDashboard and DashboardPage show their empty-cart alert,
StaffDashboard shows nothing. A second call on the resulting state, whatever
the clock and the faults, again returns the same backend and an empty cart. The
cart a successful completion leaves is empty, so completing again right after
it issues no call. -/
theorem C5_empty_cart_no_calls :
    (∀ (env env2 : Env) (f f2 : Faults) (b : Backend) (st : CustomerDashboard.State),
      st.cart = [] →
      CustomerDashboard.handleCompleteOrder env f b st
        = (b, { st with alerts := st.alerts ++ [CustomerDashboard.emptyCartAlert] })
      ∧ (CustomerDashboard.handleCompleteOrder env2 f2
          (CustomerDashboard.handleCompleteOrder env f b st).1
          (CustomerDashboard.handleCompleteOrder env f b st).2)
        = (b, { st with alerts := st.alerts ++
            [CustomerDashboard.emptyCartAlert, CustomerDashboard.emptyCartAlert] }))
    ∧ (∀ (env env2 : Env) (f f2 : Faults) (b : Backend) (st : StaffDashboard.State),
      st.cartItems = [] →
      StaffDashboard.handleCompleteOrder env f b st = (b, st)
      ∧ (StaffDashboard.handleCompleteOrder env2 f2
          (StaffDashboard.handleCompleteOrder env f b st).1
          (StaffDashboard.handleCompleteOrder env f b st).2) = (b, st))
    ∧ (∀ (env env2 : Env) (f f2 : Faults) (b : Backend) (st : DashboardPage.State),
      st.cartItems = [] →
      DashboardPage.handleCompleteOrder env f b st
        = (b, { st with alerts := st.alerts ++ [DashboardPage.emptyCartAlert] })
      ∧ (DashboardPage.handleCompleteOrder env2 f2
          (DashboardPage.handleCompleteOrder env f b st).1
          (DashboardPage.handleCompleteOrder env f b st).2)
        = (b, { st with alerts := st.alerts ++
            [DashboardPage.emptyCartAlert, DashboardPage.emptyCartAlert] }))
    ∧ (∀ (env env2 : Env) (f f2 : Faults) (b : Backend) (st : CustomerDashboard.State),
      st.cart ≠ [] → f.transactionsInsert = none → f.transactionItemsInsert = none →
      f.dailyStatisticsSelect = none →
      (CustomerDashboard.handleCompleteOrder env f b st).2.cart = []
      ∧ (CustomerDashboard.handleCompleteOrder env2 f2
          (CustomerDashboard.handleCompleteOrder env f b st).1
          (CustomerDashboard.handleCompleteOrder env f b st).2).1
        = (CustomerDashboard.handleCompleteOrder env f b st).1) := by
  refine ⟨fun env env2 f f2 b st h => ?_, fun env env2 f f2 b st h => ?_,
    fun env env2 f f2 b st h => ?_, fun env env2 f f2 b st hne h1 h2 h3 => ?_⟩
  · rw [CustomerDashboard.customer_complete_empty env f b st h]
    refine ⟨rfl, ?_⟩
    exact (CustomerDashboard.customer_complete_empty env2 f2 b
      { st with alerts := st.alerts ++ [CustomerDashboard.emptyCartAlert] } h).trans (by simp)
  · rw [StaffDashboard.staff_complete_empty env f b st h]
    exact ⟨rfl, StaffDashboard.staff_complete_empty env2 f2 b st h⟩
  · rw [DashboardPage.page_complete_empty env f b st h]
    refine ⟨rfl, ?_⟩
    exact (DashboardPage.page_complete_empty env2 f2 b
      { st with alerts := st.alerts ++ [DashboardPage.emptyCartAlert] } h).trans (by simp)
  · have hs := (CustomerDashboard.customer_complete_to_the_end env f b st hne h1 h2
      (fun e he => by rw [h3] at he; cases he)).2.2.2
    have hc : (CustomerDashboard.handleCompleteOrder env f b st).2.cart = [] := by
      rw [hs]; rfl
    exact ⟨hc, by rw [CustomerDashboard.customer_complete_empty env2 f2 _ _ hc]⟩

/-- On the empty DashboardPage cart the handler
returns the empty backend unchanged, twice in a row. -/
theorem C5_empty_cart_no_calls_witness :
    DashboardPage.handleCompleteOrder exampleEnv Faults.none emptyBackend
        { DashboardPage.exampleState with cartItems := [] }
      = (emptyBackend, { DashboardPage.exampleState with
          cartItems := [], alerts := [DashboardPage.emptyCartAlert] })
    ∧ (DashboardPage.handleCompleteOrder exampleEnv Faults.none
        (DashboardPage.handleCompleteOrder exampleEnv Faults.none emptyBackend
          { DashboardPage.exampleState with cartItems := [] }).1
        (DashboardPage.handleCompleteOrder exampleEnv Faults.none emptyBackend
          { DashboardPage.exampleState with cartItems := [] }).2)
      = (emptyBackend, { DashboardPage.exampleState with
          cartItems := [],
          alerts := [DashboardPage.emptyCartAlert, DashboardPage.emptyCartAlert] }) :=
  C5_empty_cart_no_calls.2.2.1 exampleEnv exampleEnv Faults.none Faults.none emptyBackend
    { DashboardPage.exampleState with cartItems := [] } rfl

/-! ## C6 -/

/-- The conclusions about the order of steps, for a list of steps. -/
theorem steps_ordered_of_shape (f : Faults) (ks : List CallKind)
    (h : ks = []
      ∨ (f.transactionsInsert ≠ none ∧ ks = [.orderInsert])
      ∨ (f.transactionsInsert = none ∧ f.transactionItemsInsert ≠ none
          ∧ ks = [.orderInsert, .orderLinesInsert])
      ∨ (f.transactionsInsert = none ∧ f.transactionItemsInsert = none
          ∧ ks = [.orderInsert, .orderLinesInsert, .statRead])
      ∨ (f.transactionsInsert = none ∧ f.transactionItemsInsert = none ∧ ks = stepOrder)) :
    ks <+: stepOrder
    ∧ (f.transactionsInsert ≠ none → CallKind.orderLinesInsert ∉ ks ∧ CallKind.statWrite ∉ ks)
    ∧ (f.transactionItemsInsert ≠ none → CallKind.statWrite ∉ ks) := by
  rcases h with rfl | ⟨h1, rfl⟩ | ⟨h1, h2, rfl⟩ | ⟨h1, h2, rfl⟩ | ⟨h1, h2, rfl⟩
  · exact ⟨by decide, fun _ => ⟨by decide, by decide⟩, fun _ => by decide⟩
  · exact ⟨by decide, fun _ => ⟨by decide, by decide⟩, fun _ => by decide⟩
  · exact ⟨by decide, fun h => absurd h1 h, fun _ => by decide⟩
  · exact ⟨by decide, fun h => absurd h1 h, fun h => absurd h2 h⟩
  · exact ⟨List.prefix_refl _, fun h => absurd h1 h, fun h => absurd h2 h⟩

theorem CustomerDashboard.customer_steps (env : Env) (f : Faults) (b : Backend)
    (st : CustomerDashboard.State) :
    newSteps b (handleCompleteOrder env f b st).1 <+: stepOrder
    ∧ (f.transactionsInsert ≠ none →
        CallKind.orderLinesInsert ∉ newSteps b (handleCompleteOrder env f b st).1
        ∧ CallKind.statWrite ∉ newSteps b (handleCompleteOrder env f b st).1)
    ∧ (f.transactionItemsInsert ≠ none →
        CallKind.statWrite ∉ newSteps b (handleCompleteOrder env f b st).1) := by
  apply steps_ordered_of_shape
  by_cases hne : st.cart = []
  · left
    rw [customer_complete_empty env f b st hne]
    simp [newSteps, newCalls]
  · right
    rcases customer_calls_shape env f b st hne with ⟨h1, hc⟩ | ⟨h1, h2, hc⟩ | ⟨h1, h2, -, hc⟩ |
      ⟨h1, h2, c, hk, hc⟩
    · exact Or.inl ⟨h1, by simp [newSteps, hc, Call.kind]⟩
    · exact Or.inr (Or.inl ⟨h1, h2, by simp [newSteps, hc, Call.kind]⟩)
    · exact Or.inr (Or.inr (Or.inl ⟨h1, h2, by simp [newSteps, hc, Call.kind]⟩))
    · exact Or.inr (Or.inr (Or.inr ⟨h1, h2, by
        rw [newSteps, hc]
        simp only [List.map_cons, List.map_nil, hk]
        rfl⟩))

theorem StaffDashboard.staff_steps (env : Env) (f : Faults) (b : Backend)
    (st : StaffDashboard.State) :
    newSteps b (handleCompleteOrder env f b st).1 <+: stepOrder
    ∧ (f.transactionsInsert ≠ none →
        CallKind.orderLinesInsert ∉ newSteps b (handleCompleteOrder env f b st).1
        ∧ CallKind.statWrite ∉ newSteps b (handleCompleteOrder env f b st).1)
    ∧ (f.transactionItemsInsert ≠ none →
        CallKind.statWrite ∉ newSteps b (handleCompleteOrder env f b st).1) := by
  apply steps_ordered_of_shape
  by_cases hne : st.cartItems = []
  · left
    rw [staff_complete_empty env f b st hne]
    simp [newSteps, newCalls]
  · right
    rcases staff_calls_shape env f b st hne with ⟨h1, hc⟩ | ⟨h1, h2, hc⟩ | ⟨h1, h2, c, hk, hc⟩
    · exact Or.inl ⟨h1, by simp [newSteps, hc, Call.kind]⟩
    · exact Or.inr (Or.inl ⟨h1, h2, by simp [newSteps, hc, Call.kind]⟩)
    · exact Or.inr (Or.inr (Or.inr ⟨h1, h2, by
        rw [newSteps, hc]
        simp only [List.map_cons, List.map_nil, hk]
        rfl⟩))

theorem DashboardPage.page_steps (env : Env) (f : Faults) (b : Backend)
    (st : DashboardPage.State) :
    newSteps b (handleCompleteOrder env f b st).1 <+: stepOrder
    ∧ (f.transactionsInsert ≠ none →
        CallKind.orderLinesInsert ∉ newSteps b (handleCompleteOrder env f b st).1
        ∧ CallKind.statWrite ∉ newSteps b (handleCompleteOrder env f b st).1)
    ∧ (f.transactionItemsInsert ≠ none →
        CallKind.statWrite ∉ newSteps b (handleCompleteOrder env f b st).1) := by
  apply steps_ordered_of_shape
  by_cases hne : st.cartItems = []
  · left
    rw [page_complete_empty env f b st hne]
    simp [newSteps, newCalls]
  · by_cases hids : st.cartItems.filter (fun item => item.id != 0) = []
    · left
      rw [page_complete_no_ids env f b st hne hids]
      simp [newSteps, newCalls]
    · right
      rcases page_calls_shape env f b st hids with ⟨h1, hc⟩ | ⟨h1, h2, hc⟩ | ⟨h1, h2, c, hk, hc⟩
      · exact Or.inl ⟨h1, by simp [newSteps, hc, Call.kind]⟩
      · exact Or.inr (Or.inl ⟨h1, h2, by simp [newSteps, hc, Call.kind]⟩)
      · exact Or.inr (Or.inr (Or.inr ⟨h1, h2, by
        rw [newSteps, hc]
        simp only [List.map_cons, List.map_nil, hk]
        rfl⟩))

/-- C6. In every completion flow the steps of the calls one handler run issues
form an initial segment of: Order insert, OrderLines insert, DailyStatistic
read, DailyStatistic write. If the Order insert fails, no OrderLines insert and
no DailyStatistic write is issued; if the OrderLines insert fails, no
DailyStatistic write is issued. -/
theorem C6_steps_in_order :
    (∀ (env : Env) (f : Faults) (b : Backend) (st : CustomerDashboard.State),
      newSteps b (CustomerDashboard.handleCompleteOrder env f b st).1 <+: stepOrder
      ∧ (f.transactionsInsert ≠ none →
          CallKind.orderLinesInsert ∉ newSteps b (CustomerDashboard.handleCompleteOrder env f b st).1
          ∧ CallKind.statWrite ∉ newSteps b (CustomerDashboard.handleCompleteOrder env f b st).1)
      ∧ (f.transactionItemsInsert ≠ none →
          CallKind.statWrite ∉ newSteps b (CustomerDashboard.handleCompleteOrder env f b st).1))
    ∧ (∀ (env : Env) (f : Faults) (b : Backend) (st : StaffDashboard.State),
      newSteps b (StaffDashboard.handleCompleteOrder env f b st).1 <+: stepOrder
      ∧ (f.transactionsInsert ≠ none →
          CallKind.orderLinesInsert ∉ newSteps b (StaffDashboard.handleCompleteOrder env f b st).1
          ∧ CallKind.statWrite ∉ newSteps b (StaffDashboard.handleCompleteOrder env f b st).1)
      ∧ (f.transactionItemsInsert ≠ none →
          CallKind.statWrite ∉ newSteps b (StaffDashboard.handleCompleteOrder env f b st).1))
    ∧ (∀ (env : Env) (f : Faults) (b : Backend) (st : DashboardPage.State),
      newSteps b (DashboardPage.handleCompleteOrder env f b st).1 <+: stepOrder
      ∧ (f.transactionsInsert ≠ none →
          CallKind.orderLinesInsert ∉ newSteps b (DashboardPage.handleCompleteOrder env f b st).1
          ∧ CallKind.statWrite ∉ newSteps b (DashboardPage.handleCompleteOrder env f b st).1)
      ∧ (f.transactionItemsInsert ≠ none →
          CallKind.statWrite ∉ newSteps b (DashboardPage.handleCompleteOrder env f b st).1)) :=
  ⟨CustomerDashboard.customer_steps, StaffDashboard.staff_steps, DashboardPage.page_steps⟩

/-- With the OrderLines insert failing on the StaffDashboard example cart, the
steps issued are an initial segment of the order and contain no DailyStatistic
write. -/
theorem C6_steps_in_order_witness :
    newSteps emptyBackend (StaffDashboard.handleCompleteOrder exampleEnv
        { Faults.none with transactionItemsInsert := some ⟨"insert failed", some "23503"⟩ }
        emptyBackend StaffDashboard.exampleState).1 <+: stepOrder
    ∧ CallKind.statWrite ∉ newSteps emptyBackend (StaffDashboard.handleCompleteOrder exampleEnv
        { Faults.none with transactionItemsInsert := some ⟨"insert failed", some "23503"⟩ }
        emptyBackend StaffDashboard.exampleState).1 :=
  ⟨(C6_steps_in_order.2.1 exampleEnv
      { Faults.none with transactionItemsInsert := some ⟨"insert failed", some "23503"⟩ }
      emptyBackend StaffDashboard.exampleState).1,
    (C6_steps_in_order.2.1 exampleEnv
      { Faults.none with transactionItemsInsert := some ⟨"insert failed", some "23503"⟩ }
      emptyBackend StaffDashboard.exampleState).2.2 (by simp [Faults.none])⟩

/-! ## C7 -/

theorem CustomerDashboard.customer_cart_kept (env : Env) (f : Faults) (b : Backend)
    (st : CustomerDashboard.State) (hne : st.cart ≠ [])
    (h : f.transactionsInsert ≠ none ∨ f.transactionItemsInsert ≠ none
      ∨ ∃ e, f.dailyStatisticsSelect = some e ∧ e.code ≠ some "PGRST116") :
    (handleCompleteOrder env f b st).2.cart = st.cart := by
  cases h1 : f.transactionsInsert with
  | some e => rw [customer_complete_orderInsert_fails env f b st hne e h1]; rfl
  | none =>
    cases h2 : f.transactionItemsInsert with
    | some e => rw [customer_complete_orderLinesInsert_fails env f b st hne e h1 h2]; rfl
    | none =>
      rcases h with h | h | ⟨e, he, hcode⟩
      · exact absurd h1 h
      · exact absurd h2 h
      · rw [customer_complete_statRead_fails env f b st hne e h1 h2 he hcode]; rfl

theorem StaffDashboard.staff_cart_kept (env : Env) (f : Faults) (b : Backend)
    (st : StaffDashboard.State) (hne : st.cartItems ≠ [])
    (h : f.transactionsInsert ≠ none ∨ f.transactionItemsInsert ≠ none) :
    (handleCompleteOrder env f b st).2.cartItems = st.cartItems := by
  cases h1 : f.transactionsInsert with
  | some e => rw [staff_complete_orderInsert_fails env f b st hne e h1]; rfl
  | none =>
    cases h2 : f.transactionItemsInsert with
    | some e => rw [staff_complete_orderLinesInsert_fails env f b st hne e h1 h2]; rfl
    | none =>
      rcases h with h | h
      · exact absurd h1 h
      · exact absurd h2 h

theorem DashboardPage.page_cart_kept (env : Env) (f : Faults) (b : Backend)
    (st : DashboardPage.State) (hne : st.cartItems ≠ [])
    (h : f.transactionsInsert ≠ none ∨ f.transactionItemsInsert ≠ none) :
    (handleCompleteOrder env f b st).2.cartItems = st.cartItems := by
  by_cases hids : st.cartItems.filter (fun item => item.id != 0) = []
  · rw [page_complete_no_ids env f b st hne hids]; rfl
  · cases h1 : f.transactionsInsert with
    | some e => rw [page_complete_orderInsert_fails env f b st hids e h1]; rfl
    | none =>
      cases h2 : f.transactionItemsInsert with
      | some e => rw [page_complete_orderLinesInsert_fails env f b st hids e h1 h2]; rfl
      | none =>
        rcases h with h | h
        · exact absurd h1 h
        · exact absurd h2 h

/-- C7 (amended). For every non-empty cart and every completion flow, if the
Order insert or the OrderLines insert fails, the cart after the handler returns
equals the cart before it was called; in CustomerDashboard the same holds when
the DailyStatistic read fails with a code other than PGRST116. -/
theorem C7_cart_kept_when_insert_fails :
    (∀ (env : Env) (f : Faults) (b : Backend) (st : CustomerDashboard.State), st.cart ≠ [] →
      (f.transactionsInsert ≠ none ∨ f.transactionItemsInsert ≠ none
        ∨ ∃ e, f.dailyStatisticsSelect = some e ∧ e.code ≠ some "PGRST116") →
      (CustomerDashboard.handleCompleteOrder env f b st).2.cart = st.cart)
    ∧ (∀ (env : Env) (f : Faults) (b : Backend) (st : StaffDashboard.State), st.cartItems ≠ [] →
      (f.transactionsInsert ≠ none ∨ f.transactionItemsInsert ≠ none) →
      (StaffDashboard.handleCompleteOrder env f b st).2.cartItems = st.cartItems)
    ∧ (∀ (env : Env) (f : Faults) (b : Backend) (st : DashboardPage.State), st.cartItems ≠ [] →
      (f.transactionsInsert ≠ none ∨ f.transactionItemsInsert ≠ none) →
      (DashboardPage.handleCompleteOrder env f b st).2.cartItems = st.cartItems) :=
  ⟨CustomerDashboard.customer_cart_kept, StaffDashboard.staff_cart_kept,
    DashboardPage.page_cart_kept⟩

/-- With the OrderLines insert failing, the DashboardPage example cart is kept. -/
theorem C7_cart_kept_when_insert_fails_witness :
    (DashboardPage.handleCompleteOrder exampleEnv orderLinesInsertFails emptyBackend
      DashboardPage.exampleState).2.cartItems = DashboardPage.exampleState.cartItems :=
  C7_cart_kept_when_insert_fails.2.2 exampleEnv orderLinesInsertFails emptyBackend
    DashboardPage.exampleState (by simp [DashboardPage.exampleState])
    (Or.inr (by simp [orderLinesInsertFails, Faults.none]))

/-- C7 as stated fails: when only the DailyStatistic write fails, each handler
clears the non-empty example cart, and `daily_statistics` is still empty. -/
theorem C7_counterexample :
    CustomerDashboard.exampleState.cart ≠ []
    ∧ (CustomerDashboard.handleCompleteOrder exampleEnv statWriteFails emptyBackend
        CustomerDashboard.exampleState).2.cart = []
    ∧ (CustomerDashboard.handleCompleteOrder exampleEnv statWriteFails emptyBackend
        CustomerDashboard.exampleState).1.daily_statistics = []
    ∧ (StaffDashboard.handleCompleteOrder exampleEnv statWriteFails emptyBackend
        StaffDashboard.exampleState).2.cartItems = []
    ∧ (StaffDashboard.handleCompleteOrder exampleEnv statWriteFails emptyBackend
        StaffDashboard.exampleState).1.daily_statistics = []
    ∧ (DashboardPage.handleCompleteOrder exampleEnv statWriteFails emptyBackend
        DashboardPage.exampleState).2.cartItems = []
    ∧ (DashboardPage.handleCompleteOrder exampleEnv statWriteFails emptyBackend
        DashboardPage.exampleState).1.daily_statistics = [] := by
  refine ⟨by simp [CustomerDashboard.exampleState], rfl, rfl, rfl, rfl, rfl, rfl⟩

/-! ## C8 -/

theorem CustomerDashboard.customer_failure_ne_success (total : ℚ) :
    failureAlert ≠ successAlert total := by
  intro h
  have h2 := congrArg String.data h
  simp [failureAlert, successAlert, String.data_append] at h2

theorem StaffDashboard.staff_failure_ne_success (error : Err) (total : ℚ) :
    failureAlert error ≠ successAlert total := by
  intro h
  have h2 := congrArg String.data h
  simp [failureAlert, successAlert, String.data_append] at h2

theorem DashboardPage.page_failure_ne_success : failureAlert ≠ successAlert := by decide

theorem CustomerDashboard.customer_aborts (env : Env) (f : Faults) (b : Backend)
    (st : CustomerDashboard.State) (hne : st.cart ≠ []) :
    (∀ e, f.transactionsInsert = some e →
      newSteps b (handleCompleteOrder env f b st).1 = [.orderInsert]
      ∧ (handleCompleteOrder env f b st).2.alerts = st.alerts ++ [failureAlert])
    ∧ (∀ e, f.transactionsInsert = none → f.transactionItemsInsert = some e →
      newSteps b (handleCompleteOrder env f b st).1 = [.orderInsert, .orderLinesInsert]
      ∧ (handleCompleteOrder env f b st).2.alerts = st.alerts ++ [failureAlert])
    ∧ (∀ e, f.transactionsInsert = none → f.transactionItemsInsert = none →
      f.dailyStatisticsSelect = some e → e.code ≠ some "PGRST116" →
      newSteps b (handleCompleteOrder env f b st).1 = [.orderInsert, .orderLinesInsert, .statRead]
      ∧ (handleCompleteOrder env f b st).2.alerts = st.alerts ++ [failureAlert]) := by
  refine ⟨fun e h1 => ?_, fun e h1 h2 => ?_, fun e h1 h2 h3 hcode => ?_⟩
  · rw [customer_complete_orderInsert_fails env f b st hne e h1]
    exact ⟨by simp [newSteps, newCalls, Backend.record, Call.kind], rfl⟩
  · rw [customer_complete_orderLinesInsert_fails env f b st hne e h1 h2]
    exact ⟨by simp [newSteps, newCalls, Call.kind], rfl⟩
  · rw [customer_complete_statRead_fails env f b st hne e h1 h2 h3 hcode]
    exact ⟨by simp [newSteps, newCalls, Call.kind], rfl⟩

theorem StaffDashboard.staff_aborts (env : Env) (f : Faults) (b : Backend)
    (st : StaffDashboard.State) (hne : st.cartItems ≠ []) :
    (∀ e, f.transactionsInsert = some e →
      newSteps b (handleCompleteOrder env f b st).1 = [.orderInsert]
      ∧ (handleCompleteOrder env f b st).2.alerts = st.alerts ++ [failureAlert e])
    ∧ (∀ e, f.transactionsInsert = none → f.transactionItemsInsert = some e →
      newSteps b (handleCompleteOrder env f b st).1 = [.orderInsert, .orderLinesInsert]
      ∧ (handleCompleteOrder env f b st).2.alerts = st.alerts ++ [failureAlert e]) := by
  refine ⟨fun e h1 => ?_, fun e h1 h2 => ?_⟩
  · rw [staff_complete_orderInsert_fails env f b st hne e h1]
    exact ⟨by simp [newSteps, newCalls, Backend.record, Call.kind], rfl⟩
  · rw [staff_complete_orderLinesInsert_fails env f b st hne e h1 h2]
    exact ⟨by simp [newSteps, newCalls, Call.kind], rfl⟩

theorem DashboardPage.page_aborts (env : Env) (f : Faults) (b : Backend)
    (st : DashboardPage.State) (hids : st.cartItems.filter (fun item => item.id != 0) ≠ []) :
    (∀ e, f.transactionsInsert = some e →
      newSteps b (handleCompleteOrder env f b st).1 = [.orderInsert]
      ∧ (handleCompleteOrder env f b st).2.alerts = st.alerts ++ [failureAlert])
    ∧ (∀ e, f.transactionsInsert = none → f.transactionItemsInsert = some e →
      newSteps b (handleCompleteOrder env f b st).1 = [.orderInsert, .orderLinesInsert]
      ∧ (handleCompleteOrder env f b st).2.alerts = st.alerts ++ [failureAlert]) := by
  refine ⟨fun e h1 => ?_, fun e h1 h2 => ?_⟩
  · rw [page_complete_orderInsert_fails env f b st hids e h1]
    exact ⟨by simp [newSteps, newCalls, Backend.record, Call.kind], rfl⟩
  · rw [page_complete_orderLinesInsert_fails env f b st hids e h1 h2]
    exact ⟨by simp [newSteps, newCalls, Call.kind], rfl⟩

/-- C8 (amended). In every completion flow, if the Order insert fails, or it
succeeds and the OrderLines insert fails, no later call is issued and the one
alert the handler shows is its failure alert, which differs from every success
alert of that flow; in CustomerDashboard the same holds when the DailyStatistic
read fails with a code other than PGRST116. (For DashboardPage the cart has at
least one line with a non-zero id, so that the Order insert is issued.) -/
theorem C8_insert_failure_is_reported :
    ((∀ (env : Env) (f : Faults) (b : Backend) (st : CustomerDashboard.State), st.cart ≠ [] →
        (∀ e, f.transactionsInsert = some e →
          newSteps b (CustomerDashboard.handleCompleteOrder env f b st).1 = [.orderInsert]
          ∧ (CustomerDashboard.handleCompleteOrder env f b st).2.alerts
            = st.alerts ++ [CustomerDashboard.failureAlert])
        ∧ (∀ e, f.transactionsInsert = none → f.transactionItemsInsert = some e →
          newSteps b (CustomerDashboard.handleCompleteOrder env f b st).1
            = [.orderInsert, .orderLinesInsert]
          ∧ (CustomerDashboard.handleCompleteOrder env f b st).2.alerts
            = st.alerts ++ [CustomerDashboard.failureAlert])
        ∧ (∀ e, f.transactionsInsert = none → f.transactionItemsInsert = none →
          f.dailyStatisticsSelect = some e → e.code ≠ some "PGRST116" →
          newSteps b (CustomerDashboard.handleCompleteOrder env f b st).1
            = [.orderInsert, .orderLinesInsert, .statRead]
          ∧ (CustomerDashboard.handleCompleteOrder env f b st).2.alerts
            = st.alerts ++ [CustomerDashboard.failureAlert]))
      ∧ ∀ total, CustomerDashboard.failureAlert ≠ CustomerDashboard.successAlert total)
    ∧ ((∀ (env : Env) (f : Faults) (b : Backend) (st : StaffDashboard.State), st.cartItems ≠ [] →
        (∀ e, f.transactionsInsert = some e →
          newSteps b (StaffDashboard.handleCompleteOrder env f b st).1 = [.orderInsert]
          ∧ (StaffDashboard.handleCompleteOrder env f b st).2.alerts
            = st.alerts ++ [StaffDashboard.failureAlert e])
        ∧ (∀ e, f.transactionsInsert = none → f.transactionItemsInsert = some e →
          newSteps b (StaffDashboard.handleCompleteOrder env f b st).1
            = [.orderInsert, .orderLinesInsert]
          ∧ (StaffDashboard.handleCompleteOrder env f b st).2.alerts
            = st.alerts ++ [StaffDashboard.failureAlert e]))
      ∧ ∀ e total, StaffDashboard.failureAlert e ≠ StaffDashboard.successAlert total)
    ∧ ((∀ (env : Env) (f : Faults) (b : Backend) (st : DashboardPage.State),
        st.cartItems.filter (fun item => item.id != 0) ≠ [] →
        (∀ e, f.transactionsInsert = some e →
          newSteps b (DashboardPage.handleCompleteOrder env f b st).1 = [.orderInsert]
          ∧ (DashboardPage.handleCompleteOrder env f b st).2.alerts
            = st.alerts ++ [DashboardPage.failureAlert])
        ∧ (∀ e, f.transactionsInsert = none → f.transactionItemsInsert = some e →
          newSteps b (DashboardPage.handleCompleteOrder env f b st).1
            = [.orderInsert, .orderLinesInsert]
          ∧ (DashboardPage.handleCompleteOrder env f b st).2.alerts
            = st.alerts ++ [DashboardPage.failureAlert]))
      ∧ DashboardPage.failureAlert ≠ DashboardPage.successAlert) :=
  ⟨⟨CustomerDashboard.customer_aborts, CustomerDashboard.customer_failure_ne_success⟩,
    ⟨StaffDashboard.staff_aborts, StaffDashboard.staff_failure_ne_success⟩,
    ⟨DashboardPage.page_aborts, DashboardPage.page_failure_ne_success⟩⟩

/-- With the Order insert failing on the CustomerDashboard example cart, only
the Order insert is issued and the failure alert is the one alert shown. -/
theorem C8_insert_failure_is_reported_witness :
    newSteps emptyBackend (CustomerDashboard.handleCompleteOrder exampleEnv orderInsertFails
        emptyBackend CustomerDashboard.exampleState).1 = [.orderInsert]
    ∧ (CustomerDashboard.handleCompleteOrder exampleEnv orderInsertFails emptyBackend
        CustomerDashboard.exampleState).2.alerts
      = CustomerDashboard.exampleState.alerts ++ [CustomerDashboard.failureAlert] :=
  (C8_insert_failure_is_reported.1.1 exampleEnv orderInsertFails emptyBackend
    CustomerDashboard.exampleState (by simp [CustomerDashboard.exampleState])).1
    ⟨"boom", none⟩ rfl

/-- C8 as stated fails at step 4: when only the DailyStatistic write fails, every
flow issues all four steps, leaves `daily_statistics` empty, and shows its
success alert and no failure alert. -/
theorem C8_counterexample :
    ((CustomerDashboard.handleCompleteOrder exampleEnv statWriteFails emptyBackend
        CustomerDashboard.exampleState).2.alerts
        = [CustomerDashboard.successAlert (CustomerDashboard.totalPrice
            CustomerDashboard.exampleState.cart)]
      ∧ (CustomerDashboard.handleCompleteOrder exampleEnv statWriteFails emptyBackend
        CustomerDashboard.exampleState).1.daily_statistics = []
      ∧ newSteps emptyBackend (CustomerDashboard.handleCompleteOrder exampleEnv statWriteFails
        emptyBackend CustomerDashboard.exampleState).1 = stepOrder)
    ∧ ((StaffDashboard.handleCompleteOrder exampleEnv statWriteFails emptyBackend
        StaffDashboard.exampleState).2.alerts
        = [StaffDashboard.successAlert (StaffDashboard.orderTotal
            StaffDashboard.exampleState.cartItems)]
      ∧ (StaffDashboard.handleCompleteOrder exampleEnv statWriteFails emptyBackend
        StaffDashboard.exampleState).1.daily_statistics = []
      ∧ newSteps emptyBackend (StaffDashboard.handleCompleteOrder exampleEnv statWriteFails
        emptyBackend StaffDashboard.exampleState).1 = stepOrder)
    ∧ ((DashboardPage.handleCompleteOrder exampleEnv statWriteFails emptyBackend
        DashboardPage.exampleState).2.alerts = [DashboardPage.successAlert]
      ∧ (DashboardPage.handleCompleteOrder exampleEnv statWriteFails emptyBackend
        DashboardPage.exampleState).1.daily_statistics = []
      ∧ newSteps emptyBackend (DashboardPage.handleCompleteOrder exampleEnv statWriteFails
        emptyBackend DashboardPage.exampleState).1 = stepOrder) :=
  ⟨⟨rfl, rfl, rfl⟩, ⟨rfl, rfl, rfl⟩, ⟨rfl, rfl, rfl⟩⟩

/-! ## C9 -/

theorem StaffDashboard.staff_failureAlert_contains (error : Err) :
    error.message.data <:+: (failureAlert error).data := by
  simp only [failureAlert, String.data_append]
  exact (List.suffix_append _ _).isInfix

/-- C9 (amended). Whenever the StaffDashboard flow reports a failed collaborator
call (the Order insert or the OrderLines insert), the alert shown is "❌ Error: "
followed by the error message returned by the collaborator, so it contains that
message. In the same cases CustomerDashboard and DashboardPage show a fixed
alert, the same for every error. -/
theorem C9_staff_alert_has_message :
    (∀ (env : Env) (f : Faults) (b : Backend) (st : StaffDashboard.State) (e : Err),
      st.cartItems ≠ [] →
      (f.transactionsInsert = some e
        ∨ (f.transactionsInsert = none ∧ f.transactionItemsInsert = some e)) →
      (StaffDashboard.handleCompleteOrder env f b st).2.alerts
        = st.alerts ++ ["❌ Error: " ++ e.message]
      ∧ e.message.data <:+: ("❌ Error: " ++ e.message).data)
    ∧ (∀ (env : Env) (f : Faults) (b : Backend) (st : CustomerDashboard.State) (e : Err),
      st.cart ≠ [] →
      (f.transactionsInsert = some e
        ∨ (f.transactionsInsert = none ∧ f.transactionItemsInsert = some e)) →
      (CustomerDashboard.handleCompleteOrder env f b st).2.alerts
        = st.alerts ++ ["Failed to complete order. Please try again."])
    ∧ (∀ (env : Env) (f : Faults) (b : Backend) (st : DashboardPage.State) (e : Err),
      st.cartItems.filter (fun item => item.id != 0) ≠ [] →
      (f.transactionsInsert = some e
        ∨ (f.transactionsInsert = none ∧ f.transactionItemsInsert = some e)) →
      (DashboardPage.handleCompleteOrder env f b st).2.alerts
        = st.alerts ++ ["Error completing order. Please try again."]) := by
  refine ⟨fun env f b st e hne h => ⟨?_, StaffDashboard.staff_failureAlert_contains e⟩,
    fun env f b st e hne h => ?_, fun env f b st e hids h => ?_⟩
  · rcases h with h1 | ⟨h1, h2⟩
    · exact ((StaffDashboard.staff_aborts env f b st hne).1 e h1).2
    · exact ((StaffDashboard.staff_aborts env f b st hne).2 e h1 h2).2
  · rcases h with h1 | ⟨h1, h2⟩
    · exact ((CustomerDashboard.customer_aborts env f b st hne).1 e h1).2
    · exact ((CustomerDashboard.customer_aborts env f b st hne).2.1 e h1 h2).2
  · rcases h with h1 | ⟨h1, h2⟩
    · exact ((DashboardPage.page_aborts env f b st hids).1 e h1).2
    · exact ((DashboardPage.page_aborts env f b st hids).2 e h1 h2).2

/-- With the Order insert failing with "boom" on the StaffDashboard example cart,
the alert shown is "❌ Error: boom". -/
theorem C9_staff_alert_has_message_witness :
    (StaffDashboard.handleCompleteOrder exampleEnv orderInsertFails emptyBackend
        StaffDashboard.exampleState).2.alerts = [] ++ ["❌ Error: " ++ "boom"]
    ∧ "boom".data <:+: ("❌ Error: " ++ "boom").data :=
  C9_staff_alert_has_message.1 exampleEnv orderInsertFails emptyBackend
    StaffDashboard.exampleState ⟨"boom", none⟩ (by simp [StaffDashboard.exampleState])
    (Or.inl rfl)

/-- C9 as stated fails for CustomerDashboard and DashboardPage: when the Order
insert fails with the message "boom", the alert each shows does not contain
"boom". -/
theorem C9_counterexample :
    ((CustomerDashboard.handleCompleteOrder exampleEnv orderInsertFails emptyBackend
        CustomerDashboard.exampleState).2.alerts
        = ["Failed to complete order. Please try again."]
      ∧ ¬ "boom".data <:+: "Failed to complete order. Please try again.".data)
    ∧ ((DashboardPage.handleCompleteOrder exampleEnv orderInsertFails emptyBackend
        DashboardPage.exampleState).2.alerts
        = ["Error completing order. Please try again."]
      ∧ ¬ "boom".data <:+: "Error completing order. Please try again.".data) :=
  ⟨⟨rfl, by decide⟩, ⟨rfl, by decide⟩⟩

/-! ## C10 -/

/-- C10. If the Order insert succeeds and the OrderLines insert then fails, the
calls a completion handler issues are exactly those two inserts (no delete, no
update); afterwards `transactions` holds the rows it held before followed by
the new Order row, `transaction_items` and `daily_statistics` are unchanged,
and, the new identifier being referenced by no row of `transaction_items`
before, no row of `transaction_items` references the new Order. (For
DashboardPage the cart has at least one line with a non-zero id, so that the
Order insert is issued.) -/
theorem C10_no_rollback :
    (∀ (env : Env) (f : Faults) (b : Backend) (st : CustomerDashboard.State) (e : Err),
      st.cart ≠ [] → f.transactionsInsert = none → f.transactionItemsInsert = some e →
      newSteps b (CustomerDashboard.handleCompleteOrder env f b st).1
        = [.orderInsert, .orderLinesInsert]
      ∧ (∃ t, t.id = b.nextId ∧
          (CustomerDashboard.handleCompleteOrder env f b st).1.transactions = b.transactions ++ [t])
      ∧ (CustomerDashboard.handleCompleteOrder env f b st).1.transaction_items = b.transaction_items
      ∧ (CustomerDashboard.handleCompleteOrder env f b st).1.daily_statistics = b.daily_statistics
      ∧ ((∀ r ∈ b.transaction_items, r.transaction_id ≠ b.nextId) →
          ∀ r ∈ (CustomerDashboard.handleCompleteOrder env f b st).1.transaction_items,
            r.transaction_id ≠ b.nextId))
    ∧ (∀ (env : Env) (f : Faults) (b : Backend) (st : StaffDashboard.State) (e : Err),
      st.cartItems ≠ [] → f.transactionsInsert = none → f.transactionItemsInsert = some e →
      newSteps b (StaffDashboard.handleCompleteOrder env f b st).1
        = [.orderInsert, .orderLinesInsert]
      ∧ (∃ t, t.id = b.nextId ∧
          (StaffDashboard.handleCompleteOrder env f b st).1.transactions = b.transactions ++ [t])
      ∧ (StaffDashboard.handleCompleteOrder env f b st).1.transaction_items = b.transaction_items
      ∧ (StaffDashboard.handleCompleteOrder env f b st).1.daily_statistics = b.daily_statistics
      ∧ ((∀ r ∈ b.transaction_items, r.transaction_id ≠ b.nextId) →
          ∀ r ∈ (StaffDashboard.handleCompleteOrder env f b st).1.transaction_items,
            r.transaction_id ≠ b.nextId))
    ∧ (∀ (env : Env) (f : Faults) (b : Backend) (st : DashboardPage.State) (e : Err),
      st.cartItems.filter (fun item => item.id != 0) ≠ [] → f.transactionsInsert = none →
      f.transactionItemsInsert = some e →
      newSteps b (DashboardPage.handleCompleteOrder env f b st).1
        = [.orderInsert, .orderLinesInsert]
      ∧ (∃ t, t.id = b.nextId ∧
          (DashboardPage.handleCompleteOrder env f b st).1.transactions = b.transactions ++ [t])
      ∧ (DashboardPage.handleCompleteOrder env f b st).1.transaction_items = b.transaction_items
      ∧ (DashboardPage.handleCompleteOrder env f b st).1.daily_statistics = b.daily_statistics
      ∧ ((∀ r ∈ b.transaction_items, r.transaction_id ≠ b.nextId) →
          ∀ r ∈ (DashboardPage.handleCompleteOrder env f b st).1.transaction_items,
            r.transaction_id ≠ b.nextId)) := by
  refine ⟨fun env f b st e hne h1 h2 => ?_, fun env f b st e hne h1 h2 => ?_,
    fun env f b st e hids h1 h2 => ?_⟩
  · rw [CustomerDashboard.customer_complete_orderLinesInsert_fails env f b st hne e h1 h2]
    exact ⟨by simp [newSteps, newCalls, Call.kind], ⟨_, rfl, rfl⟩, rfl, rfl, fun h => h⟩
  · rw [StaffDashboard.staff_complete_orderLinesInsert_fails env f b st hne e h1 h2]
    exact ⟨by simp [newSteps, newCalls, Call.kind], ⟨_, rfl, rfl⟩, rfl, rfl, fun h => h⟩
  · rw [DashboardPage.page_complete_orderLinesInsert_fails env f b st hids e h1 h2]
    exact ⟨by simp [newSteps, newCalls, Call.kind], ⟨_, rfl, rfl⟩, rfl, rfl, fun h => h⟩

/-- With the OrderLines insert failing on the CustomerDashboard example cart, on a
backend that already holds order 1 with one line, the Order row with id 2
remains, no line references it, and no other table changes. -/
theorem C10_no_rollback_witness :
    newSteps seededBackend (CustomerDashboard.handleCompleteOrder exampleEnv orderLinesInsertFails
        seededBackend CustomerDashboard.exampleState).1 = [.orderInsert, .orderLinesInsert]
    ∧ (∃ t, t.id = seededBackend.nextId ∧
        (CustomerDashboard.handleCompleteOrder exampleEnv orderLinesInsertFails seededBackend
          CustomerDashboard.exampleState).1.transactions = seededBackend.transactions ++ [t])
    ∧ (CustomerDashboard.handleCompleteOrder exampleEnv orderLinesInsertFails seededBackend
        CustomerDashboard.exampleState).1.transaction_items = seededBackend.transaction_items
    ∧ (CustomerDashboard.handleCompleteOrder exampleEnv orderLinesInsertFails seededBackend
        CustomerDashboard.exampleState).1.daily_statistics = seededBackend.daily_statistics
    ∧ ∀ r ∈ (CustomerDashboard.handleCompleteOrder exampleEnv orderLinesInsertFails seededBackend
          CustomerDashboard.exampleState).1.transaction_items,
          r.transaction_id ≠ seededBackend.nextId :=
  have h := C10_no_rollback.1 exampleEnv orderLinesInsertFails seededBackend
    CustomerDashboard.exampleState
    ⟨"insert or update on table violates foreign key constraint", some "23503"⟩
    (by simp [CustomerDashboard.exampleState]) rfl rfl
  ⟨h.1, h.2.1, h.2.2.1, h.2.2.2.1, h.2.2.2.2 (by simp [seededBackend])⟩

/-! ## C11 -/

theorem CustomerDashboard.customer_successAlert_contains (total : ℚ) :
    (toFixed total).data <:+: (successAlert total).data := by
  simp only [successAlert, String.data_append]
  exact (List.suffix_append _ _).isInfix

theorem StaffDashboard.staff_successAlert_contains (total : ℚ) :
    (toFixed total).data <:+: (successAlert total).data := by
  simp only [successAlert, String.data_append]
  exact ⟨_, _, rfl⟩

theorem toFixed_example : toFixed (61 / 4) = "15.25" := by
  have h : hundredths (61 / 4) = 1525 := by
    have := hundredths_cents 1525
    norm_num at this
    exact this
  unfold toFixed
  rw [h]
  have hneg : ¬ ((61 / 4 : ℚ) < 0) := by norm_num
  simp only [hneg, if_false]
  decide

/-- C11 (amended). For every non-empty cart, if every collaborator call of the
sequence succeeds, then after the CustomerDashboard or StaffDashboard handler
returns the cart is empty and the one alert shown is the success message, which
contains the order total printed with two decimals. After the DashboardPage
handler returns, for a cart with at least one line with a non-zero id, the cart
is empty and the one alert shown is the fixed text "Order completed
successfully!". -/
theorem C11_success_clears_cart :
    (∀ (env : Env) (f : Faults) (b : Backend) (st : CustomerDashboard.State), st.cart ≠ [] →
      f.transactionsInsert = none → f.transactionItemsInsert = none →
      f.dailyStatisticsSelect = none → f.dailyStatisticsWrite = none →
      (CustomerDashboard.handleCompleteOrder env f b st).2.cart = []
      ∧ (CustomerDashboard.handleCompleteOrder env f b st).2.alerts = st.alerts ++
          ["✅ Order placed successfully! Total: ₱" ++ toFixed (CustomerDashboard.totalPrice st.cart)]
      ∧ (toFixed (CustomerDashboard.totalPrice st.cart)).data <:+:
          ("✅ Order placed successfully! Total: ₱"
            ++ toFixed (CustomerDashboard.totalPrice st.cart)).data)
    ∧ (∀ (env : Env) (f : Faults) (b : Backend) (st : StaffDashboard.State), st.cartItems ≠ [] →
      f.transactionsInsert = none → f.transactionItemsInsert = none →
      f.dailyStatisticsSelect = none → f.dailyStatisticsWrite = none →
      (StaffDashboard.handleCompleteOrder env f b st).2.cartItems = []
      ∧ (StaffDashboard.handleCompleteOrder env f b st).2.alerts = st.alerts ++
          ["✅ Order completed! Total: $" ++ toFixed (StaffDashboard.orderTotal st.cartItems)
            ++ "\n\nAdmin dashboard updated!"]
      ∧ (toFixed (StaffDashboard.orderTotal st.cartItems)).data <:+:
          ("✅ Order completed! Total: $" ++ toFixed (StaffDashboard.orderTotal st.cartItems)
            ++ "\n\nAdmin dashboard updated!").data)
    ∧ (∀ (env : Env) (f : Faults) (b : Backend) (st : DashboardPage.State),
      st.cartItems.filter (fun item => item.id != 0) ≠ [] →
      f.transactionsInsert = none → f.transactionItemsInsert = none →
      f.dailyStatisticsSelect = none → f.dailyStatisticsWrite = none →
      (DashboardPage.handleCompleteOrder env f b st).2.cartItems = []
      ∧ (DashboardPage.handleCompleteOrder env f b st).2.alerts
          = st.alerts ++ ["Order completed successfully!"]) := by
  refine ⟨fun env f b st hne h1 h2 h3 _ => ?_, fun env f b st hne h1 h2 _ _ => ?_,
    fun env f b st hids h1 h2 _ _ => ?_⟩
  · have hs := (CustomerDashboard.customer_complete_to_the_end env f b st hne h1 h2
      (fun e he => by rw [h3] at he; cases he)).2.2.2
    rw [hs]
    exact ⟨rfl, rfl, CustomerDashboard.customer_successAlert_contains _⟩
  · have hs := (StaffDashboard.staff_complete_to_the_end env f b st hne h1 h2).2.2.2
    rw [hs]
    exact ⟨rfl, rfl, StaffDashboard.staff_successAlert_contains _⟩
  · have hs := (DashboardPage.page_complete_to_the_end env f b st hids h1 h2).2.2.2
    rw [hs]
    exact ⟨rfl, rfl⟩

/-- With no failing call on the StaffDashboard example cart, the cart is emptied
and the alert shown contains the total. -/
theorem C11_success_clears_cart_witness :
    (StaffDashboard.handleCompleteOrder exampleEnv Faults.none emptyBackend
        StaffDashboard.exampleState).2.cartItems = []
    ∧ (StaffDashboard.handleCompleteOrder exampleEnv Faults.none emptyBackend
        StaffDashboard.exampleState).2.alerts = StaffDashboard.exampleState.alerts ++
          ["✅ Order completed! Total: $"
            ++ toFixed (StaffDashboard.orderTotal StaffDashboard.exampleState.cartItems)
            ++ "\n\nAdmin dashboard updated!"]
    ∧ (toFixed (StaffDashboard.orderTotal StaffDashboard.exampleState.cartItems)).data <:+:
          ("✅ Order completed! Total: $"
            ++ toFixed (StaffDashboard.orderTotal StaffDashboard.exampleState.cartItems)
            ++ "\n\nAdmin dashboard updated!").data :=
  C11_success_clears_cart.2.1 exampleEnv Faults.none emptyBackend StaffDashboard.exampleState
    (by simp [StaffDashboard.exampleState]) rfl rfl rfl rfl

/-- C11 as stated fails for DashboardPage: with no failing call on the cart of
two lattes and one muffin, the total is 15.25, printed "15.25", and the alert
shown is "Order completed successfully!", which does not contain it. -/
theorem C11_counterexample :
    (DashboardPage.handleCompleteOrder exampleEnv Faults.none emptyBackend
        DashboardPage.exampleState).2.alerts = ["Order completed successfully!"]
    ∧ toFixed (DashboardPage.orderTotal DashboardPage.exampleState.cartItems) = "15.25"
    ∧ ¬ "15.25".data <:+: "Order completed successfully!".data := by
  refine ⟨rfl, ?_, by decide⟩
  have ht : DashboardPage.orderTotal DashboardPage.exampleState.cartItems = 61 / 4 := by
    simp [DashboardPage.orderTotal, DashboardPage.exampleState, latte, muffin]
    norm_num
  rw [ht]
  exact toFixed_example

/-! ## C16 -/

/-- C16. In each of the three dashboards, for every cart and item id,
`handleUpdateQuantity` called with a quantity of 0 or less returns exactly the
cart the remove handler returns for that id. -/
theorem C16_update_to_zero_is_remove :
    (∀ (cart : List CustomerDashboard.CartLine) (itemId : Nat) (q : Int), q ≤ 0 →
      CustomerDashboard.handleUpdateQuantity cart itemId q
        = CustomerDashboard.handleRemoveFromCart cart itemId)
    ∧ (∀ (cart : List CartItem) (itemId : Nat) (q : Int), q ≤ 0 →
      StaffDashboard.handleUpdateQuantity cart itemId q
        = StaffDashboard.handleRemoveItem cart itemId)
    ∧ (∀ (cart : List CartItem) (itemId : Nat) (q : Int), q ≤ 0 →
      DashboardPage.handleUpdateQuantity cart itemId q
        = DashboardPage.handleRemoveItem cart itemId) := by
  refine ⟨fun cart i q hq => ?_, fun cart i q hq => ?_, fun cart i q hq => ?_⟩
  · simp [CustomerDashboard.handleUpdateQuantity, CustomerDashboard.handleRemoveFromCart, hq]
  · simp [StaffDashboard.handleUpdateQuantity, hq]
  · simp [DashboardPage.handleUpdateQuantity, hq]

/-- Setting the latte's quantity to 0 in the CustomerDashboard example cart gives
the cart that removing the latte gives. -/
theorem C16_update_to_zero_is_remove_witness :
    CustomerDashboard.handleUpdateQuantity CustomerDashboard.exampleState.cart 1 0
      = CustomerDashboard.handleRemoveFromCart CustomerDashboard.exampleState.cart 1 :=
  C16_update_to_zero_is_remove.1 CustomerDashboard.exampleState.cart 1 0 (by decide)

/-! ## C17 -/

theorem CustomerDashboard.customer_update_positive (cart : List CartLine) (itemId : Nat)
    (q : Int) (hq : 0 < q) :
    handleUpdateQuantity cart itemId q = cart.map (fun l =>
      if l.id == itemId then { l with quantity := q, subtotal := (q : ℚ) * l.price } else l) := by
  have : ¬ q ≤ 0 := by omega
  simp [handleUpdateQuantity, this]

theorem StaffDashboard.staff_update_positive (cart : List CartItem) (itemId : Nat)
    (q : Int) (hq : 0 < q) :
    handleUpdateQuantity cart itemId q = cart.map (fun l =>
      if l.id == itemId then { l with quantity := q } else l) := by
  have : ¬ q ≤ 0 := by omega
  simp [handleUpdateQuantity, this]

theorem CustomerDashboard.customer_update_spec (cart : List CartLine) (itemId : Nat)
    (q : Int) (hq : 0 < q) :
    (handleUpdateQuantity cart itemId q).length = cart.length
    ∧ (∀ (i : Nat) (l : CartLine), cart[i]? = some l → l.id = itemId →
        (handleUpdateQuantity cart itemId q)[i]?
          = some ⟨l.id, l.name, l.emoji, l.price, q, (q : ℚ) * l.price⟩)
    ∧ (∀ (i : Nat) (l : CartLine), cart[i]? = some l → l.id ≠ itemId →
        (handleUpdateQuantity cart itemId q)[i]? = some l)
    ∧ ((∀ l ∈ cart, l.id ≠ itemId) → handleUpdateQuantity cart itemId q = cart) := by
  rw [customer_update_positive cart itemId q hq]
  refine ⟨by simp, fun i l hi hl => ?_, fun i l hi hl => ?_, fun h => ?_⟩
  · simp [List.getElem?_map, hi, hl]
  · simp [List.getElem?_map, hi, hl]
  · exact map_absent (fun l : CartLine => l.id) _ cart itemId h

theorem StaffDashboard.staff_update_spec (cart : List CartItem) (itemId : Nat)
    (q : Int) (hq : 0 < q) :
    (handleUpdateQuantity cart itemId q).length = cart.length
    ∧ (∀ (i : Nat) (l : CartItem), cart[i]? = some l → l.id = itemId →
        (handleUpdateQuantity cart itemId q)[i]? = some { toMenuItem := l.toMenuItem, quantity := q })
    ∧ (∀ (i : Nat) (l : CartItem), cart[i]? = some l → l.id ≠ itemId →
        (handleUpdateQuantity cart itemId q)[i]? = some l)
    ∧ ((∀ l ∈ cart, l.id ≠ itemId) → handleUpdateQuantity cart itemId q = cart) := by
  rw [staff_update_positive cart itemId q hq]
  refine ⟨by simp, fun i l hi hl => ?_, fun i l hi hl => ?_, fun h => ?_⟩
  · simp [List.getElem?_map, hi, hl]
  · simp [List.getElem?_map, hi, hl]
  · exact map_absent (fun l : CartItem => l.id) _ cart itemId h

/-- C17. For every cart, item id and quantity greater than 0,
`handleUpdateQuantity` returns a cart of the same length in which every line
with that id, at its position, has the new quantity and, in CustomerDashboard,
the subtotal new quantity times the price stored on the line (in StaffDashboard
and DashboardPage the line keeps its price and has the new quantity, so price
times quantity is that product), every other line is unchanged at its position,
and the cart is returned unchanged when no line has the id. -/
theorem C17_update_quantity :
    (∀ (cart : List CustomerDashboard.CartLine) (itemId : Nat) (q : Int), 0 < q →
      (CustomerDashboard.handleUpdateQuantity cart itemId q).length = cart.length
      ∧ (∀ (i : Nat) (l : CustomerDashboard.CartLine), cart[i]? = some l → l.id = itemId →
          (CustomerDashboard.handleUpdateQuantity cart itemId q)[i]?
            = some ⟨l.id, l.name, l.emoji, l.price, q, (q : ℚ) * l.price⟩)
      ∧ (∀ (i : Nat) (l : CustomerDashboard.CartLine), cart[i]? = some l → l.id ≠ itemId →
          (CustomerDashboard.handleUpdateQuantity cart itemId q)[i]? = some l)
      ∧ ((∀ l ∈ cart, l.id ≠ itemId) →
          CustomerDashboard.handleUpdateQuantity cart itemId q = cart))
    ∧ (∀ (cart : List CartItem) (itemId : Nat) (q : Int), 0 < q →
      (StaffDashboard.handleUpdateQuantity cart itemId q).length = cart.length
      ∧ (∀ (i : Nat) (l : CartItem), cart[i]? = some l → l.id = itemId →
          (StaffDashboard.handleUpdateQuantity cart itemId q)[i]?
            = some { toMenuItem := l.toMenuItem, quantity := q })
      ∧ (∀ (i : Nat) (l : CartItem), cart[i]? = some l → l.id ≠ itemId →
          (StaffDashboard.handleUpdateQuantity cart itemId q)[i]? = some l)
      ∧ ((∀ l ∈ cart, l.id ≠ itemId) → StaffDashboard.handleUpdateQuantity cart itemId q = cart))
    ∧ (∀ (cart : List CartItem) (itemId : Nat) (q : Int), 0 < q →
      (DashboardPage.handleUpdateQuantity cart itemId q).length = cart.length
      ∧ (∀ (i : Nat) (l : CartItem), cart[i]? = some l → l.id = itemId →
          (DashboardPage.handleUpdateQuantity cart itemId q)[i]?
            = some { toMenuItem := l.toMenuItem, quantity := q })
      ∧ (∀ (i : Nat) (l : CartItem), cart[i]? = some l → l.id ≠ itemId →
          (DashboardPage.handleUpdateQuantity cart itemId q)[i]? = some l)
      ∧ ((∀ l ∈ cart, l.id ≠ itemId) → DashboardPage.handleUpdateQuantity cart itemId q = cart)) :=
  ⟨CustomerDashboard.customer_update_spec, StaffDashboard.staff_update_spec,
    StaffDashboard.staff_update_spec⟩

/-- Setting the latte's quantity to 3 in the CustomerDashboard example cart puts
quantity 3 and subtotal 3 x 5.50 on the first line. -/
theorem C17_update_quantity_witness :
    (CustomerDashboard.handleUpdateQuantity CustomerDashboard.exampleState.cart 1 3)[0]?
      = some ⟨1, "Caramel Latte", "☕", 11 / 2, 3, ((3 : Int) : ℚ) * (11 / 2)⟩ :=
  (C17_update_quantity.1 CustomerDashboard.exampleState.cart 1 3 (by decide)).2.1 0
    ⟨1, "Caramel Latte", "☕", 11 / 2, 2, 11⟩ rfl rfl

/-! ## C18 -/

theorem filter_ne_of_absent {α : Type} (key : α → Nat) (l : List α) (i : Nat)
    (h : ∀ x ∈ l, key x ≠ i) : l.filter (fun x => key x != i) = l := by
  rw [List.filter_eq_self]
  intro x hx
  simpa using h x hx

theorem filter_ne_removes {α : Type} (key : α → Nat) (l : List α) (i : Nat) :
    ∀ x ∈ l.filter (fun x => key x != i), key x ≠ i := by
  intro x hx
  simpa using (List.mem_filter.1 hx).2

/-- C18. In each dashboard the remove handler is a total function that returns
the cart unchanged when no line has the given id, and in every case returns a
cart with no line of that id, each remaining line being a line of the input. -/
theorem C18_remove :
    (∀ (cart : List CustomerDashboard.CartLine) (itemId : Nat),
      ((∀ l ∈ cart, l.id ≠ itemId) → CustomerDashboard.handleRemoveFromCart cart itemId = cart)
      ∧ (∀ l ∈ CustomerDashboard.handleRemoveFromCart cart itemId, l.id ≠ itemId ∧ l ∈ cart))
    ∧ (∀ (cart : List CartItem) (itemId : Nat),
      ((∀ l ∈ cart, l.id ≠ itemId) → StaffDashboard.handleRemoveItem cart itemId = cart)
      ∧ (∀ l ∈ StaffDashboard.handleRemoveItem cart itemId, l.id ≠ itemId ∧ l ∈ cart))
    ∧ (∀ (cart : List CartItem) (itemId : Nat),
      ((∀ l ∈ cart, l.id ≠ itemId) → DashboardPage.handleRemoveItem cart itemId = cart)
      ∧ (∀ l ∈ DashboardPage.handleRemoveItem cart itemId, l.id ≠ itemId ∧ l ∈ cart)) := by
  refine ⟨fun cart i => ⟨filter_ne_of_absent (fun l : CustomerDashboard.CartLine => l.id) cart i,
      fun l hl => ⟨filter_ne_removes (fun l : CustomerDashboard.CartLine => l.id) cart i l hl,
        (List.mem_filter.1 hl).1⟩⟩,
    fun cart i => ⟨filter_ne_of_absent (fun l : CartItem => l.id) cart i,
      fun l hl => ⟨filter_ne_removes (fun l : CartItem => l.id) cart i l hl,
        (List.mem_filter.1 hl).1⟩⟩,
    fun cart i => ⟨filter_ne_of_absent (fun l : CartItem => l.id) cart i,
      fun l hl => ⟨filter_ne_removes (fun l : CartItem => l.id) cart i l hl,
        (List.mem_filter.1 hl).1⟩⟩⟩

/-- Removing id 7, which no line has, from the StaffDashboard example cart returns
the cart. -/
theorem C18_remove_witness :
    StaffDashboard.handleRemoveItem StaffDashboard.exampleState.cartItems 7
      = StaffDashboard.exampleState.cartItems :=
  (C18_remove.2.1 StaffDashboard.exampleState.cartItems 7).1
    (by simp [StaffDashboard.exampleState, latte, muffin])

/-! ## C19 -/

/-- C19. For every cart, `totalPrice` of CustomerDashboard is the sum of the
stored line subtotals, and `cartTotal` of Cart.jsx and the totals computed by
StaffDashboard and DashboardPage are the sum over the lines of price times
quantity; each of them is 0 for the empty cart. -/
theorem C19_total_is_sum :
    (∀ cart : List CustomerDashboard.CartLine,
      CustomerDashboard.totalPrice cart = (cart.map (fun l => l.subtotal)).sum)
    ∧ (∀ cartItems : List CartItem,
      Cart.cartTotal cartItems = (cartItems.map (fun l => l.price * (l.quantity : ℚ))).sum
      ∧ StaffDashboard.orderTotal cartItems
          = (cartItems.map (fun l => l.price * (l.quantity : ℚ))).sum
      ∧ DashboardPage.orderTotal cartItems
          = (cartItems.map (fun l => l.price * (l.quantity : ℚ))).sum)
    ∧ CustomerDashboard.totalPrice [] = 0 ∧ Cart.cartTotal [] = 0
    ∧ StaffDashboard.orderTotal [] = 0 ∧ DashboardPage.orderTotal [] = 0 := by
  refine ⟨CustomerDashboard.customer_totalPrice_eq_sum, fun cartItems => ⟨?_,
    StaffDashboard.staff_orderTotal_eq_sum cartItems,
    DashboardPage.page_orderTotal_eq_sum cartItems⟩, rfl, rfl, rfl, rfl⟩
  simp [Cart.cartTotal, foldl_add_eq_sum]

/-! ## C20 -/

namespace CustomerDashboard

theorem customer_add_positive (cart : List CartLine) (item : MenuItem)
    (h : ∀ l ∈ cart, 1 ≤ l.quantity) : ∀ l ∈ handleAddToCart cart item, 1 ≤ l.quantity := by
  unfold handleAddToCart
  cases cart.find? (fun cartItem => cartItem.id == item.id) with
  | some y =>
    intro l hl
    obtain ⟨x, hx, rfl⟩ := List.mem_map.1 hl
    have := h x hx
    split
    · show 1 ≤ x.quantity + 1
      omega
    · exact this
  | none =>
    intro l hl
    rcases List.mem_append.1 hl with hl | hl
    · exact h l hl
    · rw [List.mem_singleton.1 hl]

theorem customer_update_positive_quantities (cart : List CartLine) (itemId : Nat) (q : Int)
    (h : ∀ l ∈ cart, 1 ≤ l.quantity) :
    ∀ l ∈ handleUpdateQuantity cart itemId q, 1 ≤ l.quantity := by
  unfold handleUpdateQuantity
  split
  · intro l hl
    exact h l (List.mem_filter.1 hl).1
  · rename_i hq
    intro l hl
    obtain ⟨x, hx, rfl⟩ := List.mem_map.1 hl
    split
    · show 1 ≤ q
      omega
    · exact h x hx

theorem customer_remove_positive (cart : List CartLine) (itemId : Nat)
    (h : ∀ l ∈ cart, 1 ≤ l.quantity) :
    ∀ l ∈ handleRemoveFromCart cart itemId, 1 ≤ l.quantity :=
  fun l hl => h l (List.mem_filter.1 hl).1

theorem customer_run_positive (actions : List CartAction) :
    ∀ cart : List CartLine, (∀ l ∈ cart, 1 ≤ l.quantity) →
      ∀ l ∈ run cart actions, 1 ≤ l.quantity := by
  induction actions with
  | nil => intro cart h; exact h
  | cons a as ih =>
    intro cart h
    simp only [run, List.foldl_cons]
    apply ih
    cases a with
    | add item => exact customer_add_positive cart item h
    | update i q => exact customer_update_positive_quantities cart i q h
    | remove i => exact customer_remove_positive cart i h

end CustomerDashboard

namespace StaffDashboard

theorem staff_add_positive (cart : List CartItem) (item : MenuItem)
    (h : ∀ l ∈ cart, 1 ≤ l.quantity) : ∀ l ∈ handleAddToCart cart item, 1 ≤ l.quantity := by
  unfold handleAddToCart
  cases cart.find? (fun cartItem => cartItem.id == item.id) with
  | some y =>
    intro l hl
    obtain ⟨x, hx, rfl⟩ := List.mem_map.1 hl
    have := h x hx
    split
    · show 1 ≤ x.quantity + 1
      omega
    · exact this
  | none =>
    intro l hl
    rcases List.mem_append.1 hl with hl | hl
    · exact h l hl
    · rw [List.mem_singleton.1 hl]

theorem staff_update_positive_quantities (cart : List CartItem) (itemId : Nat) (q : Int)
    (h : ∀ l ∈ cart, 1 ≤ l.quantity) :
    ∀ l ∈ handleUpdateQuantity cart itemId q, 1 ≤ l.quantity := by
  unfold handleUpdateQuantity
  split
  · intro l hl
    exact h l (List.mem_filter.1 hl).1
  · rename_i hq
    intro l hl
    obtain ⟨x, hx, rfl⟩ := List.mem_map.1 hl
    split
    · show 1 ≤ q
      omega
    · exact h x hx

theorem staff_remove_positive (cart : List CartItem) (itemId : Nat)
    (h : ∀ l ∈ cart, 1 ≤ l.quantity) :
    ∀ l ∈ handleRemoveItem cart itemId, 1 ≤ l.quantity :=
  fun l hl => h l (List.mem_filter.1 hl).1

theorem staff_run_positive (actions : List CartAction) :
    ∀ cart : List CartItem, (∀ l ∈ cart, 1 ≤ l.quantity) →
      ∀ l ∈ run cart actions, 1 ≤ l.quantity := by
  induction actions with
  | nil => intro cart h; exact h
  | cons a as ih =>
    intro cart h
    simp only [run, List.foldl_cons]
    apply ih
    cases a with
    | add item => exact staff_add_positive cart item h
    | update i q => exact staff_update_positive_quantities cart i q h
    | remove i => exact staff_remove_positive cart i h

end StaffDashboard

/-- C20. In each dashboard, every line of every cart reached from the empty cart
by a sequence of `handleAddToCart`, `handleUpdateQuantity` (with any integer) and
remove calls has a quantity of at least 1; and `handleUpdateQuantity` called
with a quantity of 0 or less returns a cart with no line of the given id. -/
theorem C20_quantities_positive :
    ((∀ (actions : List CartAction), ∀ l ∈ CustomerDashboard.run [] actions, 1 ≤ l.quantity)
      ∧ (∀ (cart : List CustomerDashboard.CartLine) (itemId : Nat) (q : Int), q ≤ 0 →
          ∀ l ∈ CustomerDashboard.handleUpdateQuantity cart itemId q, l.id ≠ itemId))
    ∧ ((∀ (actions : List CartAction), ∀ l ∈ StaffDashboard.run [] actions, 1 ≤ l.quantity)
      ∧ (∀ (cart : List CartItem) (itemId : Nat) (q : Int), q ≤ 0 →
          ∀ l ∈ StaffDashboard.handleUpdateQuantity cart itemId q, l.id ≠ itemId))
    ∧ ((∀ (actions : List CartAction), ∀ l ∈ DashboardPage.run [] actions, 1 ≤ l.quantity)
      ∧ (∀ (cart : List CartItem) (itemId : Nat) (q : Int), q ≤ 0 →
          ∀ l ∈ DashboardPage.handleUpdateQuantity cart itemId q, l.id ≠ itemId)) := by
  refine ⟨⟨fun actions => CustomerDashboard.customer_run_positive actions [] (by simp),
      fun cart i q hq l hl => ?_⟩,
    ⟨fun actions => StaffDashboard.staff_run_positive actions [] (by simp),
      fun cart i q hq l hl => ?_⟩,
    ⟨fun actions => ?_, fun cart i q hq l hl => ?_⟩⟩
  · simp only [CustomerDashboard.handleUpdateQuantity, hq, if_true] at hl
    exact filter_ne_removes (fun l : CustomerDashboard.CartLine => l.id) cart i l hl
  · simp only [StaffDashboard.handleUpdateQuantity, hq, if_true] at hl
    exact filter_ne_removes (fun l : CartItem => l.id) cart i l hl
  · rw [DashboardPage.page_run_eq]
    exact StaffDashboard.staff_run_positive actions [] (by simp)
  · simp only [DashboardPage.handleUpdateQuantity, hq, if_true] at hl
    exact filter_ne_removes (fun l : CartItem => l.id) cart i l hl

/-- After adding the latte twice and the muffin once and then lowering the
latte by three in StaffDashboard, every remaining line has quantity at least 1;
and the update to -1 leaves no latte line. -/
theorem C20_quantities_positive_witness :
    (∀ l ∈ StaffDashboard.run [] [.add latte, .add latte, .add muffin, .update 1 (2 - 3)],
        1 ≤ l.quantity)
    ∧ ∀ l ∈ StaffDashboard.handleUpdateQuantity StaffDashboard.exampleState.cartItems 1 (-1),
        l.id ≠ 1 :=
  ⟨C20_quantities_positive.2.1.1 [.add latte, .add latte, .add muffin, .update 1 (2 - 3)],
    C20_quantities_positive.2.1.2 StaffDashboard.exampleState.cartItems 1 (-1) (by decide)⟩

/-! ## The statistics step -/

theorem updateDailyStatistics_eq_read_write (env : Env) (f : Faults) (b : Backend) (amount : ℚ) :
    updateDailyStatistics env f b amount =
      updateDailyStatisticsWrite env f
        (b.selectDailyStatisticsSingle f.dailyStatisticsSelect env.today).1 amount
        (b.selectDailyStatisticsSingle f.dailyStatisticsSelect env.today).2.data := by
  rfl

theorem StaffDashboard.staff_tryBlock_reaches_write (env : Env) (f : Faults) (b : Backend)
    (st : StaffDashboard.State) (h1 : f.transactionsInsert = none)
    (h2 : f.transactionItemsInsert = none) :
    (tryBlock env f b st).1 =
      writeStatistics env f
        ((afterInserts env b st).selectDailyStatisticsSingle f.dailyStatisticsSelect env.today).1
        (orderTotal st.cartItems)
        ((afterInserts env b st).selectDailyStatisticsSingle
          f.dailyStatisticsSelect env.today).2.data := by
  simp [tryBlock, h1, h2, Backend.insertTransactions, Backend.insertTransactionItems,
    Backend.record, afterInserts, orderRow, orderLines, writeStatistics]

theorem StaffDashboard.staff_reaches_write (env : Env) (f : Faults) (b : Backend)
    (st : StaffDashboard.State) (hne : st.cartItems ≠ []) (h1 : f.transactionsInsert = none)
    (h2 : f.transactionItemsInsert = none) :
    (handleCompleteOrder env f b st).1 =
      writeStatistics env f
        ((afterInserts env b st).selectDailyStatisticsSingle f.dailyStatisticsSelect env.today).1
        (orderTotal st.cartItems)
        ((afterInserts env b st).selectDailyStatisticsSingle
          f.dailyStatisticsSelect env.today).2.data := by
  have hlen : st.cartItems.length ≠ 0 := by simpa using hne
  rw [← staff_tryBlock_reaches_write env f b st h1 h2]
  simp only [handleCompleteOrder, hlen, if_false]
  rcases hw : tryBlock env f b st with ⟨b4, r⟩
  cases r <;> rfl

theorem CustomerDashboard.customer_reaches_write (env : Env) (f : Faults) (b : Backend)
    (st : CustomerDashboard.State) (hne : st.cart ≠ []) (h1 : f.transactionsInsert = none)
    (h2 : f.transactionItemsInsert = none)
    (h3 : ∀ e, f.dailyStatisticsSelect = some e → e.code = some "PGRST116") :
    (handleCompleteOrder env f b st).1 =
      (writeStatistics env f
        ((afterInserts env b { st with loading := true }).selectDailyStatistics
          f.dailyStatisticsSelect env.today).1 { st with loading := true }
        ((afterInserts env b { st with loading := true }).selectDailyStatistics
          f.dailyStatisticsSelect env.today).2.data).1 := by
  have hlen : st.cart.length ≠ 0 := by simpa using hne
  have hrw := tryBlock_reaches_write env f b { st with loading := true } h1 h2 h3
  have hs := (writeStatistics_spec env f
    ((afterInserts env b { st with loading := true }).selectDailyStatistics
      f.dailyStatisticsSelect env.today).1 { st with loading := true }
    ((afterInserts env b { st with loading := true }).selectDailyStatistics
      f.dailyStatisticsSelect env.today).2.data).2.2.2.2
  rw [← hrw] at hs ⊢
  rcases hw : tryBlock env f b { st with loading := true } with ⟨b4, r⟩
  rw [hw] at hs
  simp only at hs
  subst hs
  simp only [handleCompleteOrder, hlen, if_false, hw]

theorem DashboardPage.page_reaches_write (env : Env) (f : Faults) (b : Backend)
    (st : DashboardPage.State) (h : st.cartItems.filter (fun item => item.id != 0) ≠ [])
    (h1 : f.transactionsInsert = none) (h2 : f.transactionItemsInsert = none) :
    (handleCompleteOrder env f b st).1 =
      updateDailyStatistics env f (createTransactionInserted env b (transactionOf st))
        (orderTotal st.cartItems) := by
  have hne : st.cartItems ≠ [] := by rintro h0; simp [h0] at h
  have hlen : st.cartItems.length ≠ 0 := by simpa using hne
  have hc := createTransaction_to_the_end env f b (transactionOf st) h h1 h2
  simp only [transactionOf] at hc
  simp only [handleCompleteOrder, hlen, if_false, hc, transactionOf]

namespace Backend

theorem record_daily_statistics (b : Backend) (c : Call) :
    (b.record c).daily_statistics = b.daily_statistics := rfl

theorem selectDailyStatistics_data (b : Backend) (date : String) :
    (b.selectDailyStatistics none date).2.data
      = some (b.daily_statistics.filter (fun r => r.stat_date == date)) := rfl

theorem selectDailyStatisticsSingle_data_one (b : Backend) (date : String) (r : DailyStat)
    (h : b.daily_statistics.filter (fun r => r.stat_date == date) = [r]) :
    (b.selectDailyStatisticsSingle none date).2.data = some r := by
  simp only [selectDailyStatisticsSingle, h]

theorem selectDailyStatisticsSingle_data_nil (b : Backend) (date : String)
    (h : b.daily_statistics.filter (fun r => r.stat_date == date) = []) :
    (b.selectDailyStatisticsSingle none date).2.data = none := by
  simp only [selectDailyStatisticsSingle, h]

theorem updateDailyStatistics_daily_statistics (b : Backend) (date : String)
    (patch : DailyStatUpdate) :
    (b.updateDailyStatistics none date patch).1.daily_statistics
      = b.daily_statistics.map (fun r => if r.stat_date == date then applyUpdate patch r else r) :=
  rfl

theorem insertDailyStatistics_daily_statistics (b : Backend) (row : DailyStat) :
    (b.insertDailyStatistics none row).1.daily_statistics = b.daily_statistics ++ [row] := rfl

theorem updateDailyStatistics_dates (b : Backend) (fault : Option Err) (date : String)
    (patch : DailyStatUpdate) :
    (b.updateDailyStatistics fault date patch).1.daily_statistics.map (fun r => r.stat_date)
      = b.daily_statistics.map (fun r => r.stat_date) := by
  cases fault with
  | some e => rfl
  | none =>
    rw [updateDailyStatistics_daily_statistics, List.map_map]
    apply List.map_congr_left
    intro r _
    simp only [Function.comp]
    split <;> rfl

theorem insertDailyStatistics_cases (b : Backend) (fault : Option Err) (row : DailyStat) :
    (b.insertDailyStatistics fault row).1.daily_statistics = b.daily_statistics
    ∨ (b.insertDailyStatistics fault row).1.daily_statistics = b.daily_statistics ++ [row] := by
  cases fault with
  | some e => exact Or.inl rfl
  | none => exact Or.inr rfl

end Backend

/-! ## `recordOrder` of the specification -/

theorem recordOrderSpec_absent (date : String) (amount : ℚ) (store : List Aggregate)
    (h : ∀ r ∈ store, r.date ≠ date) :
    recordOrderSpec date amount store = store ++ [⟨date, amount, 1⟩] := by
  unfold recordOrderSpec
  have hf : store.find? (fun r => r.date == date) = none := by
    rw [List.find?_eq_none]
    intro r hr
    simpa using h r hr
  rw [hf]

theorem recordOrderSpec_present (date : String) (amount : ℚ) (pre post : List Aggregate)
    (cur : Aggregate) (hpre : ∀ r ∈ pre, r.date ≠ date) (hcur : cur.date = date)
    (hpost : ∀ r ∈ post, r.date ≠ date) :
    recordOrderSpec date amount (pre ++ cur :: post)
      = pre ++ ⟨date, cur.revenue + amount, cur.orders + 1⟩ :: post := by
  unfold recordOrderSpec
  have hf : (pre ++ cur :: post).find? (fun r => r.date == date) = some cur := by
    rw [List.find?_append]
    have h0 : pre.find? (fun r => r.date == date) = none := by
      rw [List.find?_eq_none]
      intro r hr
      simpa using hpre r hr
    rw [h0]
    simp [List.find?_cons, hcur]
  rw [hf]
  simp only [List.map_append, List.map_cons]
  have h1 : ∀ (l : List Aggregate), (∀ r ∈ l, r.date ≠ date) →
      l.map (fun r => if r.date == date then
        { r with revenue := cur.revenue + amount, orders := cur.orders + 1 } else r) = l := by
    intro l hl
    conv_rhs => rw [← List.map_id l]
    apply List.map_congr_left
    intro r hr
    simp [hl r hr]
  rw [h1 pre hpre, h1 post hpost]
  simp [hcur]

/-- What the code writes when the read returned a first row `r` for the date: the
aggregates are those `recordOrderSpec` gives. -/
theorem aggregate_of_update (date : String) (amount : ℚ) (rows : List DailyStat)
    (r : DailyStat) (rest : List DailyStat) (patch : DailyStatUpdate)
    (hfil : rows.filter (fun x => x.stat_date == date) = r :: rest)
    (hrev : patch.total_revenue = r.total_revenue + amount)
    (hord : patch.total_orders = r.total_orders + 1) :
    (rows.map (fun x => if x.stat_date == date then Backend.applyUpdate patch x else x)).map
        DailyStat.aggregate
      = recordOrderSpec date amount (rows.map DailyStat.aggregate) := by
  unfold recordOrderSpec
  have hfind : (rows.map DailyStat.aggregate).find? (fun a => a.date == date)
      = some r.aggregate := by
    rw [List.find?_map]
    have : rows.find? ((fun a : Aggregate => a.date == date) ∘ DailyStat.aggregate)
        = (rows.filter (fun x => x.stat_date == date)).head? := by
      rw [List.filter_head?]
      rfl
    rw [this, hfil]
    rfl
  rw [hfind]
  simp only [List.map_map]
  apply List.map_congr_left
  intro x _
  simp only [Function.comp, DailyStat.aggregate]
  split
  · simp [Backend.applyUpdate, hrev, hord]
  · rfl

/-- What the code writes when the read found no row for the date. -/
theorem aggregate_of_insert (date : String) (amount : ℚ) (rows : List DailyStat)
    (row : DailyStat) (hfil : rows.filter (fun x => x.stat_date == date) = [])
    (hdate : row.stat_date = date) (hrev : row.total_revenue = amount)
    (hord : row.total_orders = 1) :
    (rows ++ [row]).map DailyStat.aggregate
      = recordOrderSpec date amount (rows.map DailyStat.aggregate) := by
  rw [recordOrderSpec_absent]
  · simp [DailyStat.aggregate, hdate, hrev, hord]
  · intro a ha
    obtain ⟨x, hx, rfl⟩ := List.mem_map.1 ha
    rw [List.filter_eq_nil_iff] at hfil
    simpa [DailyStat.aggregate] using hfil x hx

/-! ## C12 -/

theorem updateDailyStatistics_aggregate (env : Env) (f : Faults) (b : Backend) (amount : ℚ)
    (hs : f.dailyStatisticsSelect = none) (hw : f.dailyStatisticsWrite = none)
    (huniq : (b.daily_statistics.filter (fun r => r.stat_date == env.today)).length ≤ 1) :
    (updateDailyStatistics env f b amount).daily_statistics.map DailyStat.aggregate
      = recordOrderSpec env.today amount (b.daily_statistics.map DailyStat.aggregate) := by
  rw [updateDailyStatistics_eq_read_write, Backend.selectDailyStatisticsSingle_fst, hs]
  cases hfil : b.daily_statistics.filter (fun r => r.stat_date == env.today) with
  | nil =>
    rw [Backend.selectDailyStatisticsSingle_data_nil b env.today hfil]
    simp only [updateDailyStatisticsWrite, hw]
    rw [Backend.insertDailyStatistics_daily_statistics, Backend.record_daily_statistics]
    exact aggregate_of_insert env.today amount b.daily_statistics _ hfil rfl rfl rfl
  | cons r rest =>
    have hrest : rest = [] := by
      rw [hfil] at huniq
      simp only [List.length_cons] at huniq
      exact List.length_eq_zero.1 (by omega)
    subst hrest
    rw [Backend.selectDailyStatisticsSingle_data_one b env.today r hfil]
    simp only [updateDailyStatisticsWrite, hw]
    rw [Backend.updateDailyStatistics_daily_statistics, Backend.record_daily_statistics]
    exact aggregate_of_update env.today amount b.daily_statistics r [] _ hfil rfl rfl

theorem StaffDashboard.staff_aggregate (env : Env) (f : Faults) (b : Backend)
    (st : StaffDashboard.State) (hne : st.cartItems ≠ []) (h1 : f.transactionsInsert = none)
    (h2 : f.transactionItemsInsert = none) (hs : f.dailyStatisticsSelect = none)
    (hw : f.dailyStatisticsWrite = none)
    (huniq : (b.daily_statistics.filter (fun r => r.stat_date == env.today)).length ≤ 1) :
    (handleCompleteOrder env f b st).1.daily_statistics.map DailyStat.aggregate
      = recordOrderSpec env.today (orderTotal st.cartItems)
          (b.daily_statistics.map DailyStat.aggregate) := by
  rw [staff_reaches_write env f b st hne h1 h2, Backend.selectDailyStatisticsSingle_fst, hs]
  have hds : (afterInserts env b st).daily_statistics = b.daily_statistics := rfl
  cases hfil : b.daily_statistics.filter (fun r => r.stat_date == env.today) with
  | nil =>
    rw [Backend.selectDailyStatisticsSingle_data_nil _ env.today (by rw [hds]; exact hfil)]
    simp only [writeStatistics, hw]
    rw [Backend.insertDailyStatistics_daily_statistics, Backend.record_daily_statistics, hds]
    exact aggregate_of_insert env.today _ b.daily_statistics _ hfil rfl rfl rfl
  | cons r rest =>
    have hrest : rest = [] := by
      rw [hfil] at huniq
      simp only [List.length_cons] at huniq
      exact List.length_eq_zero.1 (by omega)
    subst hrest
    rw [Backend.selectDailyStatisticsSingle_data_one _ env.today r (by rw [hds]; exact hfil)]
    simp only [writeStatistics, hw]
    rw [Backend.updateDailyStatistics_daily_statistics, Backend.record_daily_statistics, hds]
    exact aggregate_of_update env.today _ b.daily_statistics r [] _ hfil rfl rfl

theorem CustomerDashboard.customer_aggregate (env : Env) (f : Faults) (b : Backend)
    (st : CustomerDashboard.State) (hne : st.cart ≠ []) (h1 : f.transactionsInsert = none)
    (h2 : f.transactionItemsInsert = none) (hs : f.dailyStatisticsSelect = none)
    (hw : f.dailyStatisticsWrite = none) :
    (handleCompleteOrder env f b st).1.daily_statistics.map DailyStat.aggregate
      = recordOrderSpec env.today (totalPrice st.cart)
          (b.daily_statistics.map DailyStat.aggregate) := by
  rw [customer_reaches_write env f b st hne h1 h2 (fun e he => by rw [hs] at he; cases he),
    Backend.selectDailyStatistics_fst, hs, Backend.selectDailyStatistics_data]
  have hds : (afterInserts env b { st with loading := true }).daily_statistics
      = b.daily_statistics := rfl
  rw [hds]
  cases hfil : b.daily_statistics.filter (fun r => r.stat_date == env.today) with
  | nil =>
    simp only [writeStatistics, hw]
    rw [Backend.insertDailyStatistics_daily_statistics, Backend.record_daily_statistics, hds]
    exact aggregate_of_insert env.today _ b.daily_statistics _ hfil rfl rfl rfl
  | cons r rest =>
    simp only [writeStatistics, hw]
    rw [Backend.updateDailyStatistics_daily_statistics, Backend.record_daily_statistics, hds]
    exact aggregate_of_update env.today _ b.daily_statistics r rest _ hfil rfl rfl

theorem DashboardPage.page_aggregate (env : Env) (f : Faults) (b : Backend)
    (st : DashboardPage.State) (h : st.cartItems.filter (fun item => item.id != 0) ≠ [])
    (h1 : f.transactionsInsert = none) (h2 : f.transactionItemsInsert = none)
    (hs : f.dailyStatisticsSelect = none) (hw : f.dailyStatisticsWrite = none)
    (huniq : (b.daily_statistics.filter (fun r => r.stat_date == env.today)).length ≤ 1) :
    (handleCompleteOrder env f b st).1.daily_statistics.map DailyStat.aggregate
      = recordOrderSpec env.today (orderTotal st.cartItems)
          (b.daily_statistics.map DailyStat.aggregate) := by
  rw [page_reaches_write env f b st h h1 h2]
  exact updateDailyStatistics_aggregate env f _ _ hs hw huniq

/-- C12. When its read and its write succeed, the statistics step behaves as
`recordOrder` of the specification on the date, revenue and order count of the
rows: for `updateDailyStatistics(amount)`, and for the completion handlers of
CustomerDashboard, StaffDashboard and DashboardPage with the order total as
amount, the aggregates of `daily_statistics` afterwards are those `recordOrder`
gives from the aggregates before. (For the flows that read with `.single()` the
store holds at most one row for today.) `recordOrder` appends the aggregate
(date, amount, 1) when no aggregate for the date exists, and otherwise replaces
the aggregate for the date by revenue plus amount and orders plus 1. -/
theorem C12_statistics_step_is_recordOrder :
    (∀ (env : Env) (f : Faults) (b : Backend) (amount : ℚ),
      f.dailyStatisticsSelect = none → f.dailyStatisticsWrite = none →
      (b.daily_statistics.filter (fun r => r.stat_date == env.today)).length ≤ 1 →
      (updateDailyStatistics env f b amount).daily_statistics.map DailyStat.aggregate
        = recordOrderSpec env.today amount (b.daily_statistics.map DailyStat.aggregate))
    ∧ (∀ (env : Env) (f : Faults) (b : Backend) (st : CustomerDashboard.State), st.cart ≠ [] →
      f.transactionsInsert = none → f.transactionItemsInsert = none →
      f.dailyStatisticsSelect = none → f.dailyStatisticsWrite = none →
      (CustomerDashboard.handleCompleteOrder env f b st).1.daily_statistics.map DailyStat.aggregate
        = recordOrderSpec env.today (CustomerDashboard.totalPrice st.cart)
            (b.daily_statistics.map DailyStat.aggregate))
    ∧ (∀ (env : Env) (f : Faults) (b : Backend) (st : StaffDashboard.State), st.cartItems ≠ [] →
      f.transactionsInsert = none → f.transactionItemsInsert = none →
      f.dailyStatisticsSelect = none → f.dailyStatisticsWrite = none →
      (b.daily_statistics.filter (fun r => r.stat_date == env.today)).length ≤ 1 →
      (StaffDashboard.handleCompleteOrder env f b st).1.daily_statistics.map DailyStat.aggregate
        = recordOrderSpec env.today (StaffDashboard.orderTotal st.cartItems)
            (b.daily_statistics.map DailyStat.aggregate))
    ∧ (∀ (env : Env) (f : Faults) (b : Backend) (st : DashboardPage.State),
      st.cartItems.filter (fun item => item.id != 0) ≠ [] →
      f.transactionsInsert = none → f.transactionItemsInsert = none →
      f.dailyStatisticsSelect = none → f.dailyStatisticsWrite = none →
      (b.daily_statistics.filter (fun r => r.stat_date == env.today)).length ≤ 1 →
      (DashboardPage.handleCompleteOrder env f b st).1.daily_statistics.map DailyStat.aggregate
        = recordOrderSpec env.today (DashboardPage.orderTotal st.cartItems)
            (b.daily_statistics.map DailyStat.aggregate))
    ∧ (∀ (date : String) (amount : ℚ) (store : List Aggregate),
      (∀ r ∈ store, r.date ≠ date) →
      recordOrderSpec date amount store = store ++ [⟨date, amount, 1⟩])
    ∧ (∀ (date : String) (amount : ℚ) (pre post : List Aggregate) (cur : Aggregate),
      (∀ r ∈ pre, r.date ≠ date) → cur.date = date → (∀ r ∈ post, r.date ≠ date) →
      recordOrderSpec date amount (pre ++ cur :: post)
        = pre ++ ⟨date, cur.revenue + amount, cur.orders + 1⟩ :: post) :=
  ⟨updateDailyStatistics_aggregate, CustomerDashboard.customer_aggregate,
    StaffDashboard.staff_aggregate, DashboardPage.page_aggregate, recordOrderSpec_absent,
    recordOrderSpec_present⟩

/-- A StaffDashboard completion of the example cart on the day for which the
seeded store has its one row adds the total to that row and 1 to its order
count, as `recordOrder` does. -/
theorem C12_statistics_step_is_recordOrder_witness :
    (StaffDashboard.handleCompleteOrder { exampleEnv with today := "2025-01-14" } Faults.none
        seededBackend StaffDashboard.exampleState).1.daily_statistics.map DailyStat.aggregate
      = recordOrderSpec "2025-01-14"
          (StaffDashboard.orderTotal StaffDashboard.exampleState.cartItems)
          (seededBackend.daily_statistics.map DailyStat.aggregate) :=
  C12_statistics_step_is_recordOrder.2.2.1 { exampleEnv with today := "2025-01-14" } Faults.none
    seededBackend StaffDashboard.exampleState (by simp [StaffDashboard.exampleState])
    rfl rfl rfl rfl (by simp [seededBackend])

/-! ## C13 -/

theorem filter_date_length (rows : List DailyStat) (date : String) :
    (rows.filter (fun r => r.stat_date == date)).length
      = ((rows.map DailyStat.aggregate).filter (fun a => a.date == date)).length := by
  rw [List.filter_map, List.length_map]
  rfl

theorem unique_of_aggregates (rows : List DailyStat) (date : String) (pre : List Aggregate)
    (s : ℚ) (k : Int) (h : rows.map DailyStat.aggregate = pre ++ [⟨date, s, k⟩])
    (hpre : ∀ r ∈ pre, r.date ≠ date) :
    (rows.filter (fun r => r.stat_date == date)).length ≤ 1 := by
  rw [filter_date_length, h, List.filter_append]
  have h0 : pre.filter (fun a => a.date == date) = [] := by
    rw [List.filter_eq_nil_iff]
    intro a ha
    simpa using hpre a ha
  rw [h0]
  simp

theorem unique_of_absent (rows : List DailyStat) (date : String)
    (h : ∀ r ∈ rows, r.stat_date ≠ date) :
    (rows.filter (fun r => r.stat_date == date)).length ≤ 1 := by
  have h0 : rows.filter (fun r => r.stat_date == date) = [] := by
    rw [List.filter_eq_nil_iff]
    intro a ha
    simpa using h a ha
  rw [h0]
  simp

theorem fold_recordOrder_present {γ : Type} (date : String) (stepB : γ → Backend → Backend)
    (amt : γ → ℚ) (calls : List γ)
    (hstep : ∀ c ∈ calls, ∀ b : Backend,
      (b.daily_statistics.filter (fun r => r.stat_date == date)).length ≤ 1 →
      (stepB c b).daily_statistics.map DailyStat.aggregate
        = recordOrderSpec date (amt c) (b.daily_statistics.map DailyStat.aggregate)) :
    ∀ (b : Backend) (pre : List Aggregate) (s : ℚ) (k : Int),
      b.daily_statistics.map DailyStat.aggregate = pre ++ [⟨date, s, k⟩] →
      (∀ r ∈ pre, r.date ≠ date) →
      (calls.foldl (fun b c => stepB c b) b).daily_statistics.map DailyStat.aggregate
        = pre ++ [⟨date, s + (calls.map amt).sum, k + (calls.length : Int)⟩] := by
  induction calls with
  | nil => intro b pre s k h _; simpa using h
  | cons c cs ih =>
    intro b pre s k h hpre
    simp only [List.foldl_cons]
    have h1 := hstep c (by simp) b (unique_of_aggregates _ date pre s k h hpre)
    rw [h, recordOrderSpec_present date (amt c) pre [] ⟨date, s, k⟩ hpre rfl (by simp)] at h1
    rw [ih (fun c' hc' => hstep c' (by simp [hc'])) (stepB c b) pre (s + amt c) (k + 1) h1 hpre]
    simp only [List.map_cons, List.sum_cons, List.length_cons, Nat.cast_add, Nat.cast_one]
    congr 2
    simp only [Aggregate.mk.injEq, true_and]
    constructor <;> ring

theorem fold_recordOrder {γ : Type} (date : String) (stepB : γ → Backend → Backend)
    (amt : γ → ℚ) (calls : List γ)
    (hstep : ∀ c ∈ calls, ∀ b : Backend,
      (b.daily_statistics.filter (fun r => r.stat_date == date)).length ≤ 1 →
      (stepB c b).daily_statistics.map DailyStat.aggregate
        = recordOrderSpec date (amt c) (b.daily_statistics.map DailyStat.aggregate))
    (b : Backend) (habs : ∀ r ∈ b.daily_statistics, r.stat_date ≠ date) (hne : calls ≠ []) :
    (calls.foldl (fun b c => stepB c b) b).daily_statistics.map DailyStat.aggregate
      = b.daily_statistics.map DailyStat.aggregate
          ++ [⟨date, (calls.map amt).sum, (calls.length : Int)⟩] := by
  cases calls with
  | nil => exact absurd rfl hne
  | cons c cs =>
    simp only [List.foldl_cons]
    have h1 := hstep c (by simp) b (unique_of_absent _ date habs)
    rw [recordOrderSpec_absent date (amt c) _ (by
      intro a ha
      obtain ⟨x, hx, rfl⟩ := List.mem_map.1 ha
      exact habs x hx)] at h1
    rw [fold_recordOrder_present date stepB amt cs (fun c' hc' => hstep c' (by simp [hc']))
      (stepB c b) _ (amt c) 1 h1 (by
        intro a ha
        obtain ⟨x, hx, rfl⟩ := List.mem_map.1 ha
        exact habs x hx)]
    simp only [List.map_cons, List.sum_cons, List.length_cons, Nat.cast_add, Nat.cast_one]
    congr 2
    simp only [Aggregate.mk.injEq, true_and]
    ring

theorem recordOrderSpec_sequence (date : String) (amounts : List ℚ) :
    ∀ (store : List Aggregate) (s : ℚ) (k : Int), (∀ r ∈ store, r.date ≠ date) →
      amounts.foldl (fun st a => recordOrderSpec date a st) (store ++ [⟨date, s, k⟩])
        = store ++ [⟨date, s + amounts.sum, k + (amounts.length : Int)⟩] := by
  induction amounts with
  | nil => intro store s k _; simp
  | cons a as ih =>
    intro store s k h
    simp only [List.foldl_cons]
    rw [recordOrderSpec_present date a store [] ⟨date, s, k⟩ h rfl (by simp), ih store _ _ h]
    simp only [List.sum_cons, List.length_cons, Nat.cast_add, Nat.cast_one]
    congr 2
    simp only [Aggregate.mk.injEq, true_and]
    constructor <;> ring

/-- C13. Starting from a store with no row for a date, after one or more
sequential statistics steps on that date, every collaborator call succeeding,
the aggregates of `daily_statistics` are those before followed by one aggregate
for the date whose revenue is the sum of the amounts and whose order count is
the number of steps: for `recordOrder` of the specification, for
`updateDailyStatistics`, and for the completion handlers of CustomerDashboard,
StaffDashboard and DashboardPage with the order totals as amounts. From the
empty store, 10.00 gives revenue 10.00 and orders 1, and a following 5.00 gives
revenue 15.00 and orders 2. -/
theorem C13_sequential_orders_add_up :
    (∀ (date : String) (amounts : List ℚ) (store : List Aggregate),
      (∀ r ∈ store, r.date ≠ date) → amounts ≠ [] →
      amounts.foldl (fun st a => recordOrderSpec date a st) store
        = store ++ [⟨date, amounts.sum, (amounts.length : Int)⟩])
    ∧ (∀ (date : String) (calls : List (Env × ℚ)) (b : Backend),
      (∀ c ∈ calls, c.1.today = date) → (∀ r ∈ b.daily_statistics, r.stat_date ≠ date) →
      calls ≠ [] →
      (recordOrders calls b).daily_statistics.map DailyStat.aggregate
        = b.daily_statistics.map DailyStat.aggregate
            ++ [⟨date, (calls.map (fun c => c.2)).sum, (calls.length : Int)⟩])
    ∧ (∀ (date : String) (orders : List (Env × CustomerDashboard.State)) (b : Backend),
      (∀ o ∈ orders, o.1.today = date ∧ o.2.cart ≠ []) →
      (∀ r ∈ b.daily_statistics, r.stat_date ≠ date) → orders ≠ [] →
      (CustomerDashboard.completeAll orders b).daily_statistics.map DailyStat.aggregate
        = b.daily_statistics.map DailyStat.aggregate
            ++ [⟨date, (orders.map (fun o => CustomerDashboard.totalPrice o.2.cart)).sum,
                (orders.length : Int)⟩])
    ∧ (∀ (date : String) (orders : List (Env × StaffDashboard.State)) (b : Backend),
      (∀ o ∈ orders, o.1.today = date ∧ o.2.cartItems ≠ []) →
      (∀ r ∈ b.daily_statistics, r.stat_date ≠ date) → orders ≠ [] →
      (StaffDashboard.completeAll orders b).daily_statistics.map DailyStat.aggregate
        = b.daily_statistics.map DailyStat.aggregate
            ++ [⟨date, (orders.map (fun o => StaffDashboard.orderTotal o.2.cartItems)).sum,
                (orders.length : Int)⟩])
    ∧ (∀ (date : String) (orders : List (Env × DashboardPage.State)) (b : Backend),
      (∀ o ∈ orders, o.1.today = date
        ∧ o.2.cartItems.filter (fun item => item.id != 0) ≠ []) →
      (∀ r ∈ b.daily_statistics, r.stat_date ≠ date) → orders ≠ [] →
      (DashboardPage.completeAll orders b).daily_statistics.map DailyStat.aggregate
        = b.daily_statistics.map DailyStat.aggregate
            ++ [⟨date, (orders.map (fun o => DashboardPage.orderTotal o.2.cartItems)).sum,
                (orders.length : Int)⟩])
    ∧ ((recordOrders [(exampleEnv, 10)] emptyBackend).daily_statistics.map DailyStat.aggregate
        = [⟨"2025-01-15", 10, 1⟩]
      ∧ (recordOrders [(exampleEnv, 5)]
          (recordOrders [(exampleEnv, 10)] emptyBackend)).daily_statistics.map DailyStat.aggregate
        = [⟨"2025-01-15", 15, 2⟩]) := by
  have hupd : ∀ (date : String) (calls : List (Env × ℚ)) (b : Backend),
      (∀ c ∈ calls, c.1.today = date) → (∀ r ∈ b.daily_statistics, r.stat_date ≠ date) →
      calls ≠ [] →
      (recordOrders calls b).daily_statistics.map DailyStat.aggregate
        = b.daily_statistics.map DailyStat.aggregate
            ++ [⟨date, (calls.map (fun c => c.2)).sum, (calls.length : Int)⟩] := by
    intro date calls b hd habs hne
    exact fold_recordOrder date (fun c b => updateDailyStatistics c.1 Faults.none b c.2)
      (fun c => c.2) calls (fun c hc b hu => by
        have := updateDailyStatistics_aggregate c.1 Faults.none b c.2 rfl rfl
          (by rw [hd c hc]; exact hu)
        rw [hd c hc] at this
        exact this) b habs hne
  refine ⟨?_, hupd, ?_, ?_, ?_, ?_, ?_⟩
  · intro date amounts store h hne
    cases amounts with
    | nil => exact absurd rfl hne
    | cons a as =>
      simp only [List.foldl_cons]
      rw [recordOrderSpec_absent date a store h, recordOrderSpec_sequence date as store a 1 h]
      simp only [List.sum_cons, List.length_cons, Nat.cast_add, Nat.cast_one]
      congr 2
      simp only [Aggregate.mk.injEq, true_and]
      ring
  · intro date orders b hd habs hne
    exact fold_recordOrder date
      (fun o b => (CustomerDashboard.handleCompleteOrder o.1 Faults.none b o.2).1)
      (fun o => CustomerDashboard.totalPrice o.2.cart) orders (fun o ho b _ => by
        have := CustomerDashboard.customer_aggregate o.1 Faults.none b o.2 (hd o ho).2
          rfl rfl rfl rfl
        rw [(hd o ho).1] at this
        exact this) b habs hne
  · intro date orders b hd habs hne
    exact fold_recordOrder date
      (fun o b => (StaffDashboard.handleCompleteOrder o.1 Faults.none b o.2).1)
      (fun o => StaffDashboard.orderTotal o.2.cartItems) orders (fun o ho b hu => by
        have := StaffDashboard.staff_aggregate o.1 Faults.none b o.2 (hd o ho).2
          rfl rfl rfl rfl (by rw [(hd o ho).1]; exact hu)
        rw [(hd o ho).1] at this
        exact this) b habs hne
  · intro date orders b hd habs hne
    exact fold_recordOrder date
      (fun o b => (DashboardPage.handleCompleteOrder o.1 Faults.none b o.2).1)
      (fun o => DashboardPage.orderTotal o.2.cartItems) orders (fun o ho b hu => by
        have := DashboardPage.page_aggregate o.1 Faults.none b o.2 (hd o ho).2
          rfl rfl rfl rfl (by rw [(hd o ho).1]; exact hu)
        rw [(hd o ho).1] at this
        exact this) b habs hne
  · have h1 := hupd "2025-01-15" [(exampleEnv, 10)] emptyBackend
      (by simp [exampleEnv]) (by simp [emptyBackend]) (by simp)
    exact h1.trans (by simp [emptyBackend])
  · have h2 := hupd "2025-01-15" [(exampleEnv, 10), (exampleEnv, 5)] emptyBackend
      (by simp [exampleEnv]) (by simp [emptyBackend]) (by simp)
    have hcomp : recordOrders [(exampleEnv, 5)] (recordOrders [(exampleEnv, 10)] emptyBackend)
        = recordOrders [(exampleEnv, 10), (exampleEnv, 5)] emptyBackend := rfl
    rw [hcomp]
    exact h2.trans (by simp [emptyBackend]; norm_num)

/-- Two StaffDashboard completions of the example cart on the same day, from the
seeded store (which has a row for the day before only), leave one aggregate for
the day with the two totals added and order count 2. -/
theorem C13_sequential_orders_add_up_witness :
    (StaffDashboard.completeAll
        [(exampleEnv, StaffDashboard.exampleState), (exampleEnv, StaffDashboard.exampleState)]
        seededBackend).daily_statistics.map DailyStat.aggregate
      = seededBackend.daily_statistics.map DailyStat.aggregate
          ++ [⟨"2025-01-15",
              ([(exampleEnv, StaffDashboard.exampleState),
                (exampleEnv, StaffDashboard.exampleState)].map
                  (fun o => StaffDashboard.orderTotal o.2.cartItems)).sum,
              (([(exampleEnv, StaffDashboard.exampleState),
                (exampleEnv, StaffDashboard.exampleState)].length : Nat) : Int)⟩] :=
  C13_sequential_orders_add_up.2.2.2.1 "2025-01-15"
    [(exampleEnv, StaffDashboard.exampleState), (exampleEnv, StaffDashboard.exampleState)]
    seededBackend (by simp [exampleEnv, StaffDashboard.exampleState])
    (by simp [seededBackend]) (by simp)

/-! ## C14 -/

theorem filter_le_one_of_nodup (rows : List DailyStat) (date : String)
    (h : (rows.map (fun r => r.stat_date)).Nodup) :
    (rows.filter (fun r => r.stat_date == date)).length ≤ 1 := by
  induction rows with
  | nil => simp
  | cons r rs ih =>
    rw [List.map_cons, List.nodup_cons] at h
    by_cases hr : r.stat_date = date
    · have h0 : rs.filter (fun x => x.stat_date == date) = [] := by
        rw [List.filter_eq_nil_iff]
        intro x hx
        have : x.stat_date ≠ r.stat_date := by
          intro hxe
          exact h.1 (List.mem_map.2 ⟨x, hx, hxe⟩)
        simpa [← hr] using this
      simp [List.filter_cons, hr, h0]
    · have : (r.stat_date == date) = false := by simpa using hr
      rw [List.filter_cons, this]
      exact ih h.2

theorem single_none_absent (b : Backend) (date : String)
    (hn : (b.daily_statistics.map (fun r => r.stat_date)).Nodup)
    (h : (b.selectDailyStatisticsSingle none date).2.data = none) :
    ∀ r ∈ b.daily_statistics, r.stat_date ≠ date := by
  have hle := filter_le_one_of_nodup b.daily_statistics date hn
  cases hfil : b.daily_statistics.filter (fun r => r.stat_date == date) with
  | nil =>
    rw [List.filter_eq_nil_iff] at hfil
    intro r hr
    simpa using hfil r hr
  | cons r rest =>
    have hrest : rest = [] := by
      rw [hfil] at hle
      simp only [List.length_cons] at hle
      exact List.length_eq_zero.1 (by omega)
    subst hrest
    rw [Backend.selectDailyStatisticsSingle_data_one b date r hfil] at h
    cases h

theorem single_some_present (b : Backend) (date : String) (r : DailyStat)
    (h : (b.selectDailyStatisticsSingle none date).2.data = some r) :
    r ∈ b.daily_statistics ∧ r.stat_date = date := by
  have hmem : r ∈ b.daily_statistics.filter (fun x => x.stat_date == date) := by
    simp only [Backend.selectDailyStatisticsSingle] at h
    split at h
    · rename_i r' hfil
      simp only [Option.some.injEq] at h
      rw [hfil, h]
      simp
    · cases h
  have := List.mem_filter.1 hmem
  exact ⟨this.1, by simpa using this.2⟩

theorem nodup_dates_append (rows : List DailyStat) (row : DailyStat)
    (h : (rows.map (fun r => r.stat_date)).Nodup)
    (habs : ∀ r ∈ rows, r.stat_date ≠ row.stat_date) :
    ((rows ++ [row]).map (fun r => r.stat_date)).Nodup := by
  rw [List.map_append, List.map_cons, List.map_nil]
  apply List.Nodup.append h (List.nodup_singleton _)
  intro k hk hk1
  obtain ⟨y, hy, rfl⟩ := List.mem_map.1 hk
  exact habs y hy (by simpa using hk1)

theorem updateDailyStatisticsWrite_keeps_unique (env : Env) (f : Faults) (b : Backend)
    (amount : ℚ) (data : Option DailyStat)
    (hn : (b.daily_statistics.map (fun r => r.stat_date)).Nodup)
    (hdata : data = none → ∀ r ∈ b.daily_statistics, r.stat_date ≠ env.today) :
    ((updateDailyStatisticsWrite env f b amount data).daily_statistics.map
      (fun r => r.stat_date)).Nodup := by
  cases data with
  | some r =>
    simp only [updateDailyStatisticsWrite]
    rw [Backend.updateDailyStatistics_dates]
    exact hn
  | none =>
    simp only [updateDailyStatisticsWrite]
    rcases Backend.insertDailyStatistics_cases b f.dailyStatisticsWrite
      { stat_date := env.today, total_revenue := amount, total_orders := 1, total_customers := 1,
        total_smiles := ⌊env.random * 10⌋ + 1, updated_at := none } with h | h
    · rw [h]; exact hn
    · rw [h]; exact nodup_dates_append _ _ hn (hdata rfl)

theorem StaffDashboard.staff_write_keeps_unique (env : Env) (f : Faults) (b : Backend)
    (total : ℚ) (data : Option DailyStat)
    (hn : (b.daily_statistics.map (fun r => r.stat_date)).Nodup)
    (hdata : data = none → ∀ r ∈ b.daily_statistics, r.stat_date ≠ env.today) :
    ((writeStatistics env f b total data).daily_statistics.map (fun r => r.stat_date)).Nodup := by
  cases data with
  | some r =>
    simp only [writeStatistics]
    rw [Backend.updateDailyStatistics_dates]
    exact hn
  | none =>
    simp only [writeStatistics]
    rcases Backend.insertDailyStatistics_cases b f.dailyStatisticsWrite
      { stat_date := env.today, total_revenue := total, total_orders := 1, total_customers := 1,
        total_smiles := 1, updated_at := none } with h | h
    · rw [h]; exact hn
    · rw [h]; exact nodup_dates_append _ _ hn (hdata rfl)

theorem CustomerDashboard.customer_write_keeps_unique (env : Env) (f : Faults) (b : Backend)
    (st : CustomerDashboard.State) (rows : List DailyStat)
    (hn : (b.daily_statistics.map (fun r => r.stat_date)).Nodup)
    (hdata : rows = [] → ∀ r ∈ b.daily_statistics, r.stat_date ≠ env.today) :
    ((writeStatistics env f b st (some rows)).1.daily_statistics.map
      (fun r => r.stat_date)).Nodup := by
  cases rows with
  | cons s0 tl =>
    simp only [writeStatistics]
    rw [Backend.updateDailyStatistics_dates]
    exact hn
  | nil =>
    simp only [writeStatistics]
    rcases Backend.insertDailyStatistics_cases b f.dailyStatisticsWrite
      { stat_date := env.today, total_revenue := totalPrice st.cart, total_orders := 1,
        total_customers := 1, total_smiles := 0, updated_at := none } with h | h
    · rw [h]; exact hn
    · rw [h]; exact nodup_dates_append _ _ hn (hdata rfl)

theorem updateDailyStatistics_keeps_unique (env : Env) (f : Faults) (b : Backend) (amount : ℚ)
    (hs : f.dailyStatisticsSelect = none)
    (hn : (b.daily_statistics.map (fun r => r.stat_date)).Nodup) :
    ((updateDailyStatistics env f b amount).daily_statistics.map (fun r => r.stat_date)).Nodup := by
  rw [updateDailyStatistics_eq_read_write, Backend.selectDailyStatisticsSingle_fst, hs]
  exact updateDailyStatisticsWrite_keeps_unique env f
    (b.record (Call.selectDailyStatistics env.today true)) amount _ hn
    (fun h => single_none_absent b env.today hn h)

theorem CustomerDashboard.customer_keeps_unique (env : Env) (f : Faults) (b : Backend)
    (st : CustomerDashboard.State) (hs : f.dailyStatisticsSelect = none)
    (hn : (b.daily_statistics.map (fun r => r.stat_date)).Nodup) :
    ((handleCompleteOrder env f b st).1.daily_statistics.map (fun r => r.stat_date)).Nodup := by
  by_cases hne : st.cart = []
  · rw [customer_complete_empty env f b st hne]; exact hn
  · cases h1 : f.transactionsInsert with
    | some e => rw [customer_complete_orderInsert_fails env f b st hne e h1]; exact hn
    | none =>
      cases h2 : f.transactionItemsInsert with
      | some e => rw [customer_complete_orderLinesInsert_fails env f b st hne e h1 h2]; exact hn
      | none =>
        rw [customer_reaches_write env f b st hne h1 h2 (fun e he => by rw [hs] at he; cases he),
          Backend.selectDailyStatistics_fst, hs, Backend.selectDailyStatistics_data]
        refine customer_write_keeps_unique env f
          ((afterInserts env b { st with loading := true }).record
            (Call.selectDailyStatistics env.today false)) _ _ hn ?_
        intro hfil r hr
        have hfil' : b.daily_statistics.filter (fun r => r.stat_date == env.today) = [] := hfil
        rw [List.filter_eq_nil_iff] at hfil'
        simpa using hfil' r hr

theorem StaffDashboard.staff_keeps_unique (env : Env) (f : Faults) (b : Backend)
    (st : StaffDashboard.State) (hs : f.dailyStatisticsSelect = none)
    (hn : (b.daily_statistics.map (fun r => r.stat_date)).Nodup) :
    ((handleCompleteOrder env f b st).1.daily_statistics.map (fun r => r.stat_date)).Nodup := by
  by_cases hne : st.cartItems = []
  · rw [staff_complete_empty env f b st hne]; exact hn
  · cases h1 : f.transactionsInsert with
    | some e => rw [staff_complete_orderInsert_fails env f b st hne e h1]; exact hn
    | none =>
      cases h2 : f.transactionItemsInsert with
      | some e => rw [staff_complete_orderLinesInsert_fails env f b st hne e h1 h2]; exact hn
      | none =>
        rw [staff_reaches_write env f b st hne h1 h2, Backend.selectDailyStatisticsSingle_fst, hs]
        exact staff_write_keeps_unique env f
          ((afterInserts env b st).record (Call.selectDailyStatistics env.today true)) _ _ hn
          (fun h => single_none_absent (afterInserts env b st) env.today hn h)

theorem DashboardPage.page_keeps_unique (env : Env) (f : Faults) (b : Backend)
    (st : DashboardPage.State) (hs : f.dailyStatisticsSelect = none)
    (hn : (b.daily_statistics.map (fun r => r.stat_date)).Nodup) :
    ((handleCompleteOrder env f b st).1.daily_statistics.map (fun r => r.stat_date)).Nodup := by
  by_cases hne : st.cartItems = []
  · rw [page_complete_empty env f b st hne]; exact hn
  · by_cases hids : st.cartItems.filter (fun item => item.id != 0) = []
    · rw [page_complete_no_ids env f b st hne hids]; exact hn
    · cases h1 : f.transactionsInsert with
      | some e => rw [page_complete_orderInsert_fails env f b st hids e h1]; exact hn
      | none =>
        cases h2 : f.transactionItemsInsert with
        | some e => rw [page_complete_orderLinesInsert_fails env f b st hids e h1 h2]; exact hn
        | none =>
          rw [page_reaches_write env f b st hids h1 h2]
          exact updateDailyStatistics_keeps_unique env f
            (createTransactionInserted env b (transactionOf st)) _ hs hn

theorem single_isSome_eq_any (b : Backend) (date : String)
    (hn : (b.daily_statistics.map (fun r => r.stat_date)).Nodup) :
    (b.selectDailyStatisticsSingle none date).2.data.isSome
      = b.daily_statistics.any (fun r => r.stat_date == date) := by
  cases hd : (b.selectDailyStatisticsSingle none date).2.data with
  | none =>
    have habs := single_none_absent b date hn hd
    symm
    simp only [Option.isSome_none]
    rw [Bool.eq_false_iff]
    intro hany
    obtain ⟨r, hr, hr2⟩ := List.any_eq_true.1 hany
    exact habs r hr (by simpa using hr2)
  | some r =>
    obtain ⟨hr, hr2⟩ := single_some_present b date r hd
    symm
    simp only [Option.isSome_some]
    exact List.any_eq_true.2 ⟨r, hr, by simpa using hr2⟩

theorem filter_nonempty_eq_any (rows : List DailyStat) (date : String) :
    (!(rows.filter (fun r => r.stat_date == date)).isEmpty)
      = rows.any (fun r => r.stat_date == date) := by
  induction rows with
  | nil => rfl
  | cons r rs ih =>
    by_cases hr : (r.stat_date == date) = true
    · simp [List.filter_cons, hr]
    · have hr' : (r.stat_date == date) = false := by simpa using hr
      rw [List.filter_cons, hr', List.any_cons, hr', Bool.false_or]
      exact ih

theorem updateDailyStatisticsWrite_fits (env : Env) (f : Faults) (b : Backend) (amount : ℚ)
    (data : Option DailyStat) :
    ∃ c, (updateDailyStatisticsWrite env f b amount data).calls = b.calls ++ [c]
      ∧ c.fitsRead env.today data.isSome := by
  cases data with
  | some r =>
    exact ⟨_, Backend.updateDailyStatistics_calls _ _ _ _, ⟨rfl, rfl⟩⟩
  | none =>
    exact ⟨_, Backend.insertDailyStatistics_calls _ _ _, ⟨rfl, rfl⟩⟩

theorem StaffDashboard.staff_write_fits (env : Env) (f : Faults) (b : Backend) (total : ℚ)
    (data : Option DailyStat) :
    ∃ c, (writeStatistics env f b total data).calls = b.calls ++ [c]
      ∧ c.fitsRead env.today data.isSome := by
  cases data with
  | some r =>
    exact ⟨_, Backend.updateDailyStatistics_calls _ _ _ _, ⟨rfl, rfl⟩⟩
  | none =>
    exact ⟨_, Backend.insertDailyStatistics_calls _ _ _, ⟨rfl, rfl⟩⟩

theorem CustomerDashboard.customer_write_fits (env : Env) (f : Faults) (b : Backend)
    (st : CustomerDashboard.State) (rows : List DailyStat) :
    ∃ c, (writeStatistics env f b st (some rows)).1.calls = b.calls ++ [c]
      ∧ c.fitsRead env.today (!rows.isEmpty) := by
  cases rows with
  | cons s0 tl =>
    exact ⟨_, Backend.updateDailyStatistics_calls _ _ _ _, ⟨rfl, rfl⟩⟩
  | nil =>
    exact ⟨_, Backend.insertDailyStatistics_calls _ _ _, ⟨rfl, rfl⟩⟩

theorem fits_of_mem_prefix (date : String) (found : Bool) (c1 c2 : Call) (sel : Bool)
    (c : Call) (hc : c.fitsRead date found)
    (h1 : ∃ row, c1 = .insertTransactions row) (h2 : ∃ rows, c2 = .insertTransactionItems rows) :
    ∀ x ∈ [c1, c2, .selectDailyStatistics date sel, c], x.fitsRead date found := by
  obtain ⟨row, rfl⟩ := h1
  obtain ⟨rows, rfl⟩ := h2
  intro x hx
  simp only [List.mem_cons, List.mem_singleton, List.not_mem_nil, or_false] at hx
  rcases hx with rfl | rfl | rfl | rfl
  · trivial
  · trivial
  · trivial
  · exact hc

theorem updateDailyStatistics_fits (env : Env) (f : Faults) (b : Backend) (amount : ℚ)
    (hs : f.dailyStatisticsSelect = none)
    (hn : (b.daily_statistics.map (fun r => r.stat_date)).Nodup) :
    ∀ c ∈ newCalls b (updateDailyStatistics env f b amount),
      c.fitsRead env.today (b.daily_statistics.any (fun r => r.stat_date == env.today)) := by
  obtain ⟨c, hc, hfit⟩ := updateDailyStatisticsWrite_fits env f
    (b.selectDailyStatisticsSingle f.dailyStatisticsSelect env.today).1 amount
    (b.selectDailyStatisticsSingle f.dailyStatisticsSelect env.today).2.data
  rw [← updateDailyStatistics_eq_read_write, Backend.selectDailyStatisticsSingle_fst] at hc
  rw [hs, single_isSome_eq_any b env.today hn] at hfit
  rw [newCalls_append b _ [.selectDailyStatistics env.today true, c]
    (by rw [hc]; simp [Backend.record])]
  intro x hx
  simp only [List.mem_cons, List.mem_singleton, List.not_mem_nil, or_false] at hx
  rcases hx with rfl | rfl
  · trivial
  · exact hfit

theorem CustomerDashboard.customer_fits (env : Env) (f : Faults) (b : Backend)
    (st : CustomerDashboard.State) (hs : f.dailyStatisticsSelect = none) :
    ∀ c ∈ newCalls b (handleCompleteOrder env f b st).1,
      c.fitsRead env.today (b.daily_statistics.any (fun r => r.stat_date == env.today)) := by
  by_cases hne : st.cart = []
  · rw [customer_complete_empty env f b st hne]
    simp [newCalls]
  · cases h1 : f.transactionsInsert with
    | some e =>
      rw [customer_complete_orderInsert_fails env f b st hne e h1,
        newCalls_append b _ [.insertTransactions (orderRow env st)] rfl]
      intro x hx
      rw [List.mem_singleton.1 hx]
      trivial
    | none =>
      cases h2 : f.transactionItemsInsert with
      | some e =>
        rw [customer_complete_orderLinesInsert_fails env f b st hne e h1 h2,
          newCalls_append b _ [.insertTransactions (orderRow env st),
            .insertTransactionItems (orderLines b.nextId st.cart)] rfl]
        intro x hx
        simp only [List.mem_cons, List.mem_singleton, List.not_mem_nil, or_false] at hx
        rcases hx with rfl | rfl <;> trivial
      | none =>
        obtain ⟨c, hc, hfit⟩ := customer_write_fits env f
          ((afterInserts env b { st with loading := true }).record
            (Call.selectDailyStatistics env.today false)) { st with loading := true }
          (b.daily_statistics.filter (fun r => r.stat_date == env.today))
        rw [filter_nonempty_eq_any] at hfit
        have hr := customer_reaches_write env f b st hne h1 h2
          (fun e he => by rw [hs] at he; cases he)
        rw [Backend.selectDailyStatistics_fst, hs, Backend.selectDailyStatistics_data] at hr
        have hr2 : (handleCompleteOrder env f b st).1 =
            (writeStatistics env f
              ((afterInserts env b { st with loading := true }).record
                (Call.selectDailyStatistics env.today false)) { st with loading := true }
              (some (b.daily_statistics.filter (fun r => r.stat_date == env.today)))).1 := hr
        rw [hr2, newCalls_append b _ [.insertTransactions (orderRow env { st with loading := true }),
          .insertTransactionItems (orderLines b.nextId st.cart),
          .selectDailyStatistics env.today false, c]
          (hc.trans (by simp [Backend.record, afterInserts]))]
        exact fits_of_mem_prefix env.today _ _ _ false c hfit ⟨_, rfl⟩ ⟨_, rfl⟩

theorem StaffDashboard.staff_fits (env : Env) (f : Faults) (b : Backend)
    (st : StaffDashboard.State) (hs : f.dailyStatisticsSelect = none)
    (hn : (b.daily_statistics.map (fun r => r.stat_date)).Nodup) :
    ∀ c ∈ newCalls b (handleCompleteOrder env f b st).1,
      c.fitsRead env.today (b.daily_statistics.any (fun r => r.stat_date == env.today)) := by
  by_cases hne : st.cartItems = []
  · rw [staff_complete_empty env f b st hne]
    simp [newCalls]
  · cases h1 : f.transactionsInsert with
    | some e =>
      rw [staff_complete_orderInsert_fails env f b st hne e h1,
        newCalls_append b _ [.insertTransactions (orderRow env st)] rfl]
      intro x hx
      rw [List.mem_singleton.1 hx]
      trivial
    | none =>
      cases h2 : f.transactionItemsInsert with
      | some e =>
        rw [staff_complete_orderLinesInsert_fails env f b st hne e h1 h2,
          newCalls_append b _ [.insertTransactions (orderRow env st),
            .insertTransactionItems (orderLines b.nextId st.cartItems)] rfl]
        intro x hx
        simp only [List.mem_cons, List.mem_singleton, List.not_mem_nil, or_false] at hx
        rcases hx with rfl | rfl <;> trivial
      | none =>
        obtain ⟨c, hc, hfit⟩ := staff_write_fits env f
          ((afterInserts env b st).record (Call.selectDailyStatistics env.today true))
          (orderTotal st.cartItems)
          ((afterInserts env b st).selectDailyStatisticsSingle none env.today).2.data
        rw [single_isSome_eq_any (afterInserts env b st) env.today hn] at hfit
        have hr := staff_reaches_write env f b st hne h1 h2
        rw [Backend.selectDailyStatisticsSingle_fst, hs] at hr
        rw [hr, newCalls_append b _ [.insertTransactions (orderRow env st),
          .insertTransactionItems (orderLines b.nextId st.cartItems),
          .selectDailyStatistics env.today true, c] (by rw [hc]; simp [Backend.record, afterInserts])]
        exact fits_of_mem_prefix env.today _ _ _ true c hfit ⟨_, rfl⟩ ⟨_, rfl⟩

theorem DashboardPage.page_fits (env : Env) (f : Faults) (b : Backend)
    (st : DashboardPage.State) (hs : f.dailyStatisticsSelect = none)
    (hn : (b.daily_statistics.map (fun r => r.stat_date)).Nodup) :
    ∀ c ∈ newCalls b (handleCompleteOrder env f b st).1,
      c.fitsRead env.today (b.daily_statistics.any (fun r => r.stat_date == env.today)) := by
  by_cases hne : st.cartItems = []
  · rw [page_complete_empty env f b st hne]
    simp [newCalls]
  · by_cases hids : st.cartItems.filter (fun item => item.id != 0) = []
    · rw [page_complete_no_ids env f b st hne hids]
      simp [newCalls]
    · cases h1 : f.transactionsInsert with
      | some e =>
        rw [page_complete_orderInsert_fails env f b st hids e h1,
          newCalls_append b _ [.insertTransactions (createTransactionRow env (transactionOf st))]
            rfl]
        intro x hx
        rw [List.mem_singleton.1 hx]
        trivial
      | none =>
        cases h2 : f.transactionItemsInsert with
        | some e =>
          rw [page_complete_orderLinesInsert_fails env f b st hids e h1 h2,
            newCalls_append b _ [.insertTransactions (createTransactionRow env (transactionOf st)),
              .insertTransactionItems (createTransactionLines b.nextId st.cartItems)] rfl]
          intro x hx
          simp only [List.mem_cons, List.mem_singleton, List.not_mem_nil, or_false] at hx
          rcases hx with rfl | rfl <;> trivial
        | none =>
          obtain ⟨c, hc, hfit⟩ := updateDailyStatisticsWrite_fits env f
            ((createTransactionInserted env b (transactionOf st)).record
              (Call.selectDailyStatistics env.today true))
            (orderTotal st.cartItems)
            ((createTransactionInserted env b (transactionOf st)).selectDailyStatisticsSingle
              none env.today).2.data
          rw [single_isSome_eq_any (createTransactionInserted env b (transactionOf st))
            env.today hn] at hfit
          have hr := page_reaches_write env f b st hids h1 h2
          rw [updateDailyStatistics_eq_read_write, Backend.selectDailyStatisticsSingle_fst,
            hs] at hr
          rw [hr, newCalls_append b _
            [.insertTransactions (createTransactionRow env (transactionOf st)),
              .insertTransactionItems (createTransactionLines b.nextId st.cartItems),
              .selectDailyStatistics env.today true, c]
            (by rw [hc]; simp [Backend.record, createTransactionInserted, transactionOf])]
          exact fits_of_mem_prefix env.today _ _ _ true c hfit ⟨_, rfl⟩ ⟨_, rfl⟩

/-- C14. If `daily_statistics` holds at most one row per date and the statistics
read returns the content of the store, then after `updateDailyStatistics` and
after the completion handler of each flow (whatever the cart and whichever of
the other calls fail) it still holds at most one row per date; and among the
calls issued, an insert into `daily_statistics` is of a row for today and
occurs only when the store had no row for today, and an update of
`daily_statistics` is of today's rows and occurs only when the store had a row
for today. -/
theorem C14_one_row_per_date :
    (∀ (env : Env) (f : Faults) (b : Backend) (amount : ℚ), f.dailyStatisticsSelect = none →
      (b.daily_statistics.map (fun r => r.stat_date)).Nodup →
      ((updateDailyStatistics env f b amount).daily_statistics.map (fun r => r.stat_date)).Nodup
      ∧ ∀ c ∈ newCalls b (updateDailyStatistics env f b amount),
          c.fitsRead env.today (b.daily_statistics.any (fun r => r.stat_date == env.today)))
    ∧ (∀ (env : Env) (f : Faults) (b : Backend) (st : CustomerDashboard.State),
      f.dailyStatisticsSelect = none →
      (b.daily_statistics.map (fun r => r.stat_date)).Nodup →
      ((CustomerDashboard.handleCompleteOrder env f b st).1.daily_statistics.map
        (fun r => r.stat_date)).Nodup
      ∧ ∀ c ∈ newCalls b (CustomerDashboard.handleCompleteOrder env f b st).1,
          c.fitsRead env.today (b.daily_statistics.any (fun r => r.stat_date == env.today)))
    ∧ (∀ (env : Env) (f : Faults) (b : Backend) (st : StaffDashboard.State),
      f.dailyStatisticsSelect = none →
      (b.daily_statistics.map (fun r => r.stat_date)).Nodup →
      ((StaffDashboard.handleCompleteOrder env f b st).1.daily_statistics.map
        (fun r => r.stat_date)).Nodup
      ∧ ∀ c ∈ newCalls b (StaffDashboard.handleCompleteOrder env f b st).1,
          c.fitsRead env.today (b.daily_statistics.any (fun r => r.stat_date == env.today)))
    ∧ (∀ (env : Env) (f : Faults) (b : Backend) (st : DashboardPage.State),
      f.dailyStatisticsSelect = none →
      (b.daily_statistics.map (fun r => r.stat_date)).Nodup →
      ((DashboardPage.handleCompleteOrder env f b st).1.daily_statistics.map
        (fun r => r.stat_date)).Nodup
      ∧ ∀ c ∈ newCalls b (DashboardPage.handleCompleteOrder env f b st).1,
          c.fitsRead env.today (b.daily_statistics.any (fun r => r.stat_date == env.today))) :=
  ⟨fun env f b amount hs hn => ⟨updateDailyStatistics_keeps_unique env f b amount hs hn,
      updateDailyStatistics_fits env f b amount hs hn⟩,
    fun env f b st hs hn => ⟨CustomerDashboard.customer_keeps_unique env f b st hs hn,
      CustomerDashboard.customer_fits env f b st hs⟩,
    fun env f b st hs hn => ⟨StaffDashboard.staff_keeps_unique env f b st hs hn,
      StaffDashboard.staff_fits env f b st hs hn⟩,
    fun env f b st hs hn => ⟨DashboardPage.page_keeps_unique env f b st hs hn,
      DashboardPage.page_fits env f b st hs hn⟩⟩

/-- A StaffDashboard completion of the example cart on the seeded store, which
has one row per date, leaves one row per date. -/
theorem C14_one_row_per_date_witness :
    ((StaffDashboard.handleCompleteOrder exampleEnv Faults.none seededBackend
        StaffDashboard.exampleState).1.daily_statistics.map (fun r => r.stat_date)).Nodup :=
  (C14_one_row_per_date.2.2.1 exampleEnv Faults.none seededBackend StaffDashboard.exampleState
    rfl (by simp [seededBackend])).1

/-! ## C15 -/

theorem filter_date_decomp (date : String) (pre post : List DailyStat) (cur : DailyStat)
    (hpre : ∀ r ∈ pre, r.stat_date ≠ date) (hcur : cur.stat_date = date)
    (hpost : ∀ r ∈ post, r.stat_date ≠ date) :
    (pre ++ cur :: post).filter (fun r => r.stat_date == date) = [cur] := by
  have h0 : ∀ l : List DailyStat, (∀ r ∈ l, r.stat_date ≠ date) →
      l.filter (fun r => r.stat_date == date) = [] := by
    intro l hl
    rw [List.filter_eq_nil_iff]
    intro r hr
    simpa using hl r hr
  rw [List.filter_append, h0 pre hpre, List.filter_cons, h0 post hpost]
  simp [hcur]

theorem map_date_decomp (date : String) (pre post : List DailyStat) (cur : DailyStat)
    (g : DailyStat → DailyStat)
    (hpre : ∀ r ∈ pre, r.stat_date ≠ date) (hcur : cur.stat_date = date)
    (hpost : ∀ r ∈ post, r.stat_date ≠ date) :
    (pre ++ cur :: post).map (fun x => if x.stat_date == date then g x else x)
      = pre ++ g cur :: post := by
  have h0 : ∀ l : List DailyStat, (∀ r ∈ l, r.stat_date ≠ date) →
      l.map (fun x => if x.stat_date == date then g x else x) = l := by
    intro l hl
    conv_rhs => rw [← List.map_id l]
    apply List.map_congr_left
    intro r hr
    simp [hl r hr]
  rw [List.map_append, List.map_cons, h0 pre hpre, h0 post hpost]
  simp [hcur]

theorem updateDailyStatisticsInterleaved_loses (envA envB : Env) (b : Backend)
    (amountA amountB : ℚ) (pre post : List DailyStat) (prior : DailyStat)
    (hday : envA.today = envB.today) (hb : b.daily_statistics = pre ++ prior :: post)
    (hpre : ∀ r ∈ pre, r.stat_date ≠ envB.today) (hcur : prior.stat_date = envB.today)
    (hpost : ∀ r ∈ post, r.stat_date ≠ envB.today) :
    (updateDailyStatisticsInterleaved envA envB b amountA amountB).daily_statistics.map
        DailyStat.aggregate
      = pre.map DailyStat.aggregate
          ++ ⟨envB.today, prior.total_revenue + amountB, prior.total_orders + 1⟩
            :: post.map DailyStat.aggregate := by
  have hfil : b.daily_statistics.filter (fun r => r.stat_date == envB.today) = [prior] := by
    rw [hb]; exact filter_date_decomp _ pre post prior hpre hcur hpost
  have hA : (b.selectDailyStatisticsSingle none envB.today).2.data = some prior :=
    Backend.selectDailyStatisticsSingle_data_one b _ prior hfil
  have hB : ((b.record (Call.selectDailyStatistics envB.today true)).selectDailyStatisticsSingle
      none envB.today).2.data = some prior :=
    Backend.selectDailyStatisticsSingle_data_one _ _ prior hfil
  unfold updateDailyStatisticsInterleaved
  simp only [hday, Backend.selectDailyStatisticsSingle_fst, hA, hB, updateDailyStatisticsWrite,
    Faults.none, Backend.updateDailyStatistics_daily_statistics, Backend.record_daily_statistics,
    hb]
  rw [map_date_decomp _ pre post prior _ hpre hcur hpost,
    map_date_decomp _ pre post _ _ hpre (by simpa [Backend.applyUpdate] using hcur) hpost]
  simp [DailyStat.aggregate, Backend.applyUpdate, hcur]

theorem unique_of_shape (rows : List DailyStat) (date : String) (pre post : List Aggregate)
    (cur : Aggregate) (h : rows.map DailyStat.aggregate = pre ++ cur :: post)
    (hpre : ∀ r ∈ pre, r.date ≠ date) (hpost : ∀ r ∈ post, r.date ≠ date) :
    (rows.filter (fun r => r.stat_date == date)).length ≤ 1 := by
  have h0 : ∀ l : List Aggregate, (∀ r ∈ l, r.date ≠ date) →
      l.filter (fun a => a.date == date) = [] := by
    intro l hl
    rw [List.filter_eq_nil_iff]
    intro a ha
    simpa using hl a ha
  rw [filter_date_length, h, List.filter_append, h0 pre hpre, List.filter_cons, h0 post hpost]
  split <;> simp

theorem aggregates_free (date : String) (l : List DailyStat)
    (h : ∀ r ∈ l, r.stat_date ≠ date) : ∀ a ∈ l.map DailyStat.aggregate, a.date ≠ date := by
  intro a ha
  obtain ⟨x, hx, rfl⟩ := List.mem_map.1 ha
  exact h x hx

theorem two_steps_in_sequence (date : String) (stepA stepB : Backend → Backend)
    (amountA amountB : ℚ)
    (hA : ∀ b : Backend, (b.daily_statistics.filter (fun r => r.stat_date == date)).length ≤ 1 →
      (stepA b).daily_statistics.map DailyStat.aggregate
        = recordOrderSpec date amountA (b.daily_statistics.map DailyStat.aggregate))
    (hB : ∀ b : Backend, (b.daily_statistics.filter (fun r => r.stat_date == date)).length ≤ 1 →
      (stepB b).daily_statistics.map DailyStat.aggregate
        = recordOrderSpec date amountB (b.daily_statistics.map DailyStat.aggregate))
    (b : Backend) (pre post : List DailyStat) (prior : DailyStat)
    (hb : b.daily_statistics = pre ++ prior :: post)
    (hpre : ∀ r ∈ pre, r.stat_date ≠ date) (hcur : prior.stat_date = date)
    (hpost : ∀ r ∈ post, r.stat_date ≠ date) :
    (stepB (stepA b)).daily_statistics.map DailyStat.aggregate
      = pre.map DailyStat.aggregate
          ++ ⟨date, prior.total_revenue + amountA + amountB, prior.total_orders + 2⟩
            :: post.map DailyStat.aggregate := by
  have hagg : b.daily_statistics.map DailyStat.aggregate
      = pre.map DailyStat.aggregate ++ prior.aggregate :: post.map DailyStat.aggregate := by
    rw [hb]; simp
  have hpre' := aggregates_free date pre hpre
  have hpost' := aggregates_free date post hpost
  have h1 := hA b (unique_of_shape _ date _ _ _ hagg hpre' hpost')
  rw [hagg, recordOrderSpec_present date amountA _ _ prior.aggregate hpre' hcur hpost'] at h1
  have h2 := hB (stepA b) (unique_of_shape _ date _ _ _ h1 hpre' hpost')
  rw [h1, recordOrderSpec_present date amountB _ _ _ hpre' rfl hpost'] at h2
  rw [h2]
  congr 2
  simp only [DailyStat.aggregate, Aggregate.mk.injEq, true_and]
  ring

theorem CustomerDashboard.customer_completeInterleaved_loses (envA envB : Env) (b : Backend)
    (stA stB : CustomerDashboard.State) (pre post : List DailyStat) (prior : DailyStat)
    (hday : envA.today = envB.today) (hb : b.daily_statistics = pre ++ prior :: post)
    (hpre : ∀ r ∈ pre, r.stat_date ≠ envB.today) (hcur : prior.stat_date = envB.today)
    (hpost : ∀ r ∈ post, r.stat_date ≠ envB.today) :
    (completeInterleaved envA envB b stA stB).daily_statistics.map DailyStat.aggregate
      = pre.map DailyStat.aggregate
          ++ ⟨envB.today, prior.total_revenue + totalPrice stB.cart, prior.total_orders + 1⟩
            :: post.map DailyStat.aggregate := by
  have hfil : b.daily_statistics.filter (fun r => r.stat_date == envB.today) = [prior] := by
    rw [hb]; exact filter_date_decomp _ pre post prior hpre hcur hpost
  have hA : ((afterInserts envA b stA).selectDailyStatistics none envB.today).2.data
      = some [prior] := by
    rw [Backend.selectDailyStatistics_data]
    exact congrArg some hfil
  have hB : ((afterInserts envB ((afterInserts envA b stA).record
      (Call.selectDailyStatistics envB.today false)) stB).selectDailyStatistics
        none envB.today).2.data = some [prior] := by
    rw [Backend.selectDailyStatistics_data]
    exact congrArg some hfil
  unfold completeInterleaved
  simp only [hday, Backend.selectDailyStatistics_fst, hA, hB, writeStatistics,
    Faults.none, Backend.updateDailyStatistics_daily_statistics, Backend.record_daily_statistics]
  have hds : (afterInserts envB ((afterInserts envA b stA).record
      (Call.selectDailyStatistics envB.today false)) stB).daily_statistics
        = pre ++ prior :: post := hb
  rw [hds, map_date_decomp _ pre post prior _ hpre hcur hpost,
    map_date_decomp _ pre post _ _ hpre (by simpa [Backend.applyUpdate] using hcur) hpost]
  simp [DailyStat.aggregate, Backend.applyUpdate, hcur]

/-- C15. The statistics step is a read followed by a separate write:
`updateDailyStatistics` is its write half applied to what its read returned,
and so is the statistics step of a CustomerDashboard completion. When two
steps A and B for the same date, with amounts a and b, run on a store that has
one row for that date and both reads come before either write, the row ends
with revenue prior + b and orders prior + 1: the increment of A is lost. Run
one after the other, the same two steps end with revenue prior + a + b and
orders prior + 2. This holds for two `updateDailyStatistics` calls and for two
CustomerDashboard completions. -/
theorem C15_lost_update :
    (∀ (env : Env) (f : Faults) (b : Backend) (amount : ℚ),
      updateDailyStatistics env f b amount =
        updateDailyStatisticsWrite env f
          (b.selectDailyStatisticsSingle f.dailyStatisticsSelect env.today).1 amount
          (b.selectDailyStatisticsSingle f.dailyStatisticsSelect env.today).2.data)
    ∧ (∀ (env : Env) (b : Backend) (st : CustomerDashboard.State), st.cart ≠ [] →
      (CustomerDashboard.handleCompleteOrder env Faults.none b st).1 =
        (CustomerDashboard.writeStatistics env Faults.none
          ((CustomerDashboard.afterInserts env b st).selectDailyStatistics none env.today).1 st
          ((CustomerDashboard.afterInserts env b st).selectDailyStatistics
            none env.today).2.data).1)
    ∧ (∀ (envA envB : Env) (b : Backend) (amountA amountB : ℚ) (pre post : List DailyStat)
      (prior : DailyStat), envA.today = envB.today →
      b.daily_statistics = pre ++ prior :: post →
      (∀ r ∈ pre, r.stat_date ≠ envB.today) → prior.stat_date = envB.today →
      (∀ r ∈ post, r.stat_date ≠ envB.today) →
      (updateDailyStatisticsInterleaved envA envB b amountA amountB).daily_statistics.map
          DailyStat.aggregate
        = pre.map DailyStat.aggregate
            ++ ⟨envB.today, prior.total_revenue + amountB, prior.total_orders + 1⟩
              :: post.map DailyStat.aggregate
      ∧ (recordOrders [(envA, amountA), (envB, amountB)] b).daily_statistics.map
          DailyStat.aggregate
        = pre.map DailyStat.aggregate
            ++ ⟨envB.today, prior.total_revenue + amountA + amountB, prior.total_orders + 2⟩
              :: post.map DailyStat.aggregate)
    ∧ (∀ (envA envB : Env) (b : Backend) (stA stB : CustomerDashboard.State)
      (pre post : List DailyStat) (prior : DailyStat), envA.today = envB.today →
      stA.cart ≠ [] → stB.cart ≠ [] →
      b.daily_statistics = pre ++ prior :: post →
      (∀ r ∈ pre, r.stat_date ≠ envB.today) → prior.stat_date = envB.today →
      (∀ r ∈ post, r.stat_date ≠ envB.today) →
      (CustomerDashboard.completeInterleaved envA envB b stA stB).daily_statistics.map
          DailyStat.aggregate
        = pre.map DailyStat.aggregate
            ++ ⟨envB.today, prior.total_revenue + CustomerDashboard.totalPrice stB.cart,
                prior.total_orders + 1⟩ :: post.map DailyStat.aggregate
      ∧ (CustomerDashboard.completeAll [(envA, stA), (envB, stB)] b).daily_statistics.map
          DailyStat.aggregate
        = pre.map DailyStat.aggregate
            ++ ⟨envB.today, prior.total_revenue + CustomerDashboard.totalPrice stA.cart
                  + CustomerDashboard.totalPrice stB.cart, prior.total_orders + 2⟩
              :: post.map DailyStat.aggregate) := by
  refine ⟨updateDailyStatistics_eq_read_write,
    fun env b st hne => (CustomerDashboard.customer_reaches_write env Faults.none b st hne rfl rfl
      (fun e he => by cases he)).trans rfl,
    fun envA envB b amountA amountB pre post prior hday hb hpre hcur hpost => ⟨?_, ?_⟩,
    fun envA envB b stA stB pre post prior hday hA hB hb hpre hcur hpost => ⟨?_, ?_⟩⟩
  · exact updateDailyStatisticsInterleaved_loses envA envB b amountA amountB pre post prior
      hday hb hpre hcur hpost
  · exact two_steps_in_sequence envB.today
      (fun b => updateDailyStatistics envA Faults.none b amountA)
      (fun b => updateDailyStatistics envB Faults.none b amountB) amountA amountB
      (fun b hu => by
        have := updateDailyStatistics_aggregate envA Faults.none b amountA rfl rfl
          (by rw [hday]; exact hu)
        rw [hday] at this
        exact this)
      (fun b hu => updateDailyStatistics_aggregate envB Faults.none b amountB rfl rfl hu)
      b pre post prior hb hpre hcur hpost
  · exact CustomerDashboard.customer_completeInterleaved_loses envA envB b stA stB pre post prior
      hday hb hpre hcur hpost
  · exact two_steps_in_sequence envB.today
      (fun b => (CustomerDashboard.handleCompleteOrder envA Faults.none b stA).1)
      (fun b => (CustomerDashboard.handleCompleteOrder envB Faults.none b stB).1)
      (CustomerDashboard.totalPrice stA.cart) (CustomerDashboard.totalPrice stB.cart)
      (fun b _ => by
        have := CustomerDashboard.customer_aggregate envA Faults.none b stA hA rfl rfl rfl rfl
        rw [hday] at this
        exact this)
      (fun b _ => CustomerDashboard.customer_aggregate envB Faults.none b stB hB rfl rfl rfl rfl)
      b pre post prior hb hpre hcur hpost

/-- On the seeded store, whose row for 2025-01-14 has revenue 5.50 and 1 order,
two `updateDailyStatistics` calls with amounts 10 and 5 that both read before
either writes leave revenue 5.50 + 5 and 2 orders; one after the other they
leave revenue 5.50 + 10 + 5 and 3 orders. -/
theorem C15_lost_update_witness :
    (updateDailyStatisticsInterleaved { exampleEnv with today := "2025-01-14" }
        { exampleEnv with today := "2025-01-14" } seededBackend 10 5).daily_statistics.map
          DailyStat.aggregate
        = [⟨"2025-01-14", 11 / 2 + 5, 1 + 1⟩]
    ∧ (recordOrders [({ exampleEnv with today := "2025-01-14" }, 10),
        ({ exampleEnv with today := "2025-01-14" }, 5)] seededBackend).daily_statistics.map
          DailyStat.aggregate
        = [⟨"2025-01-14", 11 / 2 + 10 + 5, 1 + 2⟩] :=
  C15_lost_update.2.2.1 { exampleEnv with today := "2025-01-14" }
    { exampleEnv with today := "2025-01-14" } seededBackend 10 5 [] []
    ⟨"2025-01-14", 11 / 2, 1, 1, 0, none⟩ rfl rfl (by simp) rfl (by simp)

/-! ## C26 -/

theorem map_if_filter_ne {α : Type} (ident : α → Nat) (x : Nat) (g : α → α)
    (hg : ∀ a, ident (g a) = ident a) (l : List α) :
    (l.map (fun a => if ident a == x then g a else a)).filter (fun a => ident a != x)
      = l.filter (fun a => ident a != x) := by
  induction l with
  | nil => rfl
  | cons a as ih =>
    by_cases ha : ident a = x
    · simp [List.filter_cons, ha, hg a, ih]
      simpa [ha] using ih
    · simp [List.filter_cons, ha, ih]
      simpa using ih

theorem map_if_map_ident {α : Type} (ident : α → Nat) (x : Nat) (g : α → α)
    (hg : ∀ a, ident (g a) = ident a) (l : List α) :
    (l.map (fun a => if ident a == x then g a else a)).map ident = l.map ident := by
  induction l with
  | nil => rfl
  | cons a as ih =>
    by_cases ha : ident a = x
    · simpa [ha, hg a] using ih
    · simpa [ha] using ih

namespace CustomerDashboard

theorem customer_add_frame (cart : List CartLine) (item : MenuItem) :
    (handleAddToCart cart item).filter (fun l => l.id != item.id)
      = cart.filter (fun l => l.id != item.id) := by
  unfold handleAddToCart
  split
  · exact map_if_filter_ne (fun c : CartLine => c.id) item.id
      (fun cartItem => { cartItem with
          quantity := cartItem.quantity + 1
          subtotal := ((cartItem.quantity + 1 : Int) : ℚ) * item.price }) (fun _ => rfl) cart
  · simp [List.filter_append]

theorem customer_add_ids (cart : List CartLine) (item : MenuItem)
    (h : ∃ l ∈ cart, l.id = item.id) :
    (handleAddToCart cart item).map (fun l => l.id) = cart.map (fun l => l.id) := by
  unfold handleAddToCart
  split
  · exact map_if_map_ident (fun c : CartLine => c.id) item.id
      (fun cartItem => { cartItem with
          quantity := cartItem.quantity + 1
          subtotal := ((cartItem.quantity + 1 : Int) : ℚ) * item.price }) (fun _ => rfl) cart
  · rename_i hnone
    obtain ⟨l, hl, hid⟩ := h
    have := List.find?_eq_none.1 hnone l hl
    simp [hid] at this

theorem customer_add_appends (cart : List CartLine) (item : MenuItem)
    (h : ∀ l ∈ cart, l.id ≠ item.id) :
    handleAddToCart cart item
      = cart ++ [⟨item.id, item.name, item.emoji, item.price, 1, item.price⟩] := by
  have hnone : cart.find? (fun cartItem => cartItem.id == item.id) = none := by
    simpa [List.find?_eq_none] using h
  simp [handleAddToCart, hnone]

theorem customer_update_frame (cart : List CartLine) (itemId : Nat) (q : Int) :
    (handleUpdateQuantity cart itemId q).filter (fun l => l.id != itemId)
      = cart.filter (fun l => l.id != itemId) := by
  unfold handleUpdateQuantity
  split
  · simp [List.filter_filter]
  · exact map_if_filter_ne (fun c : CartLine => c.id) itemId
      (fun cartItem => { cartItem with
          quantity := q
          subtotal := (q : ℚ) * cartItem.price }) (fun _ => rfl) cart

theorem customer_update_ids (cart : List CartLine) (itemId : Nat) (q : Int) (hq : 0 < q) :
    (handleUpdateQuantity cart itemId q).map (fun l => l.id) = cart.map (fun l => l.id) := by
  unfold handleUpdateQuantity
  rw [if_neg (not_le.2 hq)]
  exact map_if_map_ident (fun c : CartLine => c.id) itemId
      (fun cartItem => { cartItem with
          quantity := q
          subtotal := (q : ℚ) * cartItem.price }) (fun _ => rfl) cart

theorem customer_remove_frame (cart : List CartLine) (itemId : Nat) :
    (handleRemoveFromCart cart itemId).filter (fun l => l.id != itemId)
      = cart.filter (fun l => l.id != itemId) := by
  simp [handleRemoveFromCart, List.filter_filter]

end CustomerDashboard

namespace StaffDashboard

theorem staff_add_frame (cart : List CartItem) (item : MenuItem) :
    (handleAddToCart cart item).filter (fun l => l.id != item.id)
      = cart.filter (fun l => l.id != item.id) := by
  unfold handleAddToCart
  split
  · exact map_if_filter_ne (fun c : CartItem => c.id) item.id
      (fun cartItem => { cartItem with quantity := cartItem.quantity + 1 }) (fun _ => rfl) cart
  · simp [List.filter_append]

theorem staff_add_ids (cart : List CartItem) (item : MenuItem)
    (h : ∃ l ∈ cart, l.id = item.id) :
    (handleAddToCart cart item).map (fun l => l.id) = cart.map (fun l => l.id) := by
  unfold handleAddToCart
  split
  · exact map_if_map_ident (fun c : CartItem => c.id) item.id
      (fun cartItem => { cartItem with quantity := cartItem.quantity + 1 }) (fun _ => rfl) cart
  · rename_i hnone
    obtain ⟨l, hl, hid⟩ := h
    have := List.find?_eq_none.1 hnone l hl
    simp [hid] at this

theorem staff_add_appends (cart : List CartItem) (item : MenuItem)
    (h : ∀ l ∈ cart, l.id ≠ item.id) :
    handleAddToCart cart item = cart ++ [{ toMenuItem := item, quantity := 1 }] := by
  have hnone : cart.find? (fun cartItem => cartItem.id == item.id) = none := by
    simpa [List.find?_eq_none] using h
  simp [handleAddToCart, hnone]

theorem staff_update_frame (cart : List CartItem) (itemId : Nat) (q : Int) :
    (handleUpdateQuantity cart itemId q).filter (fun l => l.id != itemId)
      = cart.filter (fun l => l.id != itemId) := by
  unfold handleUpdateQuantity
  split
  · simp [handleRemoveItem, List.filter_filter]
  · exact map_if_filter_ne (fun c : CartItem => c.id) itemId
      (fun item => { item with quantity := q }) (fun _ => rfl) cart

theorem staff_update_ids (cart : List CartItem) (itemId : Nat) (q : Int) (hq : 0 < q) :
    (handleUpdateQuantity cart itemId q).map (fun l => l.id) = cart.map (fun l => l.id) := by
  unfold handleUpdateQuantity
  rw [if_neg (not_le.2 hq)]
  exact map_if_map_ident (fun c : CartItem => c.id) itemId
      (fun item => { item with quantity := q }) (fun _ => rfl) cart

theorem staff_remove_frame (cart : List CartItem) (itemId : Nat) :
    (handleRemoveItem cart itemId).filter (fun l => l.id != itemId)
      = cart.filter (fun l => l.id != itemId) := by
  simp [handleRemoveItem, List.filter_filter]

end StaffDashboard

namespace DashboardPage

theorem page_add_frame (cart : List CartItem) (item : MenuItem) :
    (handleAddToCart cart item).filter (fun l => l.id != item.id)
      = cart.filter (fun l => l.id != item.id) := by
  unfold handleAddToCart
  split
  · exact map_if_filter_ne (fun c : CartItem => c.id) item.id
      (fun cartItem => { cartItem with quantity := cartItem.quantity + 1 }) (fun _ => rfl) cart
  · simp [List.filter_append]

theorem page_add_ids (cart : List CartItem) (item : MenuItem)
    (h : ∃ l ∈ cart, l.id = item.id) :
    (handleAddToCart cart item).map (fun l => l.id) = cart.map (fun l => l.id) := by
  unfold handleAddToCart
  split
  · exact map_if_map_ident (fun c : CartItem => c.id) item.id
      (fun cartItem => { cartItem with quantity := cartItem.quantity + 1 }) (fun _ => rfl) cart
  · rename_i hnone
    obtain ⟨l, hl, hid⟩ := h
    have := List.find?_eq_none.1 hnone l hl
    simp [hid] at this

theorem page_add_appends (cart : List CartItem) (item : MenuItem)
    (h : ∀ l ∈ cart, l.id ≠ item.id) :
    handleAddToCart cart item = cart ++ [{ toMenuItem := item, quantity := 1 }] := by
  have hnone : cart.find? (fun cartItem => cartItem.id == item.id) = none := by
    simpa [List.find?_eq_none] using h
  simp [handleAddToCart, hnone]

theorem page_update_frame (cart : List CartItem) (itemId : Nat) (q : Int) :
    (handleUpdateQuantity cart itemId q).filter (fun l => l.id != itemId)
      = cart.filter (fun l => l.id != itemId) := by
  unfold handleUpdateQuantity
  split
  · simp [handleRemoveItem, List.filter_filter]
  · exact map_if_filter_ne (fun c : CartItem => c.id) itemId
      (fun item => { item with quantity := q }) (fun _ => rfl) cart

theorem page_update_ids (cart : List CartItem) (itemId : Nat) (q : Int) (hq : 0 < q) :
    (handleUpdateQuantity cart itemId q).map (fun l => l.id) = cart.map (fun l => l.id) := by
  unfold handleUpdateQuantity
  rw [if_neg (not_le.2 hq)]
  exact map_if_map_ident (fun c : CartItem => c.id) itemId
      (fun item => { item with quantity := q }) (fun _ => rfl) cart

theorem page_remove_frame (cart : List CartItem) (itemId : Nat) :
    (handleRemoveItem cart itemId).filter (fun l => l.id != itemId)
      = cart.filter (fun l => l.id != itemId) := by
  simp [handleRemoveItem, List.filter_filter]

end DashboardPage

/-- C26: frame of the cart handlers, in the three dashboards. For every cart,
item and id `x`: after `handleAddToCart` (for `x = item.id`),
`handleUpdateQuantity` and the remove handler, the lines whose id differs from
`x` are the same lines in the same order as before (the cart filtered to the
other ids is unchanged). Adding an item whose id no line has appends its line at
the end. Adding an item that has a line, and setting a positive quantity, keep
the sequence of ids of the cart, so every line keeps its position. -/
theorem C26_cart_frame (cart : List CustomerDashboard.CartLine) (cartItems : List CartItem)
    (item : MenuItem) (x : Nat) (q : Int) :
    ((CustomerDashboard.handleAddToCart cart item).filter (fun l => l.id != item.id)
        = cart.filter (fun l => l.id != item.id)
      ∧ (CustomerDashboard.handleUpdateQuantity cart x q).filter (fun l => l.id != x)
        = cart.filter (fun l => l.id != x)
      ∧ (CustomerDashboard.handleRemoveFromCart cart x).filter (fun l => l.id != x)
        = cart.filter (fun l => l.id != x))
    ∧ ((StaffDashboard.handleAddToCart cartItems item).filter (fun l => l.id != item.id)
        = cartItems.filter (fun l => l.id != item.id)
      ∧ (StaffDashboard.handleUpdateQuantity cartItems x q).filter (fun l => l.id != x)
        = cartItems.filter (fun l => l.id != x)
      ∧ (StaffDashboard.handleRemoveItem cartItems x).filter (fun l => l.id != x)
        = cartItems.filter (fun l => l.id != x))
    ∧ ((DashboardPage.handleAddToCart cartItems item).filter (fun l => l.id != item.id)
        = cartItems.filter (fun l => l.id != item.id)
      ∧ (DashboardPage.handleUpdateQuantity cartItems x q).filter (fun l => l.id != x)
        = cartItems.filter (fun l => l.id != x)
      ∧ (DashboardPage.handleRemoveItem cartItems x).filter (fun l => l.id != x)
        = cartItems.filter (fun l => l.id != x))
    ∧ ((∀ l ∈ cart, l.id ≠ item.id) →
        CustomerDashboard.handleAddToCart cart item
          = cart ++ [⟨item.id, item.name, item.emoji, item.price, 1, item.price⟩])
    ∧ ((∀ l ∈ cartItems, l.id ≠ item.id) →
        StaffDashboard.handleAddToCart cartItems item
            = cartItems ++ [{ toMenuItem := item, quantity := 1 }]
          ∧ DashboardPage.handleAddToCart cartItems item
            = cartItems ++ [{ toMenuItem := item, quantity := 1 }])
    ∧ ((∃ l ∈ cart, l.id = item.id) →
        (CustomerDashboard.handleAddToCart cart item).map (fun l => l.id)
          = cart.map (fun l => l.id))
    ∧ ((∃ l ∈ cartItems, l.id = item.id) →
        (StaffDashboard.handleAddToCart cartItems item).map (fun l => l.id)
            = cartItems.map (fun l => l.id)
          ∧ (DashboardPage.handleAddToCart cartItems item).map (fun l => l.id)
            = cartItems.map (fun l => l.id))
    ∧ (0 < q →
        (CustomerDashboard.handleUpdateQuantity cart x q).map (fun l => l.id)
            = cart.map (fun l => l.id)
          ∧ (StaffDashboard.handleUpdateQuantity cartItems x q).map (fun l => l.id)
            = cartItems.map (fun l => l.id)
          ∧ (DashboardPage.handleUpdateQuantity cartItems x q).map (fun l => l.id)
            = cartItems.map (fun l => l.id)) :=
  ⟨⟨CustomerDashboard.customer_add_frame cart item,
      CustomerDashboard.customer_update_frame cart x q,
      CustomerDashboard.customer_remove_frame cart x⟩,
    ⟨StaffDashboard.staff_add_frame cartItems item,
      StaffDashboard.staff_update_frame cartItems x q,
      StaffDashboard.staff_remove_frame cartItems x⟩,
    ⟨DashboardPage.page_add_frame cartItems item,
      DashboardPage.page_update_frame cartItems x q,
      DashboardPage.page_remove_frame cartItems x⟩,
    CustomerDashboard.customer_add_appends cart item,
    fun h => ⟨StaffDashboard.staff_add_appends cartItems item h,
      DashboardPage.page_add_appends cartItems item h⟩,
    CustomerDashboard.customer_add_ids cart item,
    fun h => ⟨StaffDashboard.staff_add_ids cartItems item h,
      DashboardPage.page_add_ids cartItems item h⟩,
    fun hq => ⟨CustomerDashboard.customer_update_ids cart x q hq,
      StaffDashboard.staff_update_ids cartItems x q hq,
      DashboardPage.page_update_ids cartItems x q hq⟩⟩

/-- In the example carts (latte, muffin): setting the latte to quantity 5 keeps
the ids in the order 1, 2 and leaves the muffin line as it was; adding an item
with the new id 3 puts its line last. -/
theorem C26_cart_frame_witness :
    (0 : Int) < 5
    ∧ (CustomerDashboard.handleUpdateQuantity CustomerDashboard.exampleState.cart 1 5).map
        (fun l => l.id) = [1, 2]
    ∧ (StaffDashboard.handleUpdateQuantity StaffDashboard.exampleState.cartItems 1 5).filter
        (fun l => l.id != 1) = [{ toMenuItem := muffin, quantity := 1 }]
    ∧ DashboardPage.handleAddToCart DashboardPage.exampleState.cartItems { latte with id := 3 }
        = DashboardPage.exampleState.cartItems
          ++ [{ toMenuItem := { latte with id := 3 }, quantity := 1 }] :=
  ⟨by decide,
    ((C26_cart_frame CustomerDashboard.exampleState.cart StaffDashboard.exampleState.cartItems
      { latte with id := 3 } 1 5).2.2.2.2.2.2.2 (by decide)).1,
    (C26_cart_frame CustomerDashboard.exampleState.cart StaffDashboard.exampleState.cartItems
      { latte with id := 3 } 1 5).2.1.2.1,
    ((C26_cart_frame CustomerDashboard.exampleState.cart DashboardPage.exampleState.cartItems
      { latte with id := 3 } 1 5).2.2.2.2.1 (by
        intro l hl
        simp [DashboardPage.exampleState, latte, muffin] at hl
        rcases hl with rfl | rfl <;> decide)).2⟩

/-! ## C29 -/

theorem createTransaction_calls_of_ids (env : Env) (f : Faults) (b : Backend) (t : Transaction)
    (h : t.items.filter (fun item => item.id != 0) ≠ []) :
    ∃ cs, (createTransaction env f b t).1.calls
      = b.calls ++ .insertTransactions (createTransactionRow env t) :: cs := by
  cases h1 : f.transactionsInsert with
  | some e =>
    rw [createTransaction_orderInsert_fails env f b t h e h1]
    exact ⟨[], by simp [Backend.record]⟩
  | none =>
    cases h2 : f.transactionItemsInsert with
    | some e =>
      rw [createTransaction_orderLinesInsert_fails env f b t h e h1 h2]
      exact ⟨_, rfl⟩
    | none =>
      rw [createTransaction_to_the_end env f b t h h1 h2]
      obtain ⟨⟨c, -, hc⟩, -⟩ :=
        updateDailyStatistics_spec env f (createTransactionInserted env b t) t.total
      exact ⟨[.insertTransactionItems (createTransactionLines b.nextId t.items),
        .selectDailyStatistics env.today true, c], by rw [hc]; simp [createTransactionInserted]⟩

theorem filter_truthy_eq_nil (items : List CartItem) :
    items.filter (fun item => item.id != 0) = [] ↔ ∀ item ∈ items, item.id = 0 := by
  simp [List.filter_eq_nil_iff]

/-- C29: `createTransaction` throws "Invalid items: missing menu item IDs" with no
collaborator call issued and nothing written (the backend, its call log
included, is the one passed in) if and only if no item of `transaction.items`
has a truthy (non-zero) id. When some item has a truthy id, the Order insert is
issued, so the call log grows. In particular the empty item list is rejected
with that error and nothing is written. -/
theorem C29_missing_ids_guard (env : Env) (f : Faults) (b : Backend) (transaction : Transaction) :
    (createTransaction env f b transaction = (b, .error missingIdsError)
        ↔ ∀ item ∈ transaction.items, item.id = 0)
    ∧ (((createTransaction env f b transaction).2 = .error missingIdsError
          ∧ newCalls b (createTransaction env f b transaction).1 = [])
        ↔ ∀ item ∈ transaction.items, item.id = 0)
    ∧ ((∃ item ∈ transaction.items, item.id ≠ 0) →
        ∃ cs, newCalls b (createTransaction env f b transaction).1
          = .insertTransactions (createTransactionRow env transaction) :: cs)
    ∧ createTransaction env f b { transaction with items := [] } = (b, .error missingIdsError)
    ∧ missingIdsError.message = "Invalid items: missing menu item IDs" := by
  have hcalls : (∃ item ∈ transaction.items, item.id ≠ 0) →
      ∃ cs, newCalls b (createTransaction env f b transaction).1
        = .insertTransactions (createTransactionRow env transaction) :: cs := by
    intro hex
    have hne : transaction.items.filter (fun item => item.id != 0) ≠ [] := by
      intro h0
      obtain ⟨item, hm, hid⟩ := hex
      exact hid ((filter_truthy_eq_nil _).1 h0 item hm)
    obtain ⟨cs, hc⟩ := createTransaction_calls_of_ids env f b transaction hne
    exact ⟨cs, newCalls_append _ _ _ hc⟩
  have hback : (∀ item ∈ transaction.items, item.id = 0) →
      createTransaction env f b transaction = (b, .error missingIdsError) := fun hall =>
    createTransaction_no_ids env f b transaction ((filter_truthy_eq_nil _).2 hall)
  have hforw : newCalls b (createTransaction env f b transaction).1 = [] →
      ∀ item ∈ transaction.items, item.id = 0 := by
    intro hnil
    by_contra hall
    push_neg at hall
    obtain ⟨cs, hc⟩ := hcalls hall
    rw [hnil] at hc
    exact List.noConfusion hc
  refine ⟨⟨fun h => hforw ?_, hback⟩, ⟨fun h => hforw h.2, fun hall => ?_⟩, hcalls, ?_, rfl⟩
  · rw [h]; simp [newCalls]
  · rw [hback hall]; exact ⟨rfl, by simp [newCalls]⟩
  · exact createTransaction_no_ids env f b _ rfl

/-! ## The Order record of a completion -/

theorem CustomerDashboard.customer_order_rows (env : Env) (f : Faults) (b : Backend)
    (st : CustomerDashboard.State) :
    ∀ row ∈ orderInserts (newCalls b (handleCompleteOrder env f b st).1), row = orderRow env st := by
  by_cases hne : st.cart = []
  · rw [customer_complete_empty env f b st hne]
    simp [newCalls, orderInserts]
  · rw [(customer_order_and_lines env f b st hne).1]
    simp

theorem StaffDashboard.staff_order_rows (env : Env) (f : Faults) (b : Backend)
    (st : StaffDashboard.State) :
    ∀ row ∈ orderInserts (newCalls b (handleCompleteOrder env f b st).1), row = orderRow env st := by
  by_cases hne : st.cartItems = []
  · rw [staff_complete_empty env f b st hne]
    simp [newCalls, orderInserts]
  · rw [(staff_order_and_lines env f b st hne).1]
    simp

theorem DashboardPage.page_order_rows (env : Env) (f : Faults) (b : Backend)
    (st : DashboardPage.State) :
    ∀ row ∈ orderInserts (newCalls b (handleCompleteOrder env f b st).1),
      row = createTransactionRow env (transactionOf st) := by
  by_cases hne : st.cartItems = []
  · rw [page_complete_empty env f b st hne]
    simp [newCalls, orderInserts]
  · by_cases h : st.cartItems.filter (fun item => item.id != 0) = []
    · rw [page_complete_no_ids env f b st hne h]
      simp [newCalls, orderInserts]
    · rw [(page_order_and_lines env f b st h).1]
      simp

/-! ## C21 -/

theorem customer_radios_keep (st : CustomerDashboard.State) (values : List String)
    (h0 : st.selectedPayment ∈ CustomerDashboard.paymentRadios)
    (hv : ∀ v ∈ values, v ∈ CustomerDashboard.paymentRadios) :
    (values.foldl CustomerDashboard.onChangePayment st).selectedPayment
      ∈ CustomerDashboard.paymentRadios := by
  induction values generalizing st with
  | nil => exact h0
  | cons v vs ih =>
    exact ih (CustomerDashboard.onChangePayment st v) (hv v (List.mem_cons_self _ _))
      (fun w hw => hv w (List.mem_cons_of_mem _ hw))

/-- C21, as amended: every Order record a completion flow inserts has status
"completed", and its payment method is the selection of the dashboard:
`selectedPayment` itself in CustomerDashboard, its lower-cased form in
StaffDashboard, and through `createTransaction` (DashboardPage) its lower-cased
form, or no payment method at all when the selection is empty. In
CustomerDashboard the selection starts as "cash" and is only set to the value of
one of the two radio inputs, so the payment method is "cash" or "e-wallet". In
StaffDashboard and DashboardPage the selection is what `PaymentMethod` passes
for the clicked row of `payment_methods`, its lower-cased name: the payment
method is "cash" or "e-wallet" when that name lower-cases to one of the two. -/
theorem C21_status_and_payment (env : Env) (f : Faults) (b : Backend)
    (cst : CustomerDashboard.State) (sst : StaffDashboard.State) (pst : DashboardPage.State) :
    (∀ row ∈ orderInserts (newCalls b (CustomerDashboard.handleCompleteOrder env f b cst).1),
        row.status = "completed" ∧ row.payment_method = some cst.selectedPayment)
    ∧ (∀ row ∈ orderInserts (newCalls b (StaffDashboard.handleCompleteOrder env f b sst).1),
        row.status = "completed"
          ∧ row.payment_method = some (toLowerCase sst.selectedPayment))
    ∧ (∀ row ∈ orderInserts (newCalls b (DashboardPage.handleCompleteOrder env f b pst).1),
        row.status = "completed"
          ∧ row.payment_method =
            if pst.selectedPayment ≠ "" then some (toLowerCase pst.selectedPayment) else none)
    ∧ (∀ values : List String, cst.selectedPayment ∈ CustomerDashboard.paymentRadios →
        (∀ v ∈ values, v ∈ CustomerDashboard.paymentRadios) →
        ∀ row ∈ orderInserts (newCalls b (CustomerDashboard.handleCompleteOrder env f b
            (values.foldl CustomerDashboard.onChangePayment cst)).1),
          row.payment_method = some "cash" ∨ row.payment_method = some "e-wallet")
    ∧ (∀ name : String, toLowerCase name = "cash" ∨ toLowerCase name = "e-wallet" →
        (∀ row ∈ orderInserts (newCalls b (StaffDashboard.handleCompleteOrder env f b
            (StaffDashboard.handleSelectPayment sst (PaymentMethod.handleSelectPayment name))).1),
          row.payment_method = some (toLowerCase name))
        ∧ (∀ row ∈ orderInserts (newCalls b (DashboardPage.handleCompleteOrder env f b
            (DashboardPage.handleSelectPayment pst (PaymentMethod.handleSelectPayment name))).1),
          row.payment_method = some (toLowerCase name))) := by
  refine ⟨fun row hrow => ?_, fun row hrow => ?_, fun row hrow => ?_,
    fun values h0 hv row hrow => ?_, fun name hname => ⟨fun row hrow => ?_, fun row hrow => ?_⟩⟩
  · rw [CustomerDashboard.customer_order_rows env f b cst row hrow]
    exact ⟨rfl, rfl⟩
  · rw [StaffDashboard.staff_order_rows env f b sst row hrow]
    exact ⟨rfl, rfl⟩
  · rw [DashboardPage.page_order_rows env f b pst row hrow]
    exact ⟨rfl, rfl⟩
  · rw [CustomerDashboard.customer_order_rows env f b _ row hrow]
    have hk := customer_radios_keep cst values h0 hv
    simp only [CustomerDashboard.paymentRadios, List.mem_cons, List.mem_singleton,
      List.not_mem_nil, or_false] at hk
    rcases hk with hk | hk
    · exact Or.inl (by simp [CustomerDashboard.orderRow, hk])
    · exact Or.inr (by simp [CustomerDashboard.orderRow, hk])
  · rw [StaffDashboard.staff_order_rows env f b _ row hrow]
    simp only [StaffDashboard.orderRow, StaffDashboard.handleSelectPayment,
      PaymentMethod.handleSelectPayment]
    rcases hname with h | h <;> rw [h] <;> decide
  · rw [DashboardPage.page_order_rows env f b _ row hrow]
    simp only [createTransactionRow, DashboardPage.transactionOf,
      DashboardPage.handleSelectPayment, PaymentMethod.handleSelectPayment]
    rcases hname with h | h <;> rw [h] <;> decide

/-- In StaffDashboard, with the row "E-Wallet" of `payment_methods` clicked, the
completion of the example cart inserts one Order record, with status
"completed" and payment method "e-wallet". -/
theorem C21_status_and_payment_witness :
    (toLowerCase "E-Wallet" = "cash" ∨ toLowerCase "E-Wallet" = "e-wallet")
    ∧ (orderInserts (newCalls emptyBackend (StaffDashboard.handleCompleteOrder exampleEnv
          Faults.none emptyBackend (StaffDashboard.handleSelectPayment
            StaffDashboard.exampleState (PaymentMethod.handleSelectPayment "E-Wallet"))).1)).length
        = 1
    ∧ ∀ row ∈ orderInserts (newCalls emptyBackend (StaffDashboard.handleCompleteOrder exampleEnv
          Faults.none emptyBackend (StaffDashboard.handleSelectPayment
            StaffDashboard.exampleState (PaymentMethod.handleSelectPayment "E-Wallet"))).1),
        row.status = "completed" ∧ row.payment_method = some (toLowerCase "E-Wallet") :=
  ⟨Or.inr (by decide), rfl, fun row hrow =>
    ⟨((C21_status_and_payment exampleEnv Faults.none emptyBackend CustomerDashboard.exampleState
        (StaffDashboard.handleSelectPayment StaffDashboard.exampleState
          (PaymentMethod.handleSelectPayment "E-Wallet")) DashboardPage.exampleState).2.1
        row hrow).1,
      ((C21_status_and_payment exampleEnv Faults.none emptyBackend CustomerDashboard.exampleState
        StaffDashboard.exampleState DashboardPage.exampleState).2.2.2.2 "E-Wallet"
        (Or.inr (by decide))).1 row hrow⟩⟩

/-- With a third row "Credit Card" in `payment_methods`: clicking it in
StaffDashboard and completing the example cart (every call succeeding) inserts
an Order record whose payment method is "credit card", neither "cash" nor
"e-wallet". -/
theorem C21_counterexample :
    (∃ method ∈ examplePaymentMethods, method.name = "Credit Card")
    ∧ (orderInserts (newCalls emptyBackend (StaffDashboard.handleCompleteOrder exampleEnv
          Faults.none emptyBackend (StaffDashboard.handleSelectPayment
            StaffDashboard.exampleState
            (PaymentMethod.handleSelectPayment "Credit Card"))).1)).map
        (fun row => (row.status, row.payment_method)) = [("completed", some "credit card")]
    ∧ (some "credit card" : Option String) ≠ some "cash"
    ∧ (some "credit card" : Option String) ≠ some "e-wallet" := by
  refine ⟨⟨⟨3, "Credit Card", "Visa or Mastercard", "💳", true⟩, by simp [examplePaymentMethods],
    rfl⟩, ?_, by decide, by decide⟩
  have h := (StaffDashboard.staff_order_and_lines exampleEnv Faults.none emptyBackend
    (StaffDashboard.handleSelectPayment StaffDashboard.exampleState
      (PaymentMethod.handleSelectPayment "Credit Card")) (by
        simp [StaffDashboard.handleSelectPayment, StaffDashboard.exampleState])).1
  rw [h]
  simp only [List.map_cons, List.map_nil, StaffDashboard.orderRow,
    StaffDashboard.handleSelectPayment, PaymentMethod.handleSelectPayment]
  decide

/-! ## C22 -/

/-- C22: the Order record inserted by CustomerDashboard and by StaffDashboard
carries `user.id` of the signed-in user as `user_id`. The object
`createTransaction` inserts for DashboardPage has no `user_id`: completing the
example cart there, every call succeeding, inserts one Order record without an
owning user id. -/
theorem C22_owning_user (env : Env) (f : Faults) (b : Backend)
    (cst : CustomerDashboard.State) (sst : StaffDashboard.State) (pst : DashboardPage.State) :
    (∀ row ∈ orderInserts (newCalls b (CustomerDashboard.handleCompleteOrder env f b cst).1),
        row.user_id = some cst.user_id)
    ∧ (∀ row ∈ orderInserts (newCalls b (StaffDashboard.handleCompleteOrder env f b sst).1),
        row.user_id = some sst.user_id)
    ∧ (∀ row ∈ orderInserts (newCalls b (DashboardPage.handleCompleteOrder env f b pst).1),
        row.user_id = none)
    ∧ (orderInserts (newCalls emptyBackend (DashboardPage.handleCompleteOrder exampleEnv
          Faults.none emptyBackend DashboardPage.exampleState).1)).map (fun row => row.user_id)
        = [none]
    ∧ (orderInserts (newCalls emptyBackend (StaffDashboard.handleCompleteOrder exampleEnv
          Faults.none emptyBackend StaffDashboard.exampleState).1)).map (fun row => row.user_id)
        = [some "u-2"] := by
  refine ⟨fun row hrow => ?_, fun row hrow => ?_, fun row hrow => ?_, ?_, ?_⟩
  · rw [CustomerDashboard.customer_order_rows env f b cst row hrow]; rfl
  · rw [StaffDashboard.staff_order_rows env f b sst row hrow]; rfl
  · rw [DashboardPage.page_order_rows env f b pst row hrow]; rfl
  · rw [(DashboardPage.page_order_and_lines exampleEnv Faults.none emptyBackend
      DashboardPage.exampleState (by decide)).1]
    rfl
  · rw [(StaffDashboard.staff_order_and_lines exampleEnv Faults.none emptyBackend
      StaffDashboard.exampleState (by simp [StaffDashboard.exampleState])).1]
    rfl

/-! ## C30 -/

theorem App.render_of_user (u : User) (authMode : AuthMode) (userRole : Option String) :
    App.render false (some u) authMode userRole =
      if userRole = none ∨ userRole = some "" then .roleSelection
      else if userRole = some "admin" then .adminDashboard u
      else if userRole = some "staff" then .staffDashboard u
      else if userRole = some "customer" then .customerDashboard u
      else .dashboardPage u := rfl

theorem App.render_admin_iff (loading : Bool) (user : Option User) (authMode : AuthMode)
    (userRole : Option String) (u : User) :
    App.render loading user authMode userRole = .adminDashboard u
      ↔ loading = false ∧ user = some u ∧ userRole = some "admin" := by
  constructor
  · intro h
    cases loading with
    | true => simp [App.render] at h
    | false =>
      cases user with
      | none => cases authMode <;> simp [App.render] at h
      | some v =>
        rw [App.render_of_user] at h
        split_ifs at h with h0 h1 h2 h3
        · simp at h
          exact ⟨rfl, by rw [h], h1⟩
  · rintro ⟨rfl, rfl, rfl⟩
    simp [App.render]

theorem App.render_staff_iff (loading : Bool) (user : Option User) (authMode : AuthMode)
    (userRole : Option String) (u : User) :
    App.render loading user authMode userRole = .staffDashboard u
      ↔ loading = false ∧ user = some u ∧ userRole = some "staff" := by
  constructor
  · intro h
    cases loading with
    | true => simp [App.render] at h
    | false =>
      cases user with
      | none => cases authMode <;> simp [App.render] at h
      | some v =>
        rw [App.render_of_user] at h
        split_ifs at h with h0 h1 h2 h3
        · simp at h
          exact ⟨rfl, by rw [h], h2⟩
  · rintro ⟨rfl, rfl, rfl⟩
    simp [App.render]

theorem App.render_customer_iff (loading : Bool) (user : Option User) (authMode : AuthMode)
    (userRole : Option String) (u : User) :
    App.render loading user authMode userRole = .customerDashboard u
      ↔ loading = false ∧ user = some u ∧ userRole = some "customer" := by
  constructor
  · intro h
    cases loading with
    | true => simp [App.render] at h
    | false =>
      cases user with
      | none => cases authMode <;> simp [App.render] at h
      | some v =>
        rw [App.render_of_user] at h
        split_ifs at h with h0 h1 h2 h3
        · simp at h
          exact ⟨rfl, by rw [h], h3⟩
  · rintro ⟨rfl, rfl, rfl⟩
    simp [App.render]

/-- C30, as amended: the screen `App` returns is the function `App.render` of
(loading, user, authMode, userRole). While loading is true it is the loading
placeholder, whatever the other three are. AdminDashboard is returned exactly
when loading is false, a user is signed in and the role is "admin";
StaffDashboard exactly when, in addition, the role is "staff";
CustomerDashboard exactly when it is "customer"; each receives the signed-in
user. When loading is false: with no user the sign-in form (authMode "signin")
or the sign-up form (authMode "signup") is returned, and with a user but no
role the role selection is returned. -/
theorem C30_screen_choice (loading : Bool) (user : Option User) (authMode : AuthMode)
    (userRole : Option String) (u : User) :
    (loading = true → App.render loading user authMode userRole = .loading)
    ∧ (App.render loading user authMode userRole = .adminDashboard u
        ↔ loading = false ∧ user = some u ∧ userRole = some "admin")
    ∧ (App.render loading user authMode userRole = .staffDashboard u
        ↔ loading = false ∧ user = some u ∧ userRole = some "staff")
    ∧ (App.render loading user authMode userRole = .customerDashboard u
        ↔ loading = false ∧ user = some u ∧ userRole = some "customer")
    ∧ (loading = false → user = none →
        App.render loading user authMode userRole
          = match authMode with
            | .signin => .signIn
            | .signup => .signUp)
    ∧ (loading = false → user = some u → (userRole = none ∨ userRole = some "") →
        App.render loading user authMode userRole = .roleSelection) := by
  refine ⟨?_, App.render_admin_iff loading user authMode userRole u,
    App.render_staff_iff loading user authMode userRole u,
    App.render_customer_iff loading user authMode userRole u, ?_, ?_⟩
  · rintro rfl; rfl
  · rintro rfl rfl; cases authMode <;> rfl
  · rintro rfl rfl h
    rw [App.render_of_user, if_pos h]

/-- After the auth listener has reported the user `exampleUser` (loading false)
and the role "staff" was chosen, `App` returns StaffDashboard for that user;
before a role is chosen it returns the role selection. -/
theorem C30_screen_choice_witness :
    App.render false (some exampleUser) .signin (some "staff") = .staffDashboard exampleUser
    ∧ App.render false (some exampleUser) .signin none = .roleSelection :=
  ⟨(C30_screen_choice false (some exampleUser) .signin (some "staff") exampleUser).2.2.1.2
      ⟨rfl, rfl, rfl⟩,
    (C30_screen_choice false (some exampleUser) .signin none exampleUser).2.2.2.2.2
      rfl rfl (Or.inl rfl)⟩

/-- On the first render (loading true, no user, authMode "signin", no role) `App`
returns the loading placeholder: with no user, neither the sign-in nor the
sign-up form is returned. -/
theorem C30_counterexample :
    ¬ (∀ (loading : Bool) (authMode : AuthMode) (userRole : Option String),
        App.render loading none authMode userRole = .signIn
          ∨ App.render loading none authMode userRole = .signUp)
    ∧ App.render true none .signin none = .loading := by
  refine ⟨fun h => ?_, rfl⟩
  rcases h true .signin none with h | h <;> simp [App.render] at h

/-! ## C23 -/

theorem CustomerDashboard.customer_fetch_ok (menu_items menuItems : List MenuItem) :
    fetchMenuItems none menu_items menuItems
      = menu_items.filter (fun item => item.is_active == true) := rfl

theorem CustomerDashboard.customer_fetch_fails (e : Err) (menu_items menuItems : List MenuItem) :
    fetchMenuItems (some e) menu_items menuItems = menuItems := rfl

theorem getMenuItems_ok (menu_items : List MenuItem) :
    getMenuItems none menu_items = menu_items.insertionSort (fun a b => a.id ≤ b.id) := rfl

theorem mem_getMenuItems (menu_items : List MenuItem) (item : MenuItem) :
    item ∈ getMenuItems none menu_items ↔ item ∈ menu_items := by
  rw [getMenuItems_ok]
  exact (List.perm_insertionSort _ menu_items).mem_iff

theorem getMenuItems_perm (menu_items : List MenuItem) :
    (getMenuItems none menu_items).Perm menu_items := by
  rw [getMenuItems_ok]
  exact List.perm_insertionSort _ menu_items

theorem getMenuItems_sorted (menu_items : List MenuItem) :
    (getMenuItems none menu_items).Pairwise (fun a b => a.id ≤ b.id) := by
  rw [getMenuItems_ok]
  haveI : IsTotal MenuItem (fun a b => a.id ≤ b.id) := ⟨fun a b => Nat.le_total a.id b.id⟩
  haveI : IsTrans MenuItem (fun a b => a.id ≤ b.id) := ⟨fun _ _ _ hab hbc => Nat.le_trans hab hbc⟩
  exact List.sorted_insertionSort (fun a b : MenuItem => a.id ≤ b.id) menu_items

theorem getMenuItems_fails (e : Err) (menu_items : List MenuItem) :
    getMenuItems (some e) menu_items = [] := rfl

theorem DashboardPage.page_fetch_nonempty (menu_items : List MenuItem) (hne : menu_items ≠ []) :
    fetchMenuItems none menu_items = getMenuItems none menu_items := by
  have hlen : (getMenuItems none menu_items).length > 0 := by
    rw [getMenuItems_ok, List.length_insertionSort]
    exact List.length_pos.2 hne
  simp only [fetchMenuItems, hlen, if_true]

/-- C23, as amended: for every content of `menu_items`. When its read succeeds,
`CustomerDashboard.fetchMenuItems` loads exactly the rows whose active flag is
true, in table order; when its read fails the menu stays as it was. So the menu
CustomerDashboard holds after the load on mount (from the empty menu), and after
a load from any menu of active items, contains active items only. `getMenuItems`
applies no filter: when its read succeeds it returns all rows of `menu_items`
(a rearrangement of the table, so active and inactive rows alike) in ascending
order of id, and when its read fails it returns the empty list. DashboardPage
offers the list `getMenuItems` returns when that list is non-empty, and its
built-in default items when the table is empty or the read fails. -/
theorem C23_customer_menu_is_active (fault : Option Err) (menu_items menuItems : List MenuItem) :
    CustomerDashboard.fetchMenuItems none menu_items menuItems
        = menu_items.filter (fun item => item.is_active == true)
    ∧ (∀ e, CustomerDashboard.fetchMenuItems (some e) menu_items menuItems = menuItems)
    ∧ (∀ item ∈ CustomerDashboard.fetchMenuItems fault menu_items [], item.is_active = true)
    ∧ ((∀ item ∈ menuItems, item.is_active = true) →
        ∀ item ∈ CustomerDashboard.fetchMenuItems fault menu_items menuItems,
          item.is_active = true)
    ∧ (getMenuItems none menu_items).Perm menu_items
    ∧ (∀ item, item ∈ getMenuItems none menu_items ↔ item ∈ menu_items)
    ∧ (getMenuItems none menu_items).Pairwise (fun a b => a.id ≤ b.id)
    ∧ (∀ e, getMenuItems (some e) menu_items = [])
    ∧ (menu_items ≠ [] →
        DashboardPage.fetchMenuItems none menu_items = getMenuItems none menu_items)
    ∧ (menu_items = [] →
        DashboardPage.fetchMenuItems none menu_items = DashboardPage.getDefaultMenuItems)
    ∧ (∀ e, DashboardPage.fetchMenuItems (some e) menu_items
        = DashboardPage.getDefaultMenuItems) := by
  have hc : ∀ l : List MenuItem, (∀ item ∈ l, item.is_active = true) →
      ∀ item ∈ CustomerDashboard.fetchMenuItems fault menu_items l, item.is_active = true := by
    intro l hl item hitem
    cases fault with
    | some e => exact hl item hitem
    | none =>
      rw [CustomerDashboard.customer_fetch_ok] at hitem
      simpa using (List.mem_filter.1 hitem).2
  refine ⟨rfl, fun e => rfl, hc [] (by simp), hc menuItems, getMenuItems_perm menu_items,
    mem_getMenuItems menu_items, getMenuItems_sorted menu_items, fun e => rfl,
    DashboardPage.page_fetch_nonempty menu_items, ?_, fun e => rfl⟩
  rintro rfl
  rfl

/-- On the table with an active latte and a deactivated muffin, CustomerDashboard
loads the latte only. -/
theorem C23_customer_menu_is_active_witness :
    (∀ item ∈ ([] : List MenuItem), item.is_active = true)
    ∧ CustomerDashboard.fetchMenuItems none exampleMenu [] = [latte]
    ∧ ∀ item ∈ CustomerDashboard.fetchMenuItems none exampleMenu [], item.is_active = true :=
  ⟨by simp,
    (C23_customer_menu_is_active none exampleMenu []).1.trans rfl,
    (C23_customer_menu_is_active none exampleMenu []).2.2.2.1 (by simp)⟩

/-- On the table with an active latte and a deactivated muffin, `getMenuItems`
returns both rows, and DashboardPage offers both: its menu holds an item whose
active flag is false. -/
theorem C23_counterexample :
    getMenuItems none exampleMenu = [latte, { muffin with is_active := false }]
    ∧ DashboardPage.fetchMenuItems none exampleMenu = [latte, { muffin with is_active := false }]
    ∧ ¬ (∀ item ∈ DashboardPage.fetchMenuItems none exampleMenu, item.is_active = true) := by
  have h1 : getMenuItems none exampleMenu = [latte, { muffin with is_active := false }] := rfl
  have h2 : DashboardPage.fetchMenuItems none exampleMenu
      = [latte, { muffin with is_active := false }] := by
    simp only [DashboardPage.fetchMenuItems, h1]
    rfl
  refine ⟨h1, h2, fun h => ?_⟩
  rw [h2] at h
  have := h { muffin with is_active := false } (by simp)
  simp at this

/-! ## C27 -/

theorem revenueOn_eq_aggregates (date : String) (rows : List DailyStat) :
    revenueOn date rows
      = (((rows.map DailyStat.aggregate).filter (fun a => a.date == date)).map
          (fun a => a.revenue)).sum := by
  unfold revenueOn
  rw [List.filter_map, List.map_map]
  rfl

theorem recordOrderSpec_revenue (date : String) (amount : ℚ) (store : List Aggregate)
    (huniq : (store.filter (fun a => a.date == date)).length ≤ 1) :
    (((recordOrderSpec date amount store).filter (fun a => a.date == date)).map
        (fun a => a.revenue)).sum
      = ((store.filter (fun a => a.date == date)).map (fun a => a.revenue)).sum + amount := by
  unfold recordOrderSpec
  cases hfil : store.filter (fun a => a.date == date) with
  | nil =>
    have hf : store.find? (fun r => r.date == date) = none := by
      rw [List.find?_eq_none]
      intro r hr
      exact (List.filter_eq_nil_iff.1 hfil) r hr
    rw [hf]
    simp [List.filter_append, hfil]
  | cons cur rest =>
    have hrest : rest = [] := by
      rw [hfil] at huniq
      simp only [List.length_cons] at huniq
      exact List.length_eq_zero.1 (by omega)
    subst hrest
    have hf : store.find? (fun r => r.date == date) = some cur := by
      have : store.find? (fun r => r.date == date)
          = (store.filter (fun r => r.date == date)).head? := by
        rw [List.filter_head?]
      rw [this, hfil]
      rfl
    rw [hf]
    simp only
    rw [List.filter_map]
    have hcomp : ((fun a : Aggregate => a.date == date) ∘ fun r : Aggregate =>
        if (r.date == date) = true then
          { r with revenue := cur.revenue + amount, orders := cur.orders + 1 } else r)
        = fun a => a.date == date := by
      funext r
      simp only [Function.comp]
      split <;> rfl
    rw [hcomp, hfil]
    have hcur : (cur.date == date) = true := by
      have : cur ∈ store.filter (fun a => a.date == date) := by rw [hfil]; simp
      exact (List.mem_filter.1 this).2
    have hcur2 : cur.date = date := by simpa using hcur
    simp [hcur2]

theorem revenueOn_of_recordOrder (date : String) (amount : ℚ) (before after : List DailyStat)
    (huniq : (before.filter (fun r => r.stat_date == date)).length ≤ 1)
    (h : after.map DailyStat.aggregate
      = recordOrderSpec date amount (before.map DailyStat.aggregate)) :
    revenueOn date after - revenueOn date before = amount := by
  rw [revenueOn_eq_aggregates, revenueOn_eq_aggregates, h,
    recordOrderSpec_revenue date amount _ (by rw [← filter_date_length]; exact huniq)]
  ring

theorem CustomerDashboard.customer_revenue_added (env : Env) (b : Backend)
    (st : CustomerDashboard.State) (hne : st.cart ≠ [])
    (huniq : (b.daily_statistics.filter (fun r => r.stat_date == env.today)).length ≤ 1) :
    revenueOn env.today (handleCompleteOrder env Faults.none b st).1.daily_statistics
      - revenueOn env.today b.daily_statistics = totalPrice st.cart :=
  revenueOn_of_recordOrder env.today _ _ _ huniq
    (customer_aggregate env Faults.none b st hne rfl rfl rfl rfl)

theorem StaffDashboard.staff_revenue_added (env : Env) (b : Backend)
    (st : StaffDashboard.State) (hne : st.cartItems ≠ [])
    (huniq : (b.daily_statistics.filter (fun r => r.stat_date == env.today)).length ≤ 1) :
    revenueOn env.today (handleCompleteOrder env Faults.none b st).1.daily_statistics
      - revenueOn env.today b.daily_statistics = orderTotal st.cartItems :=
  revenueOn_of_recordOrder env.today _ _ _ huniq
    (staff_aggregate env Faults.none b st hne rfl rfl rfl rfl huniq)

theorem DashboardPage.page_revenue_added (env : Env) (b : Backend)
    (st : DashboardPage.State) (h : st.cartItems.filter (fun item => item.id != 0) ≠ [])
    (huniq : (b.daily_statistics.filter (fun r => r.stat_date == env.today)).length ≤ 1) :
    revenueOn env.today (handleCompleteOrder env Faults.none b st).1.daily_statistics
      - revenueOn env.today b.daily_statistics = orderTotal st.cartItems :=
  revenueOn_of_recordOrder env.today _ _ _ huniq
    (page_aggregate env Faults.none b st h rfl rfl rfl rfl huniq)

/-- DashboardPage on the empty store, cart of two lines priced 1/256:
`total_amount` is 0.01 and today's revenue afterwards is 1/128 more than
before. -/
theorem DashboardPage.page_rounds_the_order_total_only :
    (orderInserts (newCalls emptyBackend (handleCompleteOrder exampleEnv
        Faults.none emptyBackend fractionState).1)).map (fun r => r.total_amount)
      = [1 / 100]
    ∧ revenueOn exampleEnv.today
          (handleCompleteOrder exampleEnv Faults.none emptyBackend
            fractionState).1.daily_statistics
        = revenueOn exampleEnv.today emptyBackend.daily_statistics + 1 / 128 := by
  have hne : fractionState.cartItems.filter (fun item => item.id != 0) ≠ [] := by
    simp [fractionState]
  have ht : orderTotal fractionState.cartItems = 1 / 128 := by
    simp [orderTotal, fractionState]
    norm_num
  have h1 : hundredths (1 / 128) = 1 := by
    apply hundredths_of_bounds <;> norm_num [abs_of_nonneg]
  have r1 : parseFloatToFixed (1 / 128) = 1 / 100 := by
    unfold parseFloatToFixed; rw [h1]; norm_num
  refine ⟨?_, ?_⟩
  · rw [(page_order_and_lines exampleEnv Faults.none emptyBackend fractionState hne).1]
    simp only [createTransactionRow, transactionOf, ht, r1, List.map_cons, List.map_nil]
  · have h := page_revenue_added exampleEnv emptyBackend fractionState hne (by decide)
    rw [ht] at h
    linarith

/-- C27: in a completion whose collaborator calls all succeed, on a store with at
most one `daily_statistics` row for today, the revenue held for today afterwards
is the revenue held before plus the `total_amount` of the one Order record
inserted, in CustomerDashboard and in StaffDashboard, for every non-empty cart.
In DashboardPage (cart with a line of non-zero id) `createTransaction` writes
the cart total rounded to two decimals as `total_amount` and passes the cart
total as computed to the statistics step, so the revenue afterwards is the
revenue before plus the unrounded total: for two lines priced 1/256 on the empty
store, `total_amount` is 0.01 and the revenue is 1/128. -/
theorem C27_revenue_added_is_order_total (env : Env) (b : Backend)
    (cst : CustomerDashboard.State) (sst : StaffDashboard.State) (pst : DashboardPage.State)
    (huniq : (b.daily_statistics.filter (fun r => r.stat_date == env.today)).length ≤ 1) :
    (cst.cart ≠ [] →
      ∃ row, orderInserts (newCalls b
          (CustomerDashboard.handleCompleteOrder env Faults.none b cst).1) = [row]
        ∧ revenueOn env.today
            (CustomerDashboard.handleCompleteOrder env Faults.none b cst).1.daily_statistics
          = revenueOn env.today b.daily_statistics + row.total_amount)
    ∧ (sst.cartItems ≠ [] →
      ∃ row, orderInserts (newCalls b
          (StaffDashboard.handleCompleteOrder env Faults.none b sst).1) = [row]
        ∧ revenueOn env.today
            (StaffDashboard.handleCompleteOrder env Faults.none b sst).1.daily_statistics
          = revenueOn env.today b.daily_statistics + row.total_amount)
    ∧ (pst.cartItems.filter (fun item => item.id != 0) ≠ [] →
      ∃ row, orderInserts (newCalls b
          (DashboardPage.handleCompleteOrder env Faults.none b pst).1) = [row]
        ∧ row.total_amount = parseFloatToFixed (DashboardPage.orderTotal pst.cartItems)
        ∧ revenueOn env.today
            (DashboardPage.handleCompleteOrder env Faults.none b pst).1.daily_statistics
          = revenueOn env.today b.daily_statistics + DashboardPage.orderTotal pst.cartItems)
    ∧ ((orderInserts (newCalls emptyBackend (DashboardPage.handleCompleteOrder exampleEnv
          Faults.none emptyBackend DashboardPage.fractionState).1)).map
            (fun r => r.total_amount) = [1 / 100]
      ∧ revenueOn exampleEnv.today
            (DashboardPage.handleCompleteOrder exampleEnv Faults.none emptyBackend
              DashboardPage.fractionState).1.daily_statistics
          = revenueOn exampleEnv.today emptyBackend.daily_statistics + 1 / 128) := by
  refine ⟨fun hne => ⟨_, (CustomerDashboard.customer_order_and_lines env _ b cst hne).1, ?_⟩,
    fun hne => ⟨_, (StaffDashboard.staff_order_and_lines env _ b sst hne).1, ?_⟩,
    fun h => ⟨_, (DashboardPage.page_order_and_lines env _ b pst h).1, rfl, ?_⟩,
    DashboardPage.page_rounds_the_order_total_only⟩
  · have h := CustomerDashboard.customer_revenue_added env b cst hne huniq
    simp only [CustomerDashboard.orderRow]
    linarith
  · have h := StaffDashboard.staff_revenue_added env b sst hne huniq
    simp only [StaffDashboard.orderRow]
    linarith
  · have h := DashboardPage.page_revenue_added env b pst h huniq
    linarith

/-- On the empty store the example cart of StaffDashboard (two lattes, one
muffin) is completed: one Order record is inserted, and today's revenue
afterwards is the revenue before plus its `total_amount`. -/
theorem C27_revenue_added_is_order_total_witness :
    (emptyBackend.daily_statistics.filter (fun r => r.stat_date == exampleEnv.today)).length ≤ 1
    ∧ StaffDashboard.exampleState.cartItems ≠ []
    ∧ ∃ row, orderInserts (newCalls emptyBackend
          (StaffDashboard.handleCompleteOrder exampleEnv Faults.none emptyBackend
            StaffDashboard.exampleState).1) = [row]
        ∧ revenueOn exampleEnv.today
            (StaffDashboard.handleCompleteOrder exampleEnv Faults.none emptyBackend
              StaffDashboard.exampleState).1.daily_statistics
          = revenueOn exampleEnv.today emptyBackend.daily_statistics + row.total_amount :=
  ⟨by decide, by simp [StaffDashboard.exampleState],
    (C27_revenue_added_is_order_total exampleEnv emptyBackend CustomerDashboard.exampleState
      StaffDashboard.exampleState DashboardPage.exampleState (by decide)).2.1
      (by simp [StaffDashboard.exampleState])⟩

/-! ## C28 -/

theorem filter_map_date (date : String) (g : DailyStat → DailyStat)
    (hg : ∀ x, (g x).stat_date = x.stat_date) (rows : List DailyStat) :
    (rows.map (fun x => if x.stat_date == date then g x else x)).filter
        (fun x => x.stat_date == date)
      = (rows.filter (fun x => x.stat_date == date)).map g := by
  induction rows with
  | nil => rfl
  | cons x xs ih =>
    by_cases hx : x.stat_date = date
    · simp [List.filter_cons, hx, hg x, ih]
      simpa [hx] using ih
    · simp [List.filter_cons, hx, ih]
      simpa using ih

theorem StaffDashboard.staff_row_updated (env : Env) (b : Backend) (st : StaffDashboard.State)
    (hne : st.cartItems ≠ []) (r : DailyStat)
    (hrow : b.daily_statistics.filter (fun x => x.stat_date == env.today) = [r]) :
    (handleCompleteOrder env Faults.none b st).1.daily_statistics.filter
        (fun x => x.stat_date == env.today)
      = [{ r with
            total_revenue := r.total_revenue + orderTotal st.cartItems
            total_orders := r.total_orders + 1
            total_smiles := r.total_smiles + 1 }] := by
  rw [staff_reaches_write env Faults.none b st hne rfl rfl, Backend.selectDailyStatisticsSingle_fst]
  have hds : (afterInserts env b st).daily_statistics = b.daily_statistics := rfl
  have hdata : ((afterInserts env b st).selectDailyStatisticsSingle
      Faults.none.dailyStatisticsSelect env.today).2.data = some r :=
    Backend.selectDailyStatisticsSingle_data_one _ env.today r (by rw [hds]; exact hrow)
  rw [hdata]
  simp only [writeStatistics]
  have hw : Faults.none.dailyStatisticsWrite = none := rfl
  rw [hw, Backend.updateDailyStatistics_daily_statistics, Backend.record_daily_statistics, hds,
    filter_map_date env.today (Backend.applyUpdate
      { total_revenue := r.total_revenue + orderTotal st.cartItems
        total_orders := r.total_orders + 1
        total_customers := none
        total_smiles := some (r.total_smiles + 1)
        updated_at := none }) (fun x => rfl), hrow]
  rfl

theorem StaffDashboard.staff_row_inserted (env : Env) (b : Backend) (st : StaffDashboard.State)
    (hne : st.cartItems ≠ [])
    (hrow : b.daily_statistics.filter (fun x => x.stat_date == env.today) = []) :
    (handleCompleteOrder env Faults.none b st).1.daily_statistics.filter
        (fun x => x.stat_date == env.today)
      = [⟨env.today, orderTotal st.cartItems, 1, 1, 1, none⟩] := by
  rw [staff_reaches_write env Faults.none b st hne rfl rfl, Backend.selectDailyStatisticsSingle_fst]
  have hds : (afterInserts env b st).daily_statistics = b.daily_statistics := rfl
  have hdata : ((afterInserts env b st).selectDailyStatisticsSingle
      Faults.none.dailyStatisticsSelect env.today).2.data = none :=
    Backend.selectDailyStatisticsSingle_data_nil _ env.today (by rw [hds]; exact hrow)
  rw [hdata]
  simp only [writeStatistics]
  have hw : Faults.none.dailyStatisticsWrite = none := rfl
  rw [hw, Backend.insertDailyStatistics_daily_statistics, Backend.record_daily_statistics, hds,
    List.filter_append, hrow]
  simp

/-- C28: StaffDashboard, every call of the completion succeeding, non-empty cart.
When today's row exists and the local `stats` equal it (as the mount effect sets
them), then after `handleCompleteOrder` the local `stats` equal today's row
again, in all four fields. When no row for today exists and the local `stats`
are all zero (the initial value, which the mount effect leaves), the completion
inserts today's row with `total_customers` 1 while the local `customers` stays
0; revenue, orders and smiles agree. -/
theorem C28_staff_local_stats (env : Env) (b : Backend) (st : StaffDashboard.State)
    (hne : st.cartItems ≠ []) :
    (∀ r, b.daily_statistics.filter (fun x => x.stat_date == env.today) = [r] →
      ((StaffDashboard.fetchStatistics env none b st).2.stats = StaffDashboard.statsOfRow r)
      ∧ (st.stats = StaffDashboard.statsOfRow r →
        ∃ r', (StaffDashboard.handleCompleteOrder env Faults.none b st).1.daily_statistics.filter
              (fun x => x.stat_date == env.today) = [r']
          ∧ (StaffDashboard.handleCompleteOrder env Faults.none b st).2.stats
              = StaffDashboard.statsOfRow r'))
    ∧ (b.daily_statistics.filter (fun x => x.stat_date == env.today) = [] →
      ((StaffDashboard.fetchStatistics env none b st).2.stats = st.stats)
      ∧ (st.stats = ⟨0, 0, 0, 0⟩ →
        ∃ r', (StaffDashboard.handleCompleteOrder env Faults.none b st).1.daily_statistics.filter
              (fun x => x.stat_date == env.today) = [r']
          ∧ (StaffDashboard.handleCompleteOrder env Faults.none b st).2.stats.revenue
              = r'.total_revenue
          ∧ (StaffDashboard.handleCompleteOrder env Faults.none b st).2.stats.orders
              = r'.total_orders
          ∧ (StaffDashboard.handleCompleteOrder env Faults.none b st).2.stats.smiles
              = r'.total_smiles
          ∧ (StaffDashboard.handleCompleteOrder env Faults.none b st).2.stats.customers = 0
          ∧ r'.total_customers = 1)) := by
  have hst := (StaffDashboard.staff_complete_to_the_end env Faults.none b st hne rfl rfl).2.2.2
  refine ⟨fun r hrow => ⟨?_, fun hlocal => ⟨_, StaffDashboard.staff_row_updated env b st hne r hrow,
    ?_⟩⟩, fun hrow => ⟨?_, fun hlocal => ⟨_, StaffDashboard.staff_row_inserted env b st hne hrow,
    ?_⟩⟩⟩
  · simp only [StaffDashboard.fetchStatistics,
      Backend.selectDailyStatisticsSingle_data_one b env.today r hrow]
  · rw [hst]
    simp [StaffDashboard.succeeded, hlocal, StaffDashboard.statsOfRow]
  · simp only [StaffDashboard.fetchStatistics,
      Backend.selectDailyStatisticsSingle_data_nil b env.today hrow]
  · rw [hst]
    simp [StaffDashboard.succeeded, hlocal]

/-- The example cart (total 15.25) completed in StaffDashboard. On a store whose
row for today is (10, 2, 2, 2) with local stats equal to it, the row and the
local stats are both (25.25, 3, 2, 3) afterwards. On the empty store with local
stats all zero, the row inserted has `total_customers` 1 and the local
`customers` is 0. -/
theorem C28_staff_local_stats_witness :
    (∃ r', (StaffDashboard.handleCompleteOrder exampleEnv Faults.none todayBackend
          { StaffDashboard.exampleState with stats := ⟨10, 2, 2, 2⟩ }).1.daily_statistics.filter
            (fun x => x.stat_date == exampleEnv.today) = [r']
        ∧ (StaffDashboard.handleCompleteOrder exampleEnv Faults.none todayBackend
          { StaffDashboard.exampleState with stats := ⟨10, 2, 2, 2⟩ }).2.stats
            = StaffDashboard.statsOfRow r')
    ∧ (∃ r', (StaffDashboard.handleCompleteOrder exampleEnv Faults.none emptyBackend
          StaffDashboard.exampleState).1.daily_statistics.filter
            (fun x => x.stat_date == exampleEnv.today) = [r']
        ∧ (StaffDashboard.handleCompleteOrder exampleEnv Faults.none emptyBackend
          StaffDashboard.exampleState).2.stats.customers = 0
        ∧ r'.total_customers = 1) := by
  have hne : StaffDashboard.exampleState.cartItems ≠ [] := by simp [StaffDashboard.exampleState]
  constructor
  · exact ((C28_staff_local_stats exampleEnv todayBackend
      { StaffDashboard.exampleState with stats := ⟨10, 2, 2, 2⟩ } hne).1
        ⟨"2025-01-15", 10, 2, 2, 2, none⟩ (by decide)).2 rfl
  · obtain ⟨r', h1, -, -, -, h5, h6⟩ := ((C28_staff_local_stats exampleEnv emptyBackend
      StaffDashboard.exampleState hne).2 (by decide)).2 rfl
    exact ⟨r', h1, h5, h6⟩

/-! ## C25 -/

/-- A non-empty run of characters of the class `[^\s@]`. -/
theorem notSpaceAt_plus_rmatch (x : List EmailChar) :
    (notSpaceAt * .star notSpaceAt).rmatch x = true
      ↔ x ≠ [] ∧ ∀ a ∈ x, a = .dot ∨ a = .other := by
  have hone : ∀ t : List EmailChar, notSpaceAt.rmatch t = true ↔ t = [.dot] ∨ t = [.other] := by
    intro t
    unfold notSpaceAt
    rw [RegularExpression.add_rmatch_iff, RegularExpression.char_rmatch_iff,
      RegularExpression.char_rmatch_iff]
  rw [RegularExpression.mul_rmatch_iff]
  constructor
  · rintro ⟨t, u, rfl, ht, hu⟩
    rw [RegularExpression.star_rmatch_iff] at hu
    obtain ⟨S, rfl, hS⟩ := hu
    have ht2 := (hone t).1 ht
    refine ⟨by rcases ht2 with rfl | rfl <;> simp, fun a ha => ?_⟩
    rcases List.mem_append.1 ha with ha | ha
    · rcases ht2 with rfl | rfl <;> simp at ha <;> simp [ha]
    · obtain ⟨s, hs, has⟩ := List.mem_flatten.1 ha
      rcases (hone s).1 (hS s hs).2 with rfl | rfl <;> simp at has <;> simp [has]
  · rintro ⟨hne, hall⟩
    cases x with
    | nil => exact absurd rfl hne
    | cons a as =>
      refine ⟨[a], as, rfl, (hone [a]).2 ?_, ?_⟩
      · rcases hall a (List.mem_cons_self _ _) with rfl | rfl
        · exact Or.inl rfl
        · exact Or.inr rfl
      · rw [RegularExpression.star_rmatch_iff]
        refine ⟨as.map (fun d => [d]), ?_, ?_⟩
        · clear hall hne
          induction as with
          | nil => rfl
          | cons d ds ih => simp [List.flatten, ← ih]
        · intro t ht
          obtain ⟨d, hd, rfl⟩ := List.mem_map.1 ht
          refine ⟨by simp, (hone [d]).2 ?_⟩
          rcases hall d (List.mem_cons_of_mem _ hd) with rfl | rfl
          · exact Or.inl rfl
          · exact Or.inr rfl

theorem emailRegex_rmatch (x : List EmailChar) :
    emailRegex.rmatch x = true
      ↔ ∃ l d t : List EmailChar, x = l ++ .atSign :: d ++ .dot :: t
          ∧ (l ≠ [] ∧ ∀ a ∈ l, a = .dot ∨ a = .other)
          ∧ (d ≠ [] ∧ ∀ a ∈ d, a = .dot ∨ a = .other)
          ∧ (t ≠ [] ∧ ∀ a ∈ t, a = .dot ∨ a = .other) := by
  unfold emailRegex
  simp only [RegularExpression.mul_rmatch_iff _ (notSpaceAt * .star notSpaceAt),
    RegularExpression.mul_rmatch_iff _ (RegularExpression.char _),
    RegularExpression.char_rmatch_iff, notSpaceAt_plus_rmatch]
  constructor
  · rintro ⟨x4, t, rfl, ⟨x3, u2, rfl, ⟨x2, d, rfl, ⟨l, u1, rfl, hl, rfl⟩, hd⟩, rfl⟩, ht⟩
    exact ⟨l, d, t, by simp, hl, hd, ht⟩
  · rintro ⟨l, d, t, rfl, hl, hd, ht⟩
    exact ⟨l ++ [.atSign] ++ d ++ [.dot], t, by simp,
      ⟨l ++ [.atSign] ++ d, [.dot], rfl, ⟨l ++ [.atSign], d, rfl, ⟨l, [.atSign], rfl, hl, rfl⟩,
        hd⟩, rfl⟩, ht⟩

theorem ofChar_atSign (c : Char) : EmailChar.ofChar c = .atSign ↔ c = '@' := by
  unfold EmailChar.ofChar
  constructor
  · intro h
    split_ifs at h with h1 h2 h3
    exact h2
  · rintro rfl
    decide

theorem ofChar_dot (c : Char) : EmailChar.ofChar c = .dot ↔ c = '.' := by
  unfold EmailChar.ofChar
  constructor
  · intro h
    split_ifs at h with h1 h2 h3
    exact h3
  · rintro rfl
    decide

theorem ofChar_notSpaceAt (c : Char) :
    (EmailChar.ofChar c = .dot ∨ EmailChar.ofChar c = .other)
      ↔ isRegexSpace c = false ∧ c ≠ '@' := by
  unfold EmailChar.ofChar
  constructor
  · intro h
    split_ifs at h with h1 h2 h3
    · simp at h
    · simp at h
    · exact ⟨by simpa using h1, h2⟩
    · exact ⟨by simpa using h1, h2⟩
  · rintro ⟨h1, h2⟩
    simp only [h1, h2, if_false, Bool.false_eq_true]
    split_ifs <;> simp

theorem map_ofChar_good (cs : List Char) :
    ((cs.map EmailChar.ofChar) ≠ [] ∧ ∀ a ∈ cs.map EmailChar.ofChar, a = .dot ∨ a = .other)
      ↔ cs ≠ [] ∧ ∀ c ∈ cs, isRegexSpace c = false ∧ c ≠ '@' := by
  simp only [ne_eq, List.map_eq_nil_iff, List.mem_map, forall_exists_index, and_imp,
    forall_apply_eq_imp_iff₂, ofChar_notSpaceAt]

/-- `emailRegex.test(email)` holds exactly for the strings of the shape
local@domain.tld. -/
theorem emailRegexTest_iff (email : String) : emailRegexTest email = true ↔ EmailShape email := by
  unfold emailRegexTest EmailShape
  rw [emailRegex_rmatch]
  constructor
  · rintro ⟨l, d, t, h, hl, hd, ht⟩
    rw [List.append_assoc, List.map_eq_append_iff] at h
    obtain ⟨loc, rest, hsplit, rfl, hrest⟩ := h
    rw [List.cons_append, List.map_eq_cons_iff] at hrest
    obtain ⟨a, rest2, rfl, ha, hrest2⟩ := hrest
    rw [List.map_eq_append_iff] at hrest2
    obtain ⟨domain, rest3, rfl, rfl, hrest3⟩ := hrest2
    rw [List.map_eq_cons_iff] at hrest3
    obtain ⟨b, tld, rfl, hb, rfl⟩ := hrest3
    rw [ofChar_atSign] at ha
    rw [ofChar_dot] at hb
    subst ha hb
    rw [map_ofChar_good] at hl hd ht
    refine ⟨loc, domain, tld, by rw [hsplit]; simp, hl.1, hd.1, ht.1, fun c hc => ?_⟩
    rcases List.mem_append.1 hc with hc | hc
    · rcases List.mem_append.1 hc with hc | hc
      · exact hl.2 c hc
      · exact hd.2 c hc
    · exact ht.2 c hc
  · rintro ⟨loc, domain, tld, h, hl, hd, ht, hall⟩
    refine ⟨loc.map EmailChar.ofChar, domain.map EmailChar.ofChar, tld.map EmailChar.ofChar,
      ?_, ?_, ?_, ?_⟩
    · rw [h]
      simp [(ofChar_atSign _).2 rfl, (ofChar_dot _).2 rfl]
    · exact (map_ofChar_good loc).2 ⟨hl, fun c hc => hall c (by simp [hc])⟩
    · exact (map_ofChar_good domain).2 ⟨hd, fun c hc => hall c (by simp [hc])⟩
    · exact (map_ofChar_good tld).2 ⟨ht, fun c hc => hall c (by simp [hc])⟩

theorem SignUp.signUp_call_iff (reply : AuthReply) (st : SignUp.State) :
    (handleSignUp reply st).calls = [.signUpWithEmail st.email st.password st.fullName st.role]
      ↔ (st.email ≠ "" ∧ st.password ≠ "" ∧ st.confirmPassword ≠ "" ∧ st.fullName ≠ "")
        ∧ st.password = st.confirmPassword ∧ 6 ≤ jsLength st.password
        ∧ emailRegexTest st.email = true := by
  unfold handleSignUp
  split_ifs with h1 h2 h3 h4
  · constructor
    · intro h; cases h
    · rintro ⟨⟨a, b, c, d⟩, -⟩
      rcases h1 with h | h | h | h <;> contradiction
  · constructor
    · intro h; cases h
    · rintro ⟨-, h, -⟩; exact absurd h h2
  · constructor
    · intro h; cases h
    · rintro ⟨-, -, h6, -⟩; omega
  · constructor
    · intro h; cases h
    · rintro ⟨-, -, -, h⟩; rw [h4] at h; cases h
  · have h1' : st.email ≠ "" ∧ st.password ≠ "" ∧ st.confirmPassword ≠ "" ∧ st.fullName ≠ "" := by
      simpa [not_or] using h1
    have h2' : st.password = st.confirmPassword := by simpa using h2
    have h4' : emailRegexTest st.email = true := by simpa using h4
    refine ⟨fun _ => ⟨h1', h2', by omega, h4'⟩, fun _ => ?_⟩
    cases reply.error with
    | some e => rfl
    | none => cases reply.user <;> rfl

theorem SignUp.signUp_rejected (reply : AuthReply) (st : SignUp.State)
    (h : (handleSignUp reply st).calls
      ≠ [.signUpWithEmail st.email st.password st.fullName st.role]) :
    (handleSignUp reply st).calls = []
      ∧ (handleSignUp reply st).state.error ∈ validationErrors
      ∧ (handleSignUp reply st).state.loading = false
      ∧ (handleSignUp reply st).onSignUpSuccess = none := by
  unfold handleSignUp at h ⊢
  split_ifs at h ⊢ with h1 h2 h3 h4
  · exact ⟨rfl, by simp [validationErrors], rfl, rfl⟩
  · exact ⟨rfl, by simp [validationErrors], rfl, rfl⟩
  · exact ⟨rfl, by simp [validationErrors], rfl, rfl⟩
  · exact ⟨rfl, by simp [validationErrors], rfl, rfl⟩
  · exfalso
    apply h
    cases reply.error with
    | some e => rfl
    | none => cases reply.user <;> rfl

theorem SignIn.signIn_call_iff (reply : AuthReply) (rememberEmail : Option String)
    (st : SignIn.State) :
    (handleSignIn reply rememberEmail st).calls = [.signInWithEmail st.email st.password]
      ↔ (st.email ≠ "" ∧ st.password ≠ "") ∧ emailRegexTest st.email = true := by
  unfold handleSignIn
  split_ifs with h1 h2
  · constructor
    · intro h; cases h
    · rintro ⟨⟨a, b⟩, -⟩
      rcases h1 with h | h <;> contradiction
  · constructor
    · intro h; cases h
    · rintro ⟨-, h⟩; rw [h2] at h; cases h
  all_goals
    have h1' : st.email ≠ "" ∧ st.password ≠ "" := by simpa [not_or] using h1
    have h2' : emailRegexTest st.email = true := by simpa using h2
    refine ⟨fun _ => ⟨h1', h2'⟩, fun _ => ?_⟩
    cases reply.error with
    | some e => rfl
    | none => cases reply.user <;> rfl

theorem SignIn.signIn_rejected (reply : AuthReply) (rememberEmail : Option String)
    (st : SignIn.State)
    (h : (handleSignIn reply rememberEmail st).calls ≠ [.signInWithEmail st.email st.password]) :
    (handleSignIn reply rememberEmail st).calls = []
      ∧ (handleSignIn reply rememberEmail st).state.error ∈ validationErrors
      ∧ (handleSignIn reply rememberEmail st).state.loading = false
      ∧ (handleSignIn reply rememberEmail st).onSignInSuccess = none := by
  unfold handleSignIn at h ⊢
  split_ifs at h ⊢ with h1 h2
  · exact ⟨rfl, by simp [validationErrors], rfl, rfl⟩
  · exact ⟨rfl, by simp [validationErrors], rfl, rfl⟩
  all_goals
    exfalso
    apply h
    cases reply.error with
    | some e => rfl
    | none => cases reply.user <;> rfl

/-- C25: `SignUp.handleSignUp` calls `signUpWithEmail` (once, with the email,
password, full name and role of the form) if and only if all four fields are
non-empty, the password equals its confirmation, the password has at least 6
characters (`password.length`, in UTF-16 code units) and the email has the
shape local@domain.tld with no white space and no other `@`;
`SignIn.handleSignIn` calls `signInWithEmail` (once, with the email and
password of the form) if and only if email and password are non-empty and the
email has that shape. Otherwise no auth call is made, the inline error is set to
one of the validation messages, loading ends false and the success callback is
not called. -/
theorem C25_auth_forms_validate (reply : AuthReply) (rememberEmail : Option String)
    (signUp : SignUp.State) (signIn : SignIn.State) :
    ((SignUp.handleSignUp reply signUp).calls
        = [.signUpWithEmail signUp.email signUp.password signUp.fullName signUp.role]
      ↔ (signUp.email ≠ "" ∧ signUp.password ≠ "" ∧ signUp.confirmPassword ≠ ""
          ∧ signUp.fullName ≠ "")
        ∧ signUp.password = signUp.confirmPassword ∧ 6 ≤ jsLength signUp.password
        ∧ EmailShape signUp.email)
    ∧ ((SignUp.handleSignUp reply signUp).calls
        ≠ [.signUpWithEmail signUp.email signUp.password signUp.fullName signUp.role] →
      (SignUp.handleSignUp reply signUp).calls = []
        ∧ (SignUp.handleSignUp reply signUp).state.error ∈ SignUp.validationErrors
        ∧ (SignUp.handleSignUp reply signUp).state.loading = false
        ∧ (SignUp.handleSignUp reply signUp).onSignUpSuccess = none)
    ∧ ((SignIn.handleSignIn reply rememberEmail signIn).calls
        = [.signInWithEmail signIn.email signIn.password]
      ↔ (signIn.email ≠ "" ∧ signIn.password ≠ "") ∧ EmailShape signIn.email)
    ∧ ((SignIn.handleSignIn reply rememberEmail signIn).calls
        ≠ [.signInWithEmail signIn.email signIn.password] →
      (SignIn.handleSignIn reply rememberEmail signIn).calls = []
        ∧ (SignIn.handleSignIn reply rememberEmail signIn).state.error ∈ SignIn.validationErrors
        ∧ (SignIn.handleSignIn reply rememberEmail signIn).state.loading = false
        ∧ (SignIn.handleSignIn reply rememberEmail signIn).onSignInSuccess = none) := by
  refine ⟨?_, SignUp.signUp_rejected reply signUp, ?_,
    SignIn.signIn_rejected reply rememberEmail signIn⟩
  · rw [SignUp.signUp_call_iff, emailRegexTest_iff]
  · rw [SignIn.signIn_call_iff, emailRegexTest_iff]

/-- The filled example forms (email "ana@example.com", password "secret1") lead
to the auth call. With the email "ana@example" the sign-in form makes no call
and shows "Please enter a valid email address". -/
theorem C25_auth_forms_validate_witness :
    (SignUp.handleSignUp exampleReply SignUp.exampleState).calls
        = [.signUpWithEmail "ana@example.com" "secret1" "Ana" "staff"]
    ∧ EmailShape "ana@example.com"
    ∧ (SignIn.handleSignIn exampleReply none
          { SignIn.exampleState with email := "ana@example" }).calls = []
    ∧ ¬ EmailShape "ana@example" := by
  have h := C25_auth_forms_validate exampleReply none SignUp.exampleState
    { SignIn.exampleState with email := "ana@example" }
  have hcall : (SignUp.handleSignUp exampleReply SignUp.exampleState).calls
      = [.signUpWithEmail "ana@example.com" "secret1" "Ana" "staff"] := by decide
  have hno : (SignIn.handleSignIn exampleReply none
      { SignIn.exampleState with email := "ana@example" }).calls = [] := by decide
  refine ⟨hcall, (h.1.1 hcall).2.2.2, hno, fun hs => ?_⟩
  have := h.2.2.1.2 ⟨⟨by decide, by decide⟩, hs⟩
  rw [hno] at this
  cases this

/-! ## C24 -/

theorem parseUnsignedDecimal_nonneg (cs : List Char) (q : ℚ)
    (h : parseUnsignedDecimal cs = some q) : 0 ≤ q := by
  unfold parseUnsignedDecimal at h
  simp only at h
  split_ifs at h
  simp only [Option.some.injEq] at h
  rw [← h]
  positivity

theorem doubleOfMagnitude_nonneg (m d : ℚ) (hm : 0 ≤ m) (h : doubleOfMagnitude m = some d) :
    0 ≤ d := by
  unfold doubleOfMagnitude at h
  split_ifs at h
  · simp only [Option.some.injEq] at h
    rw [← h]
  · simp only [Option.some.injEq] at h
    rw [← h]
    exact hm

theorem digit_toNat (c : Char) (hc : c.isDigit = true) : 48 ≤ c.toNat ∧ c.toNat ≤ 57 := by
  simp only [Char.isDigit, Bool.and_eq_true, decide_eq_true_eq] at hc
  exact ⟨hc.1, hc.2⟩

theorem digit_not_space (c : Char) (hc : c.isDigit = true) : isRegexSpace c = false := by
  obtain ⟨h1, h2⟩ := digit_toNat c hc
  simp only [isRegexSpace, Bool.or_eq_false_iff, decide_eq_false_iff_not, Bool.and_eq_false_iff,
    List.mem_cons, List.mem_singleton, List.not_mem_nil, or_false, not_or]
  omega

/-- The text after the sign of a valid floating-point number starts with a digit
or with `.`, and denotes a magnitude. -/
theorem valid_body (body : List Char)
    (h : (match (match body.dropWhile Char.isDigit with
          | '.' :: r =>
            if r.takeWhile Char.isDigit = [] then none else some (r.dropWhile Char.isDigit)
          | r => if body.takeWhile Char.isDigit = [] then none else some r) with
        | none => false
        | some [] => true
        | some (c :: r) =>
          (c == 'e' || c == 'E') &&
            (match r with
              | '-' :: digits => !digits.isEmpty && digits.all Char.isDigit
              | '+' :: digits => !digits.isEmpty && digits.all Char.isDigit
              | digits => !digits.isEmpty && digits.all Char.isDigit)) = true) :
    (∃ c r, body = c :: r ∧ (c.isDigit = true ∨ c = '.'))
      ∧ ∃ m, parseUnsignedDecimal body = some m := by
  cases body with
  | nil => simp at h
  | cons c r =>
    by_cases hc : c.isDigit = true
    · refine ⟨⟨c, r, rfl, Or.inl hc⟩, ?_⟩
      unfold parseUnsignedDecimal
      simp only
      rw [if_neg]
      · exact ⟨_, rfl⟩
      · rintro ⟨h0, -⟩
        rw [List.takeWhile_cons, hc] at h0
        cases h0
    · have hc' : c.isDigit = false := by simpa using hc
      have htw : (c :: r).takeWhile Char.isDigit = [] := by
        rw [List.takeWhile_cons, hc']; rfl
      have hdw : (c :: r).dropWhile Char.isDigit = c :: r := by
        rw [List.dropWhile_cons, hc']; rfl
      rw [hdw, htw] at h
      by_cases hdot : c = '.'
      · subst hdot
        refine ⟨⟨'.', r, rfl, Or.inr rfl⟩, ?_⟩
        simp only at h
        by_cases hfr : r.takeWhile Char.isDigit = []
        · rw [if_pos hfr] at h
          simp at h
        · unfold parseUnsignedDecimal
          simp only [hdw, htw]
          rw [if_neg]
          · exact ⟨_, rfl⟩
          · rintro ⟨-, h0⟩
            exact hfr h0
      · exfalso
        have hinner : (match c :: r with
            | '.' :: r =>
              if r.takeWhile Char.isDigit = [] then none else some (r.dropWhile Char.isDigit)
            | r => if ([] : List Char) = [] then none else some r) = none := by
          split
          · rename_i r' heq
            simp only [List.cons.injEq] at heq
            exact absurd heq.1 hdot
          · rfl
        rw [hinner] at h
        simp at h

theorem not_infinity_prefix (c : Char) (r : List Char) (hc : c.isDigit = true ∨ c = '.') :
    ¬ ("Infinity".data <+: c :: r) := by
  rintro ⟨t, ht⟩
  have h1 : 'I' = c := by
    have := congrArg List.head? ht
    simpa using this
  subst h1
  rcases hc with hc | hc
  · revert hc; decide
  · revert hc; decide

theorem numberInputValue_minus (value : String) (body : List Char)
    (hv : value.data = '-' :: body) (q : ℚ) (h : numberInputValue value = some q) :
    parseFloat value = .finite q := by
  unfold numberInputValue at h
  rw [hv] at h
  split_ifs at h with hvalid
  obtain ⟨⟨c, r, hbody, hc⟩, m, hm⟩ := valid_body body hvalid
  simp only [hm] at h
  have htrim : value.data.dropWhile isRegexSpace = '-' :: body := by
    rw [hv, List.dropWhile_cons]
    rfl
  have hinf : ¬ ("Infinity".data <+: body) := by
    rw [hbody]; exact not_infinity_prefix c r hc
  unfold parseFloat
  simp only [htrim, hm, if_neg hinf]
  cases hd : doubleOfMagnitude m with
  | none => rw [hd] at h; cases h
  | some d =>
    rw [hd] at h
    simp only [Option.some.injEq] at h
    simp only [h]

theorem numberInputValue_plain (value : String) (hv : ∀ body, value.data ≠ '-' :: body)
    (q : ℚ) (h : numberInputValue value = some q) :
    parseFloat value = .finite q := by
  have hbody0 : (match value.data with
      | '-' :: r => r
      | r => r) = value.data := by
    split
    · rename_i r hr; exact absurd hr (hv r)
    · rfl
  have hneg0 : (match value.data with
      | '-' :: _ => true
      | _ => false) = false := by
    split
    · rename_i r hr; exact absurd hr (hv r)
    · rfl
  unfold numberInputValue at h
  split_ifs at h with hvalid
  unfold isValidFloatingPointNumber at hvalid
  simp only [hbody0] at hvalid
  obtain ⟨⟨c, r, hbody, hc⟩, m, hm⟩ := valid_body value.data hvalid
  simp only [hbody0, hneg0, hm] at h
  have hsp : isRegexSpace c = false := by
    rcases hc with hc | hc
    · exact digit_not_space c hc
    · subst hc; decide
  have hminus : c ≠ '-' := by
    rintro rfl
    exact hv r hbody
  have hplus : c ≠ '+' := by
    rintro rfl
    rcases hc with hc | hc
    · revert hc; decide
    · revert hc; decide
  have htrim : value.data.dropWhile isRegexSpace = c :: r := by
    rw [hbody, List.dropWhile_cons, hsp]
    rfl
  have hbody1 : (match c :: r with
      | '-' :: r => r
      | '+' :: r => r
      | r => r) = c :: r := by
    split
    · rename_i r' hr; cases hr; exact absurd rfl hminus
    · rename_i r' hr; cases hr; exact absurd rfl hplus
    · rfl
  have hneg1 : (match c :: r with
      | '-' :: _ => true
      | _ => false) = false := by
    split
    · rename_i r' hr; cases hr; exact absurd rfl hminus
    · rfl
  have hinf : ¬ ("Infinity".data <+: c :: r) := not_infinity_prefix c r hc
  rw [hbody] at hm
  unfold parseFloat
  simp only [htrim, hbody1, hneg1, hm, if_neg hinf]
  cases hd : doubleOfMagnitude m with
  | none => rw [hd] at h; cases h
  | some d =>
    rw [hd] at h
    simp only [Bool.false_eq_true, if_false, Option.some.injEq] at h
    simp only [h, Bool.false_eq_true, if_false]

/-- On a value the number input reads as a number, `parseFloat` returns that
number. -/
theorem parseFloat_of_numberInputValue (value : String) (q : ℚ)
    (h : numberInputValue value = some q) : parseFloat value = .finite q := by
  by_cases hv : ∃ body, value.data = '-' :: body
  · obtain ⟨body, hb⟩ := hv
    exact numberInputValue_minus value body hb q h
  · exact numberInputValue_plain value (fun body hb => hv ⟨body, hb⟩) q h

namespace MenuManagement

theorem handleSave_rejects (env : Env) (replies : Replies) (calls : List MenuCall) (st : State)
    (h : st.formData.name = "" ∨ st.formData.price = "") :
    handleSave env replies calls st
      = (calls, { st with alerts := st.alerts ++ ["Please fill in all required fields"] }) := by
  simp only [handleSave, h, if_true]

theorem fetchMenuItems_calls (select : Response (List MenuItem)) (calls : List MenuCall)
    (st : State) : (fetchMenuItems select calls st).1 = calls ++ [.select] := by
  unfold fetchMenuItems
  split <;> rfl

theorem handleSave_updates (env : Env) (replies : Replies) (calls : List MenuCall) (st : State)
    (hname : st.formData.name ≠ "") (hprice : st.formData.price ≠ "") (id : Nat)
    (hid : st.editingId = some (id + 1)) :
    (handleSave env replies calls st).1
      = calls ++ .update (id + 1) (updatePatch env st)
          :: (if replies.write = none then [.select] else []) := by
  have hg : ¬ (st.formData.name = "" ∨ st.formData.price = "") := by
    simp [hname, hprice]
  unfold handleSave
  rw [if_neg hg, hid]
  cases hw : replies.write with
  | some error => simp [updatePatch]
  | none => simp [fetchMenuItems_calls, updatePatch]

theorem handleSave_inserts (env : Env) (replies : Replies) (calls : List MenuCall) (st : State)
    (hname : st.formData.name ≠ "") (hprice : st.formData.price ≠ "")
    (hid : st.editingId = none ∨ st.editingId = some 0) :
    (handleSave env replies calls st).1
      = calls ++ .insert (insertRow st) :: (if replies.write = none then [.select] else []) := by
  have hg : ¬ (st.formData.name = "" ∨ st.formData.price = "") := by
    simp [hname, hprice]
  unfold handleSave
  rw [if_neg hg]
  rcases hid with hid | hid <;> rw [hid] <;> cases hw : replies.write <;>
    simp [fetchMenuItems_calls, insertRow]

theorem editingId_cases (st : State) :
    (∃ id, st.editingId = some (id + 1)) ∨ st.editingId = none ∨ st.editingId = some 0 := by
  cases he : st.editingId with
  | none => exact Or.inr (Or.inl rfl)
  | some n =>
    cases n with
    | zero => exact Or.inr (Or.inr rfl)
    | succ m => exact Or.inl ⟨m, rfl⟩

theorem handleSave_writes (env : Env) (replies : Replies) (calls : List MenuCall) (st : State)
    (hname : st.formData.name ≠ "") (hprice : st.formData.price ≠ "") :
    ∃ added, (handleSave env replies calls st).1 = calls ++ added
      ∧ writtenPrices added = [parseFloat st.formData.price] := by
  rcases editingId_cases st with ⟨id, hid⟩ | hid
  · refine ⟨_, handleSave_updates env replies calls st hname hprice id hid, ?_⟩
    split <;> rfl
  · refine ⟨_, handleSave_inserts env replies calls st hname hprice hid, ?_⟩
    split <;> rfl

end MenuManagement

/-- A non-empty price text the price field lets through is read by `parseFloat` as
a number that is not negative. -/
theorem priceInputValid_parseFloat (value : String) (hne : value ≠ "")
    (h : MenuManagement.priceInputValid value = true) :
    ∃ q, parseFloat value = .finite q ∧ 0 ≤ q := by
  unfold MenuManagement.priceInputValid at h
  have h0 : (value == "") = false := by
    simp only [beq_eq_false_iff_ne, ne_eq]
    exact hne
  rw [h0, Bool.false_or] at h
  cases hq : numberInputValue value with
  | none => rw [hq] at h; cases h
  | some q =>
    rw [hq] at h
    simp only [decide_eq_true_eq] at h
    exact ⟨q, parseFloat_of_numberInputValue value q hq, h⟩

/-- What the price field and `parseFloat` make of some price texts: "5.50" and
"1e+2" pass the field and are read as 5.5 and 100; "-5" is below `min`; "1e400" is
beyond the doubles, so the field holds no number and `parseFloat` gives
`Infinity`; "abc" is no number at all. -/
theorem price_texts :
    MenuManagement.priceInputValid "5.50" = true ∧ parseFloat "5.50" = .finite (11 / 2)
    ∧ MenuManagement.priceInputValid "1e+2" = true ∧ parseFloat "1e+2" = .finite 100
    ∧ MenuManagement.priceInputValid "-5" = false ∧ parseFloat "-5" = .finite (-5)
    ∧ MenuManagement.priceInputValid "1e400" = false ∧ parseFloat "1e400" = .infinity false
    ∧ MenuManagement.priceInputValid "abc" = false ∧ parseFloat "abc" = .nan := by
  refine ⟨?_, ?_, ?_, ?_, ?_, ?_, ?_, ?_, ?_, ?_⟩
  · simp [MenuManagement.priceInputValid, numberInputValue, isValidFloatingPointNumber,
      parseUnsignedDecimal, parseExponent, natOfDigits, doubleOfMagnitude]
    norm_num
  · simp [parseFloat, parseUnsignedDecimal, parseExponent, natOfDigits, isRegexSpace,
      doubleOfMagnitude]
    norm_num
  · simp [MenuManagement.priceInputValid, numberInputValue, isValidFloatingPointNumber,
      parseUnsignedDecimal, parseExponent, natOfDigits, doubleOfMagnitude]
    norm_num
  · simp [parseFloat, parseUnsignedDecimal, parseExponent, natOfDigits, isRegexSpace,
      doubleOfMagnitude]
    norm_num
  · simp [MenuManagement.priceInputValid, numberInputValue, isValidFloatingPointNumber,
      parseUnsignedDecimal, parseExponent, natOfDigits, doubleOfMagnitude]
    norm_num
  · simp [parseFloat, parseUnsignedDecimal, parseExponent, natOfDigits, isRegexSpace,
      doubleOfMagnitude]
    norm_num
  · simp [MenuManagement.priceInputValid, numberInputValue, isValidFloatingPointNumber,
      parseUnsignedDecimal, parseExponent, natOfDigits, doubleOfMagnitude]
    norm_num
  · simp [parseFloat, parseUnsignedDecimal, parseExponent, natOfDigits, isRegexSpace,
      doubleOfMagnitude]
    norm_num
  · simp [MenuManagement.priceInputValid, numberInputValue, isValidFloatingPointNumber,
      parseUnsignedDecimal, parseExponent, natOfDigits, doubleOfMagnitude]
  · simp [parseFloat, parseUnsignedDecimal, parseExponent, natOfDigits, isRegexSpace,
      doubleOfMagnitude]


/-- C24: a form whose name or price is empty makes `handleSave` issue no call at
all (it alerts "Please fill in all required fields"). A form `handleSave`
accepts, with a price text the price field lets through to the submit event
(`input type="number" min="0"` inside `form onSubmit={handleSave}`), makes it
issue exactly one write, an update of the edited item or an insert, and the unit
price written, `parseFloat(formData.price)`, is a number that is not negative.
Whatever the price text, a form with a name and a price makes `handleSave` issue
exactly one write, whose unit price is `parseFloat(formData.price)`. -/
theorem C24_handleSave_price (env : Env) (replies : MenuManagement.Replies)
    (calls : List MenuCall) (st : MenuManagement.State) :
    ((st.formData.name = "" ∨ st.formData.price = "") →
      (MenuManagement.handleSave env replies calls st).1 = calls
        ∧ (MenuManagement.handleSave env replies calls st).2.alerts
            = st.alerts ++ ["Please fill in all required fields"])
    ∧ (st.formData.name ≠ "" → st.formData.price ≠ "" →
      MenuManagement.priceInputValid st.formData.price = true →
      ∃ added q, (MenuManagement.handleSave env replies calls st).1 = calls ++ added
        ∧ MenuManagement.writtenPrices added = [.finite q] ∧ 0 ≤ q)
    ∧ (st.formData.name ≠ "" → st.formData.price ≠ "" →
      ∃ added, (MenuManagement.handleSave env replies calls st).1 = calls ++ added
        ∧ MenuManagement.writtenPrices added = [parseFloat st.formData.price]) := by
  refine ⟨fun h => ?_, fun hname hprice hvalid => ?_,
    MenuManagement.handleSave_writes env replies calls st⟩
  · rw [MenuManagement.handleSave_rejects env replies calls st h]
    exact ⟨rfl, rfl⟩
  · obtain ⟨added, ha, hw⟩ := MenuManagement.handleSave_writes env replies calls st hname hprice
    obtain ⟨q, hq, hq0⟩ := priceInputValid_parseFloat st.formData.price hprice hvalid
    exact ⟨added, q, ha, by rw [hw, hq], hq0⟩

/-- The "Add Item" form with name "Caramel Latte": the price text "5.50" passes the
price field, and one write is issued whose price is a number that is not
negative; with an empty price nothing is issued. -/
theorem C24_handleSave_price_witness :
    MenuManagement.priceInputValid (MenuManagement.formWithPrice "5.50").formData.price = true
    ∧ (∃ added q, (MenuManagement.handleSave exampleEnv ⟨none, ⟨some [], none⟩⟩ []
          (MenuManagement.formWithPrice "5.50")).1 = [] ++ added
        ∧ MenuManagement.writtenPrices added = [.finite q] ∧ 0 ≤ q)
    ∧ (MenuManagement.handleSave exampleEnv ⟨none, ⟨some [], none⟩⟩ []
          (MenuManagement.formWithPrice "")).1 = [] := by
  have hvalid :
      MenuManagement.priceInputValid (MenuManagement.formWithPrice "5.50").formData.price
        = true := by
    simp [MenuManagement.formWithPrice, MenuManagement.priceInputValid, numberInputValue,
      isValidFloatingPointNumber, parseUnsignedDecimal, parseExponent, natOfDigits,
      doubleOfMagnitude]
    norm_num
  exact ⟨hvalid,
    (C24_handleSave_price exampleEnv ⟨none, ⟨some [], none⟩⟩ []
      (MenuManagement.formWithPrice "5.50")).2.1 (by decide) (by decide) hvalid,
    ((C24_handleSave_price exampleEnv ⟨none, ⟨some [], none⟩⟩ []
      (MenuManagement.formWithPrice "")).1 (Or.inr rfl)).1⟩

end CoffeePOS
